import Mathlib

/- Verification development for the spl_core loudspeaker-simulation package
   (sealed/vented lumped-element solvers, measurement comparison, Bayesian
   calibration, Monte Carlo tolerance analysis).

   Modelling conventions:
   * Python floats are modelled by exact rationals (ℚ).  Float literals in the
     source become the corresponding decimal rationals.
   * The transcendental float functions (math.sqrt, math.log10, math.log,
     powers of 10 and 2) and the string formatting of floats are abstracted
     into a bundle of function parameters (RealFns); no claim below depends on
     their numeric values beyond simple algebraic facts that are stated as
     hypotheses where needed.
   * math.isnan is constantly false and math.isfinite constantly true on this
     exact model: rationals model only the finite, non-NaN floats.
   * Python exceptions are modelled with Except String; a function that cannot
     raise in the source is total here.
   * Python complex numbers are modelled by pairs of rationals (Cx below) with
     the exact field operations.
-/

set_option maxRecDepth 10000

/-- Models for the transcendental float operations and float formatting used
by the Python sources: math.sqrt, math.log10, math.log, the powers 10 ** x and
2 ** x, and the f-string formatters (percent with no decimals, fixed one or
two decimals, signed three decimals). -/
structure RealFns where
  sqrt : ℚ → ℚ
  log10 : ℚ → ℚ
  ln : ℚ → ℚ
  pow10 : ℚ → ℚ
  pow2 : ℚ → ℚ
  fmtPct : ℚ → String
  fmtFix1 : ℚ → String
  fmtFix2 : ℚ → String
  fmtSign1 : ℚ → String
  fmtSign3 : ℚ → String

/-- Models math.isnan: the exact rational model carries no NaN values. -/
def math_isnan (_ : ℚ) : Bool := false

/-- Models math.isfinite: every rational models a finite float. -/
def math_isfinite (_ : ℚ) : Bool := true

/-- Complex numbers with exact rational components, modelling Python complex
arithmetic. -/
structure Cx where
  re : ℚ
  im : ℚ
deriving DecidableEq, Repr

/-- Embeds a rational as a complex value with zero imaginary part. -/
def Cx.ofQ (q : ℚ) : Cx := ⟨q, 0⟩

/-- Complex addition. -/
def Cx.add (z w : Cx) : Cx := ⟨z.re + w.re, z.im + w.im⟩

/-- Complex subtraction. -/
def Cx.sub (z w : Cx) : Cx := ⟨z.re - w.re, z.im - w.im⟩

/-- Complex multiplication. -/
def Cx.mul (z w : Cx) : Cx :=
  ⟨z.re * w.re - z.im * w.im, z.re * w.im + z.im * w.re⟩

/-- Squared modulus. -/
def Cx.normSq (z : Cx) : ℚ := z.re * z.re + z.im * z.im

/-- Complex reciprocal (conjugate over squared modulus). -/
def Cx.inv (z : Cx) : Cx := ⟨z.re / z.normSq, -z.im / z.normSq⟩

/-- Complex division. -/
def Cx.div (z w : Cx) : Cx := z.mul w.inv

instance : Add Cx := ⟨Cx.add⟩

instance : Sub Cx := ⟨Cx.sub⟩

instance : Mul Cx := ⟨Cx.mul⟩

/-- Modulus of a Python complex, through the sqrt model. -/
def Cx.absWith (R : RealFns) (z : Cx) : ℚ := R.sqrt z.normSq

/-- Models Python max over a possibly empty float list with a default
(max(xs, default=d)). -/
def pymax (l : List ℚ) (d : ℚ) : ℚ :=
  match l with
  | [] => d
  | x :: r => r.foldl max x

/-- Models Python min over a nonempty float list (min(xs)); callers in the
source only reach it on nonempty lists. -/
def pymin (l : List ℚ) : ℚ :=
  match l with
  | [] => 0
  | x :: r => r.foldl min x

/- ----------------------------------------------------------------------
   drivers.py: physical parameter model
   ---------------------------------------------------------------------- -/

/-- Air density constant from drivers.py (kg/m^3 at 20 degrees C). -/
def AIR_DENSITY : ℚ := 1.2041

/-- Speed of sound constant from drivers.py (m/s at 20 degrees C). -/
def SPEED_OF_SOUND : ℚ := 343

/-- Rational model of the float constant math.pi. -/
def piQ : ℚ := 3.141592653589793

/-- Thiele/Small parameter set (drivers.py DriverParameters).  vas_l and
xmax_mm are optional exactly as in the source. -/
structure DriverParameters where
  fs_hz : ℚ
  qts : ℚ
  re_ohm : ℚ
  bl_t_m : ℚ
  mms_kg : ℚ
  sd_m2 : ℚ
  le_h : ℚ
  vas_l : Option ℚ
  xmax_mm : Option ℚ
deriving DecidableEq, Repr

/-- DriverParameters.compliance: Cms = 1 / ((2 pi fs)^2 mms). -/
def DriverParameters.compliance (d : DriverParameters) : ℚ :=
  1 / ((2 * piQ * d.fs_hz) ^ 2 * d.mms_kg)

/-- DriverParameters.qes: electrical Q. -/
def DriverParameters.qes (d : DriverParameters) : ℚ :=
  (2 * piQ * d.fs_hz * d.mms_kg * d.re_ohm) / (d.bl_t_m ^ 2)

/-- DriverParameters.qms.  The source raises when qes is non-positive; every
theorem below only evaluates it on drivers with positive physical fields,
where qes is positive, so the raise branch is unreachable and omitted.  When
1/qts - 1/qes is non-positive the source falls back to the lightly damped
assumption inv_qms = 1 / (qts * 1.2), i.e. qms = qts * 1.2. -/
def DriverParameters.qms (d : DriverParameters) : ℚ :=
  let inv_qms := 1 / d.qts - 1 / d.qes
  if inv_qms ≤ 0 then d.qts * 1.2 else 1 / inv_qms

/-- DriverParameters.mechanical_resistance: Rms = (2 pi fs mms) / qms. -/
def DriverParameters.mechanical_resistance (d : DriverParameters) : ℚ :=
  (2 * piQ * d.fs_hz * d.mms_kg) / d.qms

/-- DriverParameters.xmax_m: linear excursion limit in metres when given. -/
def DriverParameters.xmax_m (d : DriverParameters) : Option ℚ :=
  d.xmax_mm.map (fun x => x / 1000)

/-- Sealed enclosure parameters (drivers.py BoxDesign). -/
structure BoxDesign where
  volume_l : ℚ
  leakage_q : ℚ
deriving DecidableEq, Repr

/-- BoxDesign.volume_m3. -/
def BoxDesign.volume_m3 (b : BoxDesign) : ℚ := b.volume_l / 1000

/-- BoxDesign.air_compliance: Cab referenced to the cone. -/
def BoxDesign.air_compliance (b : BoxDesign) (d : DriverParameters) : ℚ :=
  b.volume_m3 / (AIR_DENSITY * SPEED_OF_SOUND ^ 2 * d.sd_m2 ^ 2)

/-- Circular port parameters (drivers.py PortGeometry). -/
structure PortGeometry where
  diameter_m : ℚ
  length_m : ℚ
  count : ℤ
  flare_factor : ℚ
  loss_q : ℚ
deriving DecidableEq, Repr

/-- PortGeometry.area_m2: combined cross-sectional area of max(count, 1)
ports. -/
def PortGeometry.area_m2 (p : PortGeometry) : ℚ :=
  let radius := p.diameter_m / 2
  (piQ * radius ^ 2) * ((max p.count 1 : ℤ) : ℚ)

/-- PortGeometry.effective_length_m: physical length plus flare end
correction. -/
def PortGeometry.effective_length_m (p : PortGeometry) : ℚ :=
  p.length_m + p.flare_factor * (p.diameter_m / 2)

/-- PortGeometry.acoustic_mass: Map = rho * effective length / area.  The
source raises when the area is non-positive; the claims below only evaluate it
at positive diameters, where the area is positive. -/
def PortGeometry.acoustic_mass (p : PortGeometry) : ℚ :=
  AIR_DENSITY * p.effective_length_m / p.area_m2

/-- PortGeometry.tuning_frequency: f0 = (1 / sqrt(Map * Cab)) / (2 pi). -/
def PortGeometry.tuning_frequency (R : RealFns) (p : PortGeometry)
    (cab_acoustic : ℚ) : ℚ :=
  (1 / R.sqrt (p.acoustic_mass * cab_acoustic)) / (2 * piQ)

/-- PortGeometry.series_resistance: omega0 * Map / max(loss_q, 0.5). -/
def PortGeometry.series_resistance (R : RealFns) (p : PortGeometry)
    (cab_acoustic : ℚ) : ℚ :=
  let loss_q := max p.loss_q 0.5
  let omega0 := 2 * piQ * p.tuning_frequency R cab_acoustic
  omega0 * p.acoustic_mass / loss_q

/-- Bass-reflex enclosure parameters (drivers.py VentedBoxDesign). -/
structure VentedBoxDesign where
  volume_l : ℚ
  port : PortGeometry
  leakage_q : ℚ
deriving DecidableEq, Repr

/-- VentedBoxDesign.volume_m3. -/
def VentedBoxDesign.volume_m3 (b : VentedBoxDesign) : ℚ := b.volume_l / 1000

/-- VentedBoxDesign.acoustic_compliance: Cab in the acoustic domain. -/
def VentedBoxDesign.acoustic_compliance (b : VentedBoxDesign) : ℚ :=
  b.volume_m3 / (AIR_DENSITY * SPEED_OF_SOUND ^ 2)

/-- VentedBoxDesign.leakage_resistance: none when leakage_q is non-positive,
otherwise leakage_q / (omega0 * Cab). -/
def VentedBoxDesign.leakage_resistance (R : RealFns) (b : VentedBoxDesign)
    (cab_acoustic : ℚ) : Option ℚ :=
  if b.leakage_q ≤ 0 then none
  else
    let omega0 := 2 * piQ * b.port.tuning_frequency R cab_acoustic
    some (b.leakage_q / (omega0 * cab_acoustic))


/- ----------------------------------------------------------------------
   measurements.py: measurement traces, trace operations, comparison
   ---------------------------------------------------------------------- -/

/-- Models bisect.bisect_left on the sorted rational lists it is applied to:
the number of elements strictly below the target. -/
def bisect_left (l : List ℚ) (t : ℚ) : ℕ := l.countP (fun x => decide (x < t))

/-- Models bisect.bisect_right on the sorted rational lists it is applied to:
the number of elements at or below the target. -/
def bisect_right (l : List ℚ) (t : ℚ) : ℕ := l.countP (fun x => decide (x ≤ t))

/-- Models sorted(range(len(key)), key=key.__getitem__): the stable argsort
used by resample and the fractional-octave smoother. -/
def argsort (key : List ℚ) : List ℕ :=
  (List.range key.length).mergeSort (fun i j => decide (key.getD i 0 ≤ key.getD j 0))

/-- measurements._interp on a float-valued channel: boundary clamp outside the
sampled range, linear interpolation inside. -/
def interpQ (freq : List ℚ) (values : List ℚ) (target : ℚ) : ℚ :=
  if target ≤ freq.headD 0 then values.headD 0
  else if freq.getLastD 0 ≤ target then values.getLastD 0
  else
    let idx := bisect_left freq target
    if idx = 0 then values.headD 0
    else if freq.length ≤ idx then values.getLastD 0
    else
      let x0 := freq.getD (idx - 1) 0
      let x1 := freq.getD idx 0
      let y0 := values.getD (idx - 1) 0
      let y1 := values.getD idx 0
      if x1 = x0 then y0
      else y0 + (y1 - y0) * ((target - x0) / (x1 - x0))

/-- measurements._interp on the complex impedance channel: the source takes
the component-wise linear blend when either endpoint is complex. -/
def interpC (freq : List ℚ) (values : List Cx) (target : ℚ) : Cx :=
  if target ≤ freq.headD 0 then values.headD (Cx.ofQ 0)
  else if freq.getLastD 0 ≤ target then values.getLastD (Cx.ofQ 0)
  else
    let idx := bisect_left freq target
    if idx = 0 then values.headD (Cx.ofQ 0)
    else if freq.length ≤ idx then values.getLastD (Cx.ofQ 0)
    else
      let x0 := freq.getD (idx - 1) 0
      let x1 := freq.getD idx 0
      let y0 := values.getD (idx - 1) (Cx.ofQ 0)
      let y1 := values.getD idx (Cx.ofQ 0)
      if x1 = x0 then y0
      else
        let ratio := (target - x0) / (x1 - x0)
        ⟨y0.re + (y1.re - y0.re) * ratio, y0.im + (y1.im - y0.im) * ratio⟩

/-- Frequency-domain measurement record (measurements.py MeasurementTrace);
each optional channel is independently nullable. -/
structure MeasurementTrace where
  frequency_hz : List ℚ
  spl_db : Option (List ℚ)
  phase_deg : Option (List ℚ)
  impedance_ohm : Option (List Cx)
  thd_percent : Option (List ℚ)
deriving DecidableEq, Repr

/-- MeasurementTrace.resample: raises on an empty trace, otherwise sorts by
frequency and linearly interpolates every present channel onto the target
axis. -/
def MeasurementTrace.resample (t : MeasurementTrace) (axis_hz : List ℚ) :
    Except String MeasurementTrace :=
  if t.frequency_hz.isEmpty then .error "Measurement trace is empty"
  else
    let order := argsort t.frequency_hz
    let freq_sorted := order.map (fun i => t.frequency_hz.getD i 0)
    let spl_sorted := t.spl_db.map (fun v => order.map (fun i => v.getD i 0))
    let phase_sorted := t.phase_deg.map (fun v => order.map (fun i => v.getD i 0))
    let imp_sorted :=
      t.impedance_ohm.map (fun v => order.map (fun i => v.getD i (Cx.ofQ 0)))
    let thd_sorted := t.thd_percent.map (fun v => order.map (fun i => v.getD i 0))
    .ok
      { frequency_hz := axis_hz
        spl_db := spl_sorted.map (fun v => axis_hz.map (interpQ freq_sorted v))
        phase_deg := phase_sorted.map (fun v => axis_hz.map (interpQ freq_sorted v))
        impedance_ohm := imp_sorted.map (fun v => axis_hz.map (interpC freq_sorted v))
        thd_percent := thd_sorted.map (fun v => axis_hz.map (interpQ freq_sorted v)) }

/-- MeasurementTrace.bandpass: with both bounds omitted the trace itself is
returned; a reversed band raises; otherwise the samples inside the inclusive
band are kept in order, raising when none remain. -/
def MeasurementTrace.bandpass (t : MeasurementTrace)
    (minimum_hz maximum_hz : Option ℚ) : Except String MeasurementTrace :=
  if minimum_hz.isNone && maximum_hz.isNone then .ok t
  else
    let reversed :=
      match minimum_hz, maximum_hz with
      | some lo, some hi => decide (hi < lo)
      | _, _ => false
    if reversed then
      .error "Minimum frequency must be less than or equal to maximum frequency"
    else
      let keep : ℚ → Bool := fun f =>
        (match minimum_hz with
         | some lo => decide (lo ≤ f)
         | none => true) &&
        (match maximum_hz with
         | some hi => decide (f ≤ hi)
         | none => true)
      let indices :=
        (List.range t.frequency_hz.length).filter
          (fun i => keep (t.frequency_hz.getD i 0))
      if indices.isEmpty then
        .error "No samples fall within the requested frequency band"
      else
        .ok
          { frequency_hz := indices.map (fun i => t.frequency_hz.getD i 0)
            spl_db := t.spl_db.map (fun s => indices.map (fun i => s.getD i 0))
            phase_deg := t.phase_deg.map (fun s => indices.map (fun i => s.getD i 0))
            impedance_ohm :=
              t.impedance_ohm.map (fun s => indices.map (fun i => s.getD i (Cx.ofQ 0)))
            thd_percent := t.thd_percent.map (fun s => indices.map (fun i => s.getD i 0)) }

/-- measurements._fractional_octave_smooth_series.  The source raises on a
frequency/value length mismatch; the call sites below preserve equal lengths,
and the mismatch case is mapped to the empty list.  Natural subtraction gives
exactly the max(0, ...) clamps of the source. -/
def fractional_octave_smooth_series (R : RealFns)
    (frequency_hz values : List ℚ) (fraction : ℚ) : List ℚ :=
  if frequency_hz.length ≠ values.length then []
  else if fraction ≤ 0 then values
  else
    let count := frequency_hz.length
    let order := argsort frequency_hz
    let freq_sorted := order.map (fun i => frequency_hz.getD i 0)
    let values_sorted := order.map (fun i => values.getD i 0)
    let bandwidth := R.pow2 (1 / (2 * fraction))
    let min_window := min 3 count
    let smoothed_sorted := (List.range count).map (fun idx =>
      let centre := freq_sorted.getD idx 0
      let lower := centre / bandwidth
      let upper := centre * bandwidth
      let start0 := bisect_left freq_sorted lower
      let stop0 := bisect_right freq_sorted upper
      let bounds :=
        if stop0 - start0 < min_window then
          let stop1 := min count ((idx - min_window / 2) + min_window)
          (stop1 - min_window, stop1)
        else (start0, stop0)
      let window := (values_sorted.drop bounds.1).take (bounds.2 - bounds.1)
      let window := if window.isEmpty then [values_sorted.getD idx 0] else window
      window.sum / (window.length : ℚ))
    (List.range count).map (fun i => smoothed_sorted.getD (order.indexOf i) 0)

/-- MeasurementTrace.fractional_octave_smooth: 1/N-octave moving average of
the selected channels (default just the SPL channel), leaving the frequency
axis untouched. -/
def MeasurementTrace.fractional_octave_smooth (R : RealFns)
    (t : MeasurementTrace) (fraction : ℚ) (fields : Option (List String)) :
    MeasurementTrace :=
  let target_fields : List String :=
    match fields with
    | some l => if l.isEmpty then ["spl_db"] else l
    | none => ["spl_db"]
  let applyQ : Option (List ℚ) → String → Option (List ℚ) := fun series field =>
    series.map (fun s =>
      if fraction ≤ 0 then s
      else if target_fields.contains field then
        fractional_octave_smooth_series R t.frequency_hz s fraction
      else s)
  let impedance :=
    t.impedance_ohm.map (fun z =>
      let real := z.map Cx.re
      let imag := z.map Cx.im
      let smooth_real :=
        if fraction ≤ 0 then real
        else if target_fields.contains "impedance_ohm" then
          fractional_octave_smooth_series R t.frequency_hz real fraction
        else real
      let smooth_imag :=
        if fraction ≤ 0 then imag
        else if target_fields.contains "impedance_ohm" then
          fractional_octave_smooth_series R t.frequency_hz imag fraction
        else imag
      List.zipWith Cx.mk smooth_real smooth_imag)
  { frequency_hz := t.frequency_hz
    spl_db := applyQ t.spl_db "spl_db"
    phase_deg := applyQ t.phase_deg "phase_deg"
    impedance_ohm := impedance
    thd_percent := applyQ t.thd_percent "thd_percent" }

/-- Per-frequency error record (measurements.py MeasurementDelta). -/
structure MeasurementDelta where
  frequency_hz : List ℚ
  spl_delta_db : Option (List ℚ)
  phase_delta_deg : Option (List ℚ)
  impedance_delta_ohm : Option (List ℚ)
  thd_delta_percent : Option (List ℚ)
deriving DecidableEq, Repr

/-- Aggregated error metrics (measurements.py MeasurementStats). -/
structure MeasurementStats where
  sample_count : ℕ
  minimum_frequency_hz : ℚ
  maximum_frequency_hz : ℚ
  spl_rmse_db : Option ℚ
  spl_mae_db : Option ℚ
  spl_bias_db : Option ℚ
  spl_median_abs_dev_db : Option ℚ
  spl_std_dev_db : Option ℚ
  spl_pearson_r : Option ℚ
  spl_r_squared : Option ℚ
  spl_p95_abs_error_db : Option ℚ
  spl_highest_delta_db : Option ℚ
  spl_lowest_delta_db : Option ℚ
  max_spl_delta_db : Option ℚ
  phase_rmse_deg : Option ℚ
  impedance_mag_rmse_ohm : Option ℚ
deriving DecidableEq, Repr

/-- Heuristic diagnosis record (measurements.py MeasurementDiagnosis). -/
structure MeasurementDiagnosis where
  overall_bias_db : Option ℚ
  recommended_level_trim_db : Option ℚ
  low_band_bias_db : Option ℚ
  mid_band_bias_db : Option ℚ
  high_band_bias_db : Option ℚ
  tuning_shift_hz : Option ℚ
  recommended_port_length_m : Option ℚ
  recommended_port_length_scale : Option ℚ
  leakage_hint : Option String
  notes : List String
deriving DecidableEq, Repr

/-- measurements._difference_series; zip(strict=True) raises on a length
mismatch, modelled by the error branch. -/
def difference_series :
    Option (List ℚ) → Option (List ℚ) → Except String (Option (List ℚ))
  | none, _ => .ok none
  | _, none => .ok none
  | some m, some p =>
    if m.length = p.length then
      .ok (some (List.zipWith (fun a b => a - b) m p))
    else .error "zip strict length mismatch"

/-- measurements._impedance_delta: difference of complex magnitudes,
zip-strict. -/
def impedance_delta_series (R : RealFns) :
    Option (List Cx) → Option (List Cx) → Except String (Option (List ℚ))
  | none, _ => .ok none
  | _, none => .ok none
  | some m, some p =>
    if m.length = p.length then
      .ok (some (List.zipWith (fun a b => Cx.absWith R a - Cx.absWith R b) m p))
    else .error "zip strict length mismatch"

/-- measurements._rmse; the NaN filter is the identity on the exact model. -/
def rmse_stat (R : RealFns) : Option (List ℚ) → Option ℚ
  | none => none
  | some values =>
    let valid := values.filter (fun v => !(math_isnan v))
    if valid.isEmpty then none
    else some (R.sqrt (((valid.map (fun v => v * v)).sum) / (valid.length : ℚ)))

/-- measurements._mean. -/
def mean_stat : Option (List ℚ) → Option ℚ
  | none => none
  | some values =>
    let valid := values.filter (fun v => !(math_isnan v))
    if valid.isEmpty then none
    else some (valid.sum / (valid.length : ℚ))

/-- measurements._mae. -/
def mae_stat : Option (List ℚ) → Option ℚ
  | none => none
  | some values =>
    let valid := (values.filter (fun v => !(math_isnan v))).map (fun v => |v|)
    if valid.isEmpty then none
    else some (valid.sum / (valid.length : ℚ))

/-- measurements._median over a nonempty list. -/
def median_stat (values : List ℚ) : ℚ :=
  let ordered := values.mergeSort (fun a b => decide (a ≤ b))
  let mid := ordered.length / 2
  if ordered.length % 2 = 1 then ordered.getD mid 0
  else 0.5 * (ordered.getD (mid - 1) 0 + ordered.getD mid 0)

/-- measurements._median_abs_deviation. -/
def median_abs_deviation : Option (List ℚ) → Option ℚ
  | none => none
  | some values =>
    let valid := values.filter (fun v => !(math_isnan v))
    if valid.isEmpty then none
    else
      let centre := median_stat valid
      let deviations := valid.map (fun v => |v - centre|)
      if deviations.isEmpty then some 0 else some (median_stat deviations)

/-- measurements._stddev (population standard deviation; math.fsum is exact
summation, modelled by the exact rational sum). -/
def stddev_stat (R : RealFns) : Option (List ℚ) → Option ℚ
  | none => none
  | some values =>
    let valid := values.filter (fun v => !(math_isnan v))
    if valid.isEmpty then none
    else if valid.length = 1 then some 0
    else
      let m := valid.sum / (valid.length : ℚ)
      let variance := ((valid.map (fun v => (v - m) ^ 2)).sum) / (valid.length : ℚ)
      some (R.sqrt variance)

/-- measurements._pearson_correlation (zip-strict; item-level None and NaN
filtering is the identity on the exact model, kept for structure). -/
def pearson_correlation (R : RealFns) :
    Option (List ℚ) → Option (List ℚ) → Except String (Option ℚ)
  | none, _ => .ok none
  | _, none => .ok none
  | some m, some p =>
    if m.length = p.length then
      let pairs := (m.zip p).filter
        (fun q => !(math_isnan q.1) && !(math_isnan q.2))
      if pairs.length < 2 then .ok none
      else
        let n : ℚ := (pairs.length : ℚ)
        let mean_meas := (pairs.map Prod.fst).sum / n
        let mean_pred := (pairs.map Prod.snd).sum / n
        let cov := (pairs.map (fun q => (q.1 - mean_meas) * (q.2 - mean_pred))).sum
        let var_meas := (pairs.map (fun q => (q.1 - mean_meas) ^ 2)).sum
        let var_pred := (pairs.map (fun q => (q.2 - mean_pred) ^ 2)).sum
        let denom := R.sqrt (var_meas * var_pred)
        if denom ≤ 0 then .ok none else .ok (some (cov / denom))
    else .error "zip strict length mismatch"

/-- measurements._coefficient_of_determination (zip-strict). -/
def coefficient_of_determination :
    Option (List ℚ) → Option (List ℚ) → Except String (Option ℚ)
  | none, _ => .ok none
  | _, none => .ok none
  | some m, some p =>
    if m.length = p.length then
      let pairs := (m.zip p).filter
        (fun q => !(math_isnan q.1) && !(math_isnan q.2))
      if pairs.length < 2 then .ok none
      else
        let n : ℚ := (pairs.length : ℚ)
        let mean_meas := (pairs.map Prod.fst).sum / n
        let ss_tot := (pairs.map (fun q => (q.1 - mean_meas) ^ 2)).sum
        if ss_tot ≤ 0 then .ok none
        else
          let ss_res := (pairs.map (fun q => (q.1 - q.2) ^ 2)).sum
          .ok (some (1 - ss_res / ss_tot))
    else .error "zip strict length mismatch"

/-- measurements._max_abs. -/
def max_abs_stat : Option (List ℚ) → Option ℚ
  | none => none
  | some values =>
    let valid := (values.filter (fun v => !(math_isnan v))).map (fun v => |v|)
    if valid.isEmpty then none else some (pymax valid 0)

/-- measurements._max_value (keeps the first strict maximum). -/
def max_value_stat : Option (List ℚ) → Option ℚ
  | none => none
  | some values =>
    values.foldl
      (fun best v =>
        if math_isnan v then best
        else
          match best with
          | none => some v
          | some b => if b < v then some v else some b)
      none

/-- measurements._min_value. -/
def min_value_stat : Option (List ℚ) → Option ℚ
  | none => none
  | some values =>
    values.foldl
      (fun best v =>
        if math_isnan v then best
        else
          match best with
          | none => some v
          | some b => if v < b then some v else some b)
      none

/-- measurements._percentile_abs: linear-interpolated percentile of absolute
values. -/
def percentile_abs_stat : Option (List ℚ) → ℚ → Option ℚ
  | none, _ => none
  | some values, percentile =>
    let valid := ((values.filter (fun v => !(math_isnan v))).map
      (fun v => |v|)).mergeSort (fun a b => decide (a ≤ b))
    if valid.isEmpty then none
    else if percentile ≤ 0 then some (valid.headD 0)
    else if 1 ≤ percentile then some (valid.getLastD 0)
    else
      let position := percentile * ((valid.length : ℚ) - 1)
      let lower := (Int.floor position).toNat
      let upper := (Int.ceil position).toNat
      if lower = upper then some (valid.getD lower 0)
      else
        let weight := position - (lower : ℚ)
        some (valid.getD lower 0 * (1 - weight) + valid.getD upper 0 * weight)

/-- measurements._band_mean (zip-strict over the frequency axis). -/
def band_mean (frequency : List ℚ) (values : Option (List ℚ))
    (low high : Option ℚ) : Except String (Option ℚ) :=
  match values with
  | none => .ok none
  | some vs =>
    if frequency.length = vs.length then
      let acc := ((frequency.zip vs).filter (fun q =>
        !(math_isnan q.2) &&
        (match low with
         | some lo => decide (lo ≤ q.1)
         | none => true) &&
        (match high with
         | some hi => decide (q.1 < hi)
         | none => true))).map Prod.snd
      if acc.isEmpty then .ok none else .ok (some (acc.sum / (acc.length : ℚ)))
    else .error "zip strict length mismatch"

/-- measurements._peak_frequency: frequency of the first strict SPL maximum
(zip-strict). -/
def peak_frequency (frequency : List ℚ) (values : Option (List ℚ)) :
    Except String (Option ℚ) :=
  match values with
  | none => .ok none
  | some vs =>
    if frequency.length = vs.length then
      .ok (((frequency.zip vs).foldl
        (fun best q =>
          if math_isnan q.2 then best
          else
            match best with
            | none => some q
            | some b => if b.2 < q.2 then some q else some b)
        none).map Prod.fst)
    else .error "zip strict length mismatch"

/-- measurements._diagnose_bias: band biases, tuning shift, port-length
recommendation, leakage hint and free-text notes. -/
def diagnose_bias (R : RealFns) (frequency : List ℚ)
    (spl_delta measurement_spl predicted_spl : Option (List ℚ))
    (port_length_m : Option ℚ) : Except String MeasurementDiagnosis := do
  let overall_bias := mean_stat spl_delta
  let level_trim := overall_bias.map (fun b => -b)
  let low_bias ← band_mean frequency spl_delta none (some 45)
  let mid_bias ← band_mean frequency spl_delta (some 45) (some 120)
  let high_bias ← band_mean frequency spl_delta (some 120) none
  let peak_measured ← peak_frequency frequency measurement_spl
  let peak_predicted ← peak_frequency frequency predicted_spl
  let tuningTriple : Option ℚ × Option ℚ × Option ℚ :=
    match peak_measured, peak_predicted with
    | some pmv, some ppv =>
      if 0 < pmv ∧ 0 < ppv then
        let shift := pmv - ppv
        match port_length_m with
        | some pl =>
          if 0 < pl then
            let ls := (ppv / pmv) ^ 2
            (some shift, some (pl * ls), some ls)
          else (some shift, none, none)
        | none => (some shift, none, none)
      else (none, none, none)
    | _, _ => (none, none, none)
  let tuning_shift := tuningTriple.1
  let recommended_length_m := tuningTriple.2.1
  let length_scale := tuningTriple.2.2
  let notes1 : List String :=
    match overall_bias with
    | some ob =>
      if 0.5 < |ob| then
        ["Apply a " ++ (if 0 < ob then "reduce" else "increase") ++
          " of approximately " ++ R.fmtFix1 |ob| ++ " dB to align overall level."]
      else []
    | none => []
  let notes2 : List String :=
    match tuning_shift with
    | some ts =>
      if 0.8 < |ts| then
        let base := notes1 ++
          ["Measured tuning appears " ++ (if 0 < ts then "higher" else "lower") ++
            " by " ++ R.fmtFix1 |ts| ++ " Hz relative to prediction."]
        match length_scale with
        | some ls =>
          if 0.05 < |ls - 1| then
            base ++ ["Adjust port length " ++ (if 1 < ls then "longer" else "shorter") ++
              " by about " ++ R.fmtFix1 |(ls - 1) * 100| ++ "% to compensate."]
          else base
        | none => base
      else notes1
    | none => notes1
  let hintPair : Option String × List String :=
    match low_bias, mid_bias with
    | some lb, some mb =>
      let delta := lb - mb
      if delta ≤ -1.5 then
        (some "lower_q", notes2 ++
          ["Low-band output is weaker than expected; consider reducing leakage Q or checking for leaks."])
      else if 1.5 ≤ delta then
        (some "raise_q", notes2 ++
          ["Low-band output is stronger than predicted; consider increasing leakage Q or adding damping."])
      else (none, notes2)
    | _, _ => (none, notes2)
  let bandNotes :=
    ([("low", low_bias), ("mid", mid_bias), ("high", high_bias)] :
        List (String × Option ℚ)).foldl
      (fun acc lv =>
        match lv.2 with
        | some v =>
          if 1 < |v| then
            acc ++ ["Average " ++ lv.1 ++ " band bias is " ++ R.fmtSign1 v ++ " dB."]
          else acc
        | none => acc)
      []
  return {
    overall_bias_db := overall_bias
    recommended_level_trim_db := level_trim
    low_band_bias_db := low_bias
    mid_band_bias_db := mid_bias
    high_band_bias_db := high_bias
    tuning_shift_hz := tuning_shift
    recommended_port_length_m := recommended_length_m
    recommended_port_length_scale := length_scale
    leakage_hint := hintPair.1
    notes := hintPair.2 ++ bandNotes }

/-- measurements.compare_measurement_to_prediction: resamples the prediction
onto the measurement axis, optionally smooths both, then produces the delta,
the statistics and the diagnosis. -/
def compare_measurement_to_prediction (R : RealFns)
    (measurement prediction : MeasurementTrace)
    (smoothing_fraction port_length_m : Option ℚ) :
    Except String (MeasurementDelta × MeasurementStats × MeasurementDiagnosis) := do
  if measurement.frequency_hz.isEmpty then
    throw "Measurement trace is empty"
  let prediction_resampled ← prediction.resample measurement.frequency_hz
  let pair :=
    match smoothing_fraction with
    | some s =>
      if 0 < s then
        (measurement.fractional_octave_smooth R s none,
          prediction_resampled.fractional_octave_smooth R s none)
      else (measurement, prediction_resampled)
    | none => (measurement, prediction_resampled)
  let measurement_for_stats := pair.1
  let prediction_for_stats := pair.2
  let spl_delta ← difference_series measurement_for_stats.spl_db
    prediction_for_stats.spl_db
  let phase_delta ← difference_series measurement_for_stats.phase_deg
    prediction_for_stats.phase_deg
  let imp_delta ← impedance_delta_series R measurement_for_stats.impedance_ohm
    prediction_for_stats.impedance_ohm
  if measurement_for_stats.frequency_hz.isEmpty then
    throw "Measurement trace is empty after preprocessing"
  let min_freq := pymin measurement_for_stats.frequency_hz
  let max_freq := pymax measurement_for_stats.frequency_hz 0
  let pearson ← pearson_correlation R measurement_for_stats.spl_db
    prediction_for_stats.spl_db
  let r_squared ← coefficient_of_determination measurement_for_stats.spl_db
    prediction_for_stats.spl_db
  let stats : MeasurementStats := {
    sample_count := measurement_for_stats.frequency_hz.length
    minimum_frequency_hz := min_freq
    maximum_frequency_hz := max_freq
    spl_rmse_db := rmse_stat R spl_delta
    spl_mae_db := mae_stat spl_delta
    spl_bias_db := mean_stat spl_delta
    spl_median_abs_dev_db := median_abs_deviation spl_delta
    spl_std_dev_db := stddev_stat R spl_delta
    spl_pearson_r := pearson
    spl_r_squared := r_squared
    spl_p95_abs_error_db := percentile_abs_stat spl_delta 0.95
    spl_highest_delta_db := max_value_stat spl_delta
    spl_lowest_delta_db := min_value_stat spl_delta
    max_spl_delta_db := max_abs_stat spl_delta
    phase_rmse_deg := rmse_stat R phase_delta
    impedance_mag_rmse_ohm := rmse_stat R imp_delta }
  let delta : MeasurementDelta := {
    frequency_hz := measurement_for_stats.frequency_hz
    spl_delta_db := spl_delta
    phase_delta_deg := phase_delta
    impedance_delta_ohm := imp_delta
    thd_delta_percent := none }
  let diagnosis ← diagnose_bias R measurement_for_stats.frequency_hz spl_delta
    measurement.spl_db prediction_resampled.spl_db port_length_m
  return (delta, stats, diagnosis)

/- ----------------------------------------------------------------------
   calibration.py: Bayesian calibration engine
   ---------------------------------------------------------------------- -/

/-- Gaussian prior for one calibration parameter (calibration.py
ParameterPrior). -/
structure ParameterPrior where
  mean : ℚ
  variance : ℚ
deriving DecidableEq, Repr

/-- Posterior estimate for one calibration parameter (calibration.py
CalibrationParameter); the credible interval is (lower, upper, confidence). -/
structure CalibrationParameter where
  mean : ℚ
  variance : ℚ
  prior_mean : ℚ
  prior_variance : ℚ
  observation : Option ℚ
  observation_variance : Option ℚ
  update_weight : ℚ
  credible_interval : Option (ℚ × ℚ × ℚ)
deriving DecidableEq, Repr

/-- Prior bundle (calibration.py CalibrationPrior). -/
structure CalibrationPrior where
  level_trim_db : ParameterPrior
  port_length_scale : ParameterPrior
  leakage_q_scale : ParameterPrior
deriving DecidableEq, Repr

/-- CalibrationPrior.default. -/
def CalibrationPrior.default : CalibrationPrior :=
  { level_trim_db := ⟨0, 4⟩
    port_length_scale := ⟨1, 0.04⟩
    leakage_q_scale := ⟨1, 0.09⟩ }

/-- Posterior bundle (calibration.py CalibrationUpdate). -/
structure CalibrationUpdate where
  level_trim_db : Option CalibrationParameter
  port_length_scale : Option CalibrationParameter
  leakage_q_scale : Option CalibrationParameter
  notes : List String
deriving DecidableEq, Repr

/-- Concrete solver overrides (calibration.py CalibrationOverrides). -/
structure CalibrationOverrides where
  drive_voltage_scale : Option ℚ
  drive_voltage_v : Option ℚ
  port_length_scale : Option ℚ
  port_length_m : Option ℚ
  leakage_q_scale : Option ℚ
  leakage_q : Option ℚ
deriving DecidableEq, Repr

/-- Fixed observation variance for level trims: 0.75 squared. -/
def LEVEL_OBS_VARIANCE : ℚ := 0.75 ^ 2

/-- Fixed observation variance for the port-length scale: 0.08 squared. -/
def PORT_SCALE_OBS_VARIANCE : ℚ := 0.08 ^ 2

/-- Fixed observation variance for the leakage-Q scale: 0.15 squared. -/
def LEAKAGE_OBS_VARIANCE : ℚ := 0.15 ^ 2

/-- Fixed credible-interval confidence. -/
def CONFIDENCE : ℚ := 0.95

/-- calibration._gaussian_update: conjugate Gaussian posterior
(mean, variance); a non-positive prior variance short-circuits to the
observation. -/
def gaussian_update (prior_mean prior_variance observation observation_variance : ℚ) :
    ℚ × ℚ :=
  if prior_variance ≤ 0 then (observation, observation_variance)
  else
    let precision_prior := 1 / prior_variance
    let precision_obs := 1 / observation_variance
    let posterior_variance := 1 / (precision_prior + precision_obs)
    (posterior_variance * (precision_prior * prior_mean + precision_obs * observation),
      posterior_variance)

/-- calibration._z_score: the exact two-tailed constant at 0.95, otherwise the
Winitzki-style approximation. -/
def z_score (R : RealFns) (confidence : ℚ) : ℚ :=
  if |confidence - 0.95| < 1e-6 then 1.959963984540054
  else
    if confidence ≤ 0 ∨ 1 ≤ confidence then 1.959963984540054
    else
      let p := 1 - (1 - confidence) / 2
      if p ≤ 0 ∨ 1 ≤ p then 1.959963984540054
      else
        let t := R.sqrt (-2 * R.ln (1 - p))
        t - (2.515517 + 0.802853 * t + 0.010328 * t * t) /
          (1 + 1.432788 * t + 0.189269 * t * t + 0.001308 * t * t * t)

/-- calibration._credible_interval: mean plus/minus z times sigma. -/
def credible_interval (R : RealFns) (mean variance confidence : ℚ) :
    Option (ℚ × ℚ × ℚ) :=
  if variance ≤ 0 then none
  else
    let conf := if 0 < confidence ∧ confidence < 1 then confidence else 0.95
    let z := z_score R conf
    let sigma := R.sqrt variance
    some (mean - z * sigma, mean + z * sigma, conf)

/-- calibration._parameter: wraps a posterior into a CalibrationParameter with
the update weight and credible interval. -/
def mk_parameter (R : RealFns) (posterior_mean posterior_variance : ℚ)
    (prior : ParameterPrior) (observation observation_variance : Option ℚ) :
    CalibrationParameter :=
  let update_weight :=
    if prior.variance ≤ 0 then 1
    else 1 - min (posterior_variance / prior.variance) 1
  { mean := posterior_mean
    variance := posterior_variance
    prior_mean := prior.mean
    prior_variance := prior.variance
    observation := observation
    observation_variance := observation_variance
    update_weight := if observation.isSome then update_weight else 0
    credible_interval := credible_interval R posterior_mean posterior_variance CONFIDENCE }

/-- calibration._update_level_trim. -/
def update_level_trim (R : RealFns) (diagnosis : MeasurementDiagnosis)
    (prior : ParameterPrior) : Option CalibrationParameter :=
  match diagnosis.recommended_level_trim_db with
  | none => none
  | some observation =>
    if math_isnan observation then none
    else
      let mv := gaussian_update prior.mean prior.variance observation LEVEL_OBS_VARIANCE
      some (mk_parameter R mv.1 mv.2 prior (some observation) (some LEVEL_OBS_VARIANCE))

/-- calibration._update_port_scale. -/
def update_port_scale (R : RealFns) (diagnosis : MeasurementDiagnosis)
    (prior : ParameterPrior) : Option CalibrationParameter :=
  match diagnosis.recommended_port_length_scale with
  | none => none
  | some observation =>
    if math_isnan observation then none
    else
      let mv := gaussian_update prior.mean prior.variance observation PORT_SCALE_OBS_VARIANCE
      some (mk_parameter R mv.1 mv.2 prior (some observation) (some PORT_SCALE_OBS_VARIANCE))

/-- calibration._leakage_observation: a fixed pseudo-observation derived from
the leakage hint. -/
def leakage_observation (diagnosis : MeasurementDiagnosis) : Option ℚ :=
  if diagnosis.leakage_hint = some "lower_q" then some 1.15
  else if diagnosis.leakage_hint = some "raise_q" then some 0.85
  else none

/-- calibration._update_leakage_scale. -/
def update_leakage_scale (R : RealFns) (diagnosis : MeasurementDiagnosis)
    (prior : ParameterPrior) : Option CalibrationParameter :=
  match leakage_observation diagnosis with
  | none => none
  | some observation =>
    let mv := gaussian_update prior.mean prior.variance observation LEAKAGE_OBS_VARIANCE
    some (mk_parameter R mv.1 mv.2 prior (some observation) (some LEAKAGE_OBS_VARIANCE))

/-- calibration._format_notes for one labelled parameter.  Python round is
only reached here at confidence 0.95, where the value 95.0 is exact and
agrees with Mathlib round. -/
def format_note (R : RealFns) (label : String) (parameter : CalibrationParameter) :
    String :=
  match parameter.credible_interval with
  | none => label ++ ": " ++ R.fmtSign3 parameter.mean
  | some (lower, upper, confidence) =>
    let percent := round (confidence * 100)
    label ++ ": " ++ R.fmtSign3 parameter.mean ++ " (±" ++ toString percent ++
      "% window " ++ R.fmtSign3 lower ++ " → " ++ R.fmtSign3 upper ++ ")"

/-- calibration._format_notes over the three labelled parameters, skipping
missing ones. -/
def format_notes (R : RealFns)
    (entries : List (String × Option CalibrationParameter)) : List String :=
  entries.foldl
    (fun acc e =>
      match e.2 with
      | none => acc
      | some p => acc ++ [format_note R e.1 p])
    []

/-- calibration.derive_calibration_update: the three conjugate updates plus
formatted notes; a missing prior argument falls back to the default bundle. -/
def derive_calibration_update (R : RealFns) (diagnosis : MeasurementDiagnosis)
    (prior : Option CalibrationPrior) : CalibrationUpdate :=
  let priors := prior.getD CalibrationPrior.default
  let level := update_level_trim R diagnosis priors.level_trim_db
  let port := update_port_scale R diagnosis priors.port_length_scale
  let leakage := update_leakage_scale R diagnosis priors.leakage_q_scale
  { level_trim_db := level
    port_length_scale := port
    leakage_q_scale := leakage
    notes := format_notes R
      [("Level trim", level), ("Port scale", port), ("Leakage Q", leakage)] }

/-- calibration._drive_voltage_scale: 10 ** (-mean / 20), dropped when the
float result is non-finite or non-positive. -/
def drive_voltage_scale (R : RealFns) (parameter : Option CalibrationParameter) :
    Option ℚ :=
  match parameter with
  | none => none
  | some p =>
    let scale := R.pow10 (-(p.mean) / 20)
    if !(math_isfinite scale) ∨ scale ≤ 0 then none else some scale

/-- calibration._positive_mean. -/
def positive_mean (parameter : Option CalibrationParameter) : Option ℚ :=
  match parameter with
  | none => none
  | some p => if !(math_isfinite p.mean) ∨ p.mean ≤ 0 then none else some p.mean

/-- calibration._scaled_value. -/
def scaled_value (base scale : Option ℚ) : Option ℚ :=
  match base, scale with
  | some b, some s =>
    if !(math_isfinite b) ∨ b ≤ 0 then none
    else
      let value := b * s
      if math_isfinite value ∧ 0 < value then some value else none
  | _, _ => none

/-- calibration.derive_calibration_overrides. -/
def derive_calibration_overrides (R : RealFns) (calibration : CalibrationUpdate)
    (drive_voltage_v port_length_m leakage_q : Option ℚ) : CalibrationOverrides :=
  let drive_scale := drive_voltage_scale R calibration.level_trim_db
  let drive_voltage := scaled_value drive_voltage_v drive_scale
  let port_scale := positive_mean calibration.port_length_scale
  let port_length := scaled_value port_length_m port_scale
  let leakage_scale := positive_mean calibration.leakage_q_scale
  let leakage_value := scaled_value leakage_q leakage_scale
  { drive_voltage_scale := drive_scale
    drive_voltage_v := drive_voltage
    port_length_scale := port_scale
    port_length_m := port_length
    leakage_q_scale := leakage_scale
    leakage_q := leakage_value }

/-- calibration.apply_calibration_overrides_to_drive_voltage: prefers an
absolute recommendation, falls back to the multiplicative scale, and keeps the
base voltage when the suggestion is missing, non-finite or non-positive. -/
def apply_calibration_overrides_to_drive_voltage (base_voltage_v : ℚ)
    (overrides : Option CalibrationOverrides) : ℚ :=
  match overrides with
  | none => base_voltage_v
  | some ov =>
    let candidate :=
      match ov.drive_voltage_v with
      | some v => some v
      | none =>
        match ov.drive_voltage_scale with
        | some scale =>
          if math_isfinite scale ∧ 0 < scale then some (base_voltage_v * scale)
          else none
        | none => none
    match candidate with
    | none => base_voltage_v
    | some c => if !(math_isfinite c) ∨ c ≤ 0 then base_voltage_v else c

/-- calibration._resolved_positive. -/
def resolved_positive (base : ℚ) (value scale : Option ℚ) : ℚ :=
  let candidate :=
    match value with
    | some v => some v
    | none =>
      match scale with
      | some s => if math_isfinite s ∧ 0 < s then some (base * s) else none
      | none => none
  match candidate with
  | none => base
  | some c => if !(math_isfinite c) ∨ c ≤ 0 then base else c

/-- calibration.apply_calibration_overrides_to_box on a sealed BoxDesign: only
the leakage Q can be corrected. -/
def apply_calibration_overrides_to_box (box : BoxDesign)
    (overrides : Option CalibrationOverrides) : BoxDesign :=
  match overrides with
  | none => box
  | some ov =>
    { volume_l := box.volume_l
      leakage_q := resolved_positive box.leakage_q ov.leakage_q ov.leakage_q_scale }

/-- calibration.apply_calibration_overrides_to_box on a VentedBoxDesign:
leakage Q and port length can be corrected; all other port fields are copied
unchanged into the new geometry. -/
def apply_calibration_overrides_to_vented_box (box : VentedBoxDesign)
    (overrides : Option CalibrationOverrides) : VentedBoxDesign :=
  match overrides with
  | none => box
  | some ov =>
    let leakage_q := resolved_positive box.leakage_q ov.leakage_q ov.leakage_q_scale
    let length := resolved_positive box.port.length_m ov.port_length_m ov.port_length_scale
    { volume_l := box.volume_l
      port :=
        { diameter_m := box.port.diameter_m
          length_m := length
          count := box.port.count
          flare_factor := box.port.flare_factor
          loss_q := box.port.loss_q }
      leakage_q := leakage_q }

/- ----------------------------------------------------------------------
   acoustics/_utils.py: band-edge search
   ---------------------------------------------------------------------- -/

/-- _utils._crosses. -/
def crosses (a b threshold : ℚ) : Bool :=
  decide ((a - threshold) * (b - threshold) ≤ 0) && decide (a ≠ b)

/-- _utils._interpolate. -/
def interpolate_edge (f1 v1 f2 v2 threshold : ℚ) : ℚ :=
  if v2 = v1 then (f1 + f2) / 2
  else f1 + ((threshold - v1) / (v2 - v1)) * (f2 - f1)

/-- Loop body of _utils._search_edge, walking from the peak in the direction
of step; the fuel argument bounds the walk by the list length, which the
source loop cannot exceed. -/
def search_edge_aux (freqs mags : List ℚ) (threshold : ℚ) (step : ℤ) :
    ℕ → ℚ → ℚ → ℤ → ℚ
  | 0, prev_freq, _, _ => prev_freq
  | fuel + 1, prev_freq, prev_val, idx =>
    if 0 ≤ idx ∧ idx < (freqs.length : ℤ) then
      let freq := freqs.getD idx.toNat 0
      let val := mags.getD idx.toNat 0
      if val = threshold then freq
      else if crosses prev_val val threshold then
        interpolate_edge prev_freq prev_val freq val threshold
      else search_edge_aux freqs mags threshold step fuel freq val (idx + step)
    else prev_freq

/-- _utils._search_edge: the source always returns a frequency (the boundary
sample when no crossing is found). -/
def search_edge (freqs mags : List ℚ) (start_idx : ℕ) (step : ℤ)
    (threshold : ℚ) : ℚ :=
  search_edge_aux freqs mags threshold step (freqs.length + 1)
    (freqs.getD start_idx 0) (mags.getD start_idx 0) ((start_idx : ℤ) + step)

/-- _utils.find_band_edges: sorts the samples by frequency and searches
outward from the global peak for the drop_db crossings; mismatched or empty
inputs yield (none, none). -/
def find_band_edges (frequencies values : List ℚ) (drop_db : ℚ) :
    Option ℚ × Option ℚ :=
  if frequencies.length ≠ values.length ∨ frequencies.isEmpty then (none, none)
  else
    let order := argsort frequencies
    let freqs := order.map (fun i => frequencies.getD i 0)
    let mags := order.map (fun i => values.getD i 0)
    let peak_val := pymax mags 0
    let threshold := peak_val - drop_db
    let peak_idx := mags.findIdx (fun v => decide (v = peak_val))
    let low := search_edge freqs mags peak_idx (-1) threshold
    let high := search_edge freqs mags peak_idx 1 threshold
    (some low, some high)

/- ----------------------------------------------------------------------
   acoustics/sealed.py: sealed-box solver
   ---------------------------------------------------------------------- -/

/-- SPL reference pressure (20 micropascal), sealed.py P_REF. -/
def P_REF : ℚ := 20 * 1e-6

/-- Frequency response record (sealed.py SealedBoxResponse). -/
structure SealedBoxResponse where
  frequency_hz : List ℚ
  spl_db : List ℚ
  impedance_ohm : List Cx
  cone_velocity_ms : List ℚ
  cone_displacement_m : List ℚ
deriving DecidableEq, Repr

/-- Alignment summary record (sealed.py SealedAlignmentSummary). -/
structure SealedAlignmentSummary where
  fc_hz : ℚ
  qtc : ℚ
  f3_low_hz : Option ℚ
  f3_high_hz : Option ℚ
  max_spl_db : ℚ
  max_cone_velocity_ms : ℚ
  max_cone_displacement_m : ℚ
  excursion_ratio : Option ℚ
  excursion_headroom_db : Option ℚ
  safe_drive_voltage_v : Option ℚ
deriving DecidableEq, Repr

/-- Sealed-box solver state (sealed.py SealedBoxSolver.__init__).  The source
constructor performs no input validation, so construction is total here; the
derived quantities are precomputed exactly as in __init__. -/
structure SealedBoxSolver where
  driver : DriverParameters
  box : BoxDesign
  drive_voltage : ℚ
  cms : ℚ
  cab : ℚ
  cms_total : ℚ
  qes : ℚ
  qms : ℚ
  rms : ℚ
deriving DecidableEq, Repr

/-- SealedBoxSolver.__init__: stores the inputs and the derived mechanical
quantities; accepts any drive voltage (no validity check in the source). -/
def SealedBoxSolver.init (driver : DriverParameters) (box : BoxDesign)
    (drive_voltage : ℚ) : SealedBoxSolver :=
  let cms := driver.compliance
  let cab := box.air_compliance driver
  { driver := driver
    box := box
    drive_voltage := drive_voltage
    cms := cms
    cab := cab
    cms_total := 1 / (1 / cms + 1 / cab)
    qes := driver.qes
    qms := driver.qms
    rms := driver.mechanical_resistance }

/-- SealedBoxSolver.system_resonance: Fc = 1 / (2 pi sqrt(mms * cms_total)). -/
def SealedBoxSolver.system_resonance (R : RealFns) (s : SealedBoxSolver) : ℚ :=
  1 / (2 * piQ * R.sqrt (s.driver.mms_kg * s.cms_total))

/-- SealedBoxSolver.system_qtc. -/
def SealedBoxSolver.system_qtc (s : SealedBoxSolver) : ℚ :=
  let qes_box := s.qes * (s.cms / s.cms_total)
  1 / (1 / s.qms + 1 / qes_box)

/-- Loop body of SealedBoxSolver.frequency_response: non-positive frequencies
are skipped silently, every other frequency contributes one sample to each
trace. -/
def sealed_response_aux (R : RealFns) (s : SealedBoxSolver)
    (mic_distance_m : ℚ) : List ℚ → SealedBoxResponse
  | [] => ⟨[], [], [], [], []⟩
  | f :: rest =>
    let r := sealed_response_aux R s mic_distance_m rest
    if f ≤ 0 then r
    else
      let omega := 2 * piQ * f
      let zm : Cx := ⟨s.rms, omega * s.driver.mms_kg - 1 / (omega * s.cms_total)⟩
      let ze : Cx :=
        Cx.add ⟨s.driver.re_ohm, omega * s.driver.le_h⟩
          ((Cx.ofQ (s.driver.bl_t_m ^ 2)).div zm)
      let current := (Cx.ofQ s.drive_voltage).div ze
      let force := (Cx.ofQ s.driver.bl_t_m).mul current
      let velocity := force.div zm
      let volume_velocity := velocity.mul (Cx.ofQ s.driver.sd_m2)
      let pressure :=
        omega * AIR_DENSITY * volume_velocity.absWith R / (2 * piQ * mic_distance_m)
      let spl := 20 * R.log10 (max (pressure / P_REF) 1e-12)
      let displacement := velocity.absWith R / max omega 1e-9
      { frequency_hz := f :: r.frequency_hz
        spl_db := spl :: r.spl_db
        impedance_ohm := ze :: r.impedance_ohm
        cone_velocity_ms := velocity.absWith R :: r.cone_velocity_ms
        cone_displacement_m := displacement :: r.cone_displacement_m }

/-- SealedBoxSolver.frequency_response: no validation of the microphone
distance in the source, so the function is total. -/
def SealedBoxSolver.frequency_response (R : RealFns) (s : SealedBoxSolver)
    (frequencies_hz : List ℚ) (mic_distance_m : ℚ) : SealedBoxResponse :=
  sealed_response_aux R s mic_distance_m frequencies_hz

/-- SealedBoxSolver.alignment_summary: peak figures, band edges and excursion
metrics derived from a previously computed response.  The Python truthiness
test "if xmax and max_displacement > 0.0" requires xmax present and nonzero. -/
def SealedBoxSolver.alignment_summary (R : RealFns) (s : SealedBoxSolver)
    (response : SealedBoxResponse) : SealedAlignmentSummary :=
  let max_spl := pymax response.spl_db 0
  let edges := find_band_edges response.frequency_hz response.spl_db 3
  let max_velocity := pymax response.cone_velocity_ms 0
  let max_displacement := pymax response.cone_displacement_m 0
  let excursion :=
    match s.driver.xmax_m with
    | some xmax =>
      if xmax ≠ 0 ∧ 0 < max_displacement then
        let ratio := max_displacement / xmax
        some (ratio, -20 * R.log10 ratio, s.drive_voltage / max ratio 1)
      else none
    | none => none
  { fc_hz := s.system_resonance R
    qtc := s.system_qtc
    f3_low_hz := edges.1
    f3_high_hz := edges.2
    max_spl_db := max_spl
    max_cone_velocity_ms := max_velocity
    max_cone_displacement_m := max_displacement
    excursion_ratio := excursion.map (fun e => e.1)
    excursion_headroom_db := excursion.map (fun e => e.2.1)
    safe_drive_voltage_v := excursion.map (fun e => e.2.2) }

/- ----------------------------------------------------------------------
   acoustics/vented.py: vented-box solver
   ---------------------------------------------------------------------- -/

/-- Frequency response record (vented.py VentedBoxResponse). -/
structure VentedBoxResponse where
  frequency_hz : List ℚ
  spl_db : List ℚ
  impedance_ohm : List Cx
  cone_velocity_ms : List ℚ
  cone_displacement_m : List ℚ
  port_air_velocity_ms : List ℚ
deriving DecidableEq, Repr

/-- Alignment summary record (vented.py VentedAlignmentSummary). -/
structure VentedAlignmentSummary where
  fb_hz : ℚ
  f3_low_hz : Option ℚ
  f3_high_hz : Option ℚ
  max_spl_db : ℚ
  max_cone_velocity_ms : ℚ
  max_cone_displacement_m : ℚ
  max_port_velocity_ms : ℚ
  excursion_ratio : Option ℚ
  excursion_headroom_db : Option ℚ
  safe_drive_voltage_v : Option ℚ
deriving DecidableEq, Repr

/-- Vented-box solver state (vented.py VentedBoxSolver.__init__ after the
drive-voltage check). -/
structure VentedBoxSolver where
  driver : DriverParameters
  box : VentedBoxDesign
  drive_voltage : ℚ
  cms : ℚ
  cab_acoustic : ℚ
  acoustic_map : ℚ
  rap : ℚ
  rleak : Option ℚ
  rms : ℚ
deriving DecidableEq, Repr

/-- VentedBoxSolver.__init__: raises on a non-positive drive voltage before
any derived quantity is computed. -/
def VentedBoxSolver.init (R : RealFns) (driver : DriverParameters)
    (box : VentedBoxDesign) (drive_voltage : ℚ) :
    Except String VentedBoxSolver :=
  if drive_voltage ≤ 0 then .error "Drive voltage must be positive"
  else
    let cab_acoustic := box.acoustic_compliance
    .ok
      { driver := driver
        box := box
        drive_voltage := drive_voltage
        cms := driver.compliance
        cab_acoustic := cab_acoustic
        acoustic_map := box.port.acoustic_mass
        rap := box.port.series_resistance R cab_acoustic
        rleak := box.leakage_resistance R cab_acoustic
        rms := driver.mechanical_resistance }

/-- VentedBoxSolver.tuning_frequency. -/
def VentedBoxSolver.tuning_frequency (R : RealFns) (s : VentedBoxSolver) : ℚ :=
  s.box.port.tuning_frequency R s.cab_acoustic

/-- Loop body of VentedBoxSolver.frequency_response; non-positive frequencies
are skipped silently. -/
def vented_response_aux (R : RealFns) (s : VentedBoxSolver)
    (mic_distance_m port_area : ℚ) : List ℚ → VentedBoxResponse
  | [] => ⟨[], [], [], [], [], []⟩
  | f :: rest =>
    let r := vented_response_aux R s mic_distance_m port_area rest
    if f ≤ 0 then r
    else
      let omega := 2 * piQ * f
      let z_cab0 := (Cx.mk 0 (omega * s.cab_acoustic)).inv
      let z_cab :=
        match s.rleak with
        | none => z_cab0
        | some rleak => (Cx.add z_cab0.inv (Cx.ofQ rleak).inv).inv
      let z_port : Cx := ⟨s.rap, omega * s.acoustic_map⟩
      let z_load := (Cx.add z_cab.inv z_port.inv).inv
      let z_mech :=
        Cx.add ⟨s.rms, omega * s.driver.mms_kg⟩ (Cx.mk 0 (omega * s.cms)).inv
      let z_total_mech := Cx.add z_mech ((Cx.ofQ (s.driver.sd_m2 ^ 2)).mul z_load)
      let ze :=
        Cx.add ⟨s.driver.re_ohm, omega * s.driver.le_h⟩
          ((Cx.ofQ (s.driver.bl_t_m ^ 2)).div z_total_mech)
      let current := (Cx.ofQ s.drive_voltage).div ze
      let force := (Cx.ofQ s.driver.bl_t_m).mul current
      let cone_velocity := force.div z_total_mech
      let volume_velocity := cone_velocity.mul (Cx.ofQ s.driver.sd_m2)
      let pressure :=
        omega * AIR_DENSITY * volume_velocity.absWith R / (2 * piQ * mic_distance_m)
      let spl := 20 * R.log10 (max (pressure / P_REF) 1e-12)
      let acoustic_pressure := z_load.mul volume_velocity
      let port_volume_velocity := acoustic_pressure.div z_port
      let port_velocity := port_volume_velocity.absWith R / port_area
      let displacement := cone_velocity.absWith R / max omega 1e-9
      { frequency_hz := f :: r.frequency_hz
        spl_db := spl :: r.spl_db
        impedance_ohm := ze :: r.impedance_ohm
        cone_velocity_ms := cone_velocity.absWith R :: r.cone_velocity_ms
        cone_displacement_m := displacement :: r.cone_displacement_m
        port_air_velocity_ms := port_velocity :: r.port_air_velocity_ms }

/-- VentedBoxSolver.frequency_response: raises on a non-positive microphone
distance before entering the frequency loop. -/
def VentedBoxSolver.frequency_response (R : RealFns) (s : VentedBoxSolver)
    (frequencies_hz : List ℚ) (mic_distance_m : ℚ) :
    Except String VentedBoxResponse :=
  if mic_distance_m ≤ 0 then .error "Microphone distance must be positive"
  else
    let port_area := max s.box.port.area_m2 1e-9
    .ok (vented_response_aux R s mic_distance_m port_area frequencies_hz)

/-- VentedBoxSolver.alignment_summary. -/
def VentedBoxSolver.alignment_summary (R : RealFns) (s : VentedBoxSolver)
    (response : VentedBoxResponse) : VentedAlignmentSummary :=
  let max_spl := pymax response.spl_db 0
  let edges := find_band_edges response.frequency_hz response.spl_db 3
  let max_cone_velocity := pymax response.cone_velocity_ms 0
  let max_cone_displacement := pymax response.cone_displacement_m 0
  let max_port_velocity := pymax response.port_air_velocity_ms 0
  let excursion :=
    match s.driver.xmax_m with
    | some xmax =>
      if xmax ≠ 0 ∧ 0 < max_cone_displacement then
        let ratio := max_cone_displacement / xmax
        some (ratio, -20 * R.log10 ratio, s.drive_voltage / max ratio 1)
      else none
    | none => none
  { fb_hz := s.tuning_frequency R
    f3_low_hz := edges.1
    f3_high_hz := edges.2
    max_spl_db := max_spl
    max_cone_velocity_ms := max_cone_velocity
    max_cone_displacement_m := max_cone_displacement
    max_port_velocity_ms := max_port_velocity
    excursion_ratio := excursion.map (fun e => e.1)
    excursion_headroom_db := excursion.map (fun e => e.2.1)
    safe_drive_voltage_v := excursion.map (fun e => e.2.2) }

/- ----------------------------------------------------------------------
   acoustics/hybrid.py: port-compression step of the near-field solver
   ---------------------------------------------------------------------- -/

/-- Port-compression threshold fixed by HybridBoxSolver.__init__
(self._port_threshold = 17.0 m/s). -/
def HYBRID_PORT_THRESHOLD : ℚ := 17

/-- hybrid.HybridBoxSolver._apply_port_compression: returns the (possibly
compressed) velocity and the compression ratio; non-positive velocities yield
no velocity and no ratio. -/
def apply_port_compression (threshold velocity : ℚ) : Option ℚ × Option ℚ :=
  if velocity ≤ 0 then (none, none)
  else if velocity ≤ threshold then (some velocity, some 1)
  else
    let excess := velocity - threshold
    let compressed := threshold + 0.35 * excess
    let ratio := if 0 < velocity then compressed / velocity else 1
    (some compressed, some ratio)

/- ----------------------------------------------------------------------
   tolerances.py: Monte Carlo tolerance analysis
   ---------------------------------------------------------------------- -/

/-- Explicit model of random.Random: a stream of successive random() outputs
in [0, 1) together with the position of the next draw.  An identically seeded
generator corresponds to an identical stream. -/
structure Rng where
  stream : ℕ → ℚ
  idx : ℕ

/-- Random.uniform(a, b) = a + (b - a) * random(), consuming one draw. -/
def Rng.uniform (g : Rng) (a b : ℚ) : ℚ × Rng :=
  (a + (b - a) * g.stream g.idx, ⟨g.stream, g.idx + 1⟩)

/-- tolerances._vary: uniform relative perturbation inside the tolerance band
with a positive numerical floor. -/
def vary (value deviation floor_value : ℚ) (g : Rng) : ℚ × Rng :=
  if deviation ≤ 0 ∨ value = 0 then (value, g)
  else
    let dg := g.uniform (-deviation) deviation
    let varied := value * (1 + dg.1)
    if varied = 0 then (floor_value, dg.2) else (max varied floor_value, dg.2)

/-- Percentage tolerances (tolerances.py ToleranceSpec). -/
structure ToleranceSpec where
  driver_fs_pct : ℚ
  driver_qts_pct : ℚ
  driver_vas_pct : ℚ
  driver_re_pct : ℚ
  driver_bl_pct : ℚ
  driver_mms_pct : ℚ
  driver_sd_pct : ℚ
  driver_le_pct : ℚ
  box_volume_pct : ℚ
  port_diameter_pct : ℚ
  port_length_pct : ℚ
deriving DecidableEq, Repr

/-- tolerances.DEFAULT_TOLERANCES (the dataclass defaults). -/
def DEFAULT_TOLERANCES : ToleranceSpec :=
  { driver_fs_pct := 0.15
    driver_qts_pct := 0.20
    driver_vas_pct := 0.10
    driver_re_pct := 0.05
    driver_bl_pct := 0.05
    driver_mms_pct := 0.05
    driver_sd_pct := 0.02
    driver_le_pct := 0.10
    box_volume_pct := 0.05
    port_diameter_pct := 0.06
    port_length_pct := 0.08 }

/-- Aggregated Monte Carlo statistics (tolerances.py MetricStats). -/
structure MetricStats where
  mean : ℚ
  stddev : ℚ
  minimum : ℚ
  maximum : ℚ
  percentile_05 : ℚ
  percentile_95 : ℚ
deriving DecidableEq, Repr

/-- tolerances._percentile on an already sorted list.  The source raises on a
quantile outside [0, 1] or an empty list; the only call sites use 0.05 and
0.95 on nonempty lists, so those branches are unreachable and map to 0. -/
def percentile_tol (sorted_values : List ℚ) (quantile : ℚ) : ℚ :=
  if ¬ (0 ≤ quantile ∧ quantile ≤ 1) then 0
  else if sorted_values.isEmpty then 0
  else if sorted_values.length = 1 then sorted_values.headD 0
  else
    let pos := ((sorted_values.length : ℚ) - 1) * quantile
    let lower := (Int.floor pos).toNat
    let upper := (Int.ceil pos).toNat
    if lower = upper then sorted_values.getD lower 0
    else
      let weight := pos - (lower : ℚ)
      sorted_values.getD lower 0 * (1 - weight) + sorted_values.getD upper 0 * weight

/-- tolerances._collect_stat: raises on an empty metric series, otherwise
mean, population standard deviation, extremes and the 5th/95th percentiles.
statistics.mean and statistics.pstdev compute exactly on the model. -/
def collect_stat (R : RealFns) (values : List ℚ) : Except String MetricStats :=
  if values.isEmpty then .error "cannot compute statistics for empty metric"
  else
    let sorted_values := values.mergeSort (fun a b => decide (a ≤ b))
    let m := values.sum / (values.length : ℚ)
    let variance := ((values.map (fun v => (v - m) ^ 2)).sum) / (values.length : ℚ)
    .ok
      { mean := m
        stddev := R.sqrt variance
        minimum := sorted_values.headD 0
        maximum := sorted_values.getLastD 0
        percentile_05 := percentile_tol sorted_values 0.05
        percentile_95 := percentile_tol sorted_values 0.95 }

/-- tolerances._vary_driver: perturbs the driver fields in source order with
the source floors; xmax is copied unchanged. -/
def vary_driver (driver : DriverParameters) (spec : ToleranceSpec) (g : Rng) :
    DriverParameters × Rng :=
  let fs := vary driver.fs_hz spec.driver_fs_pct 1e-9 g
  let qts := vary driver.qts spec.driver_qts_pct 1e-9 fs.2
  let re0 := vary driver.re_ohm spec.driver_re_pct 1e-9 qts.2
  let bl := vary driver.bl_t_m spec.driver_bl_pct 1e-9 re0.2
  let mms := vary driver.mms_kg spec.driver_mms_pct 1e-9 bl.2
  let sd := vary driver.sd_m2 spec.driver_sd_pct 1e-9 mms.2
  let le0 := vary driver.le_h spec.driver_le_pct 0 sd.2
  let vasPair : Option ℚ × Rng :=
    match driver.vas_l with
    | none => (none, le0.2)
    | some v =>
      let vv := vary v spec.driver_vas_pct 1e-9 le0.2
      (some (max vv.1 1e-6), vv.2)
  (⟨fs.1, max qts.1 1e-3, max re0.1 1e-3, max bl.1 1e-3, max mms.1 1e-6,
      max sd.1 1e-6, le0.1, vasPair.1, driver.xmax_mm⟩, vasPair.2)

/-- tolerances._vary_box. -/
def vary_box (box : BoxDesign) (spec : ToleranceSpec) (g : Rng) :
    BoxDesign × Rng :=
  let vol := vary box.volume_l spec.box_volume_pct 1e-9 g
  (⟨max vol.1 1e-3, box.leakage_q⟩, vol.2)

/-- tolerances._vary_vented_box: diameter, length, volume in source draw
order; count, flare and loss Q are copied. -/
def vary_vented_box (box : VentedBoxDesign) (spec : ToleranceSpec) (g : Rng) :
    VentedBoxDesign × Rng :=
  let dia := vary box.port.diameter_m spec.port_diameter_pct 1e-9 g
  let len := vary box.port.length_m spec.port_length_pct 1e-9 dia.2
  let vol := vary box.volume_l spec.box_volume_pct 1e-9 len.2
  (⟨max vol.1 1e-3,
      ⟨max dia.1 1e-4, max len.1 1e-4, box.port.count, box.port.flare_factor,
        box.port.loss_q⟩,
      box.leakage_q⟩, vol.2)

/-- The record_metric closure of the report builders: appends a numeric value
to the named series, creating the series on first use, skipping None. -/
def record_metric (metrics : List (String × List ℚ)) (name : String)
    (value : Option ℚ) : List (String × List ℚ) :=
  match value with
  | none => metrics
  | some v =>
    if metrics.any (fun kv => kv.1 = name) then
      metrics.map (fun kv => if kv.1 = name then (kv.1, kv.2 ++ [v]) else kv)
    else metrics ++ [(name, [v])]

/-- Field/value pairs of SealedAlignmentSummary.to_dict in source order. -/
def SealedAlignmentSummary.pairs (s : SealedAlignmentSummary) :
    List (String × Option ℚ) :=
  [("fc_hz", some s.fc_hz), ("qtc", some s.qtc), ("f3_low_hz", s.f3_low_hz),
    ("f3_high_hz", s.f3_high_hz), ("max_spl_db", some s.max_spl_db),
    ("max_cone_velocity_ms", some s.max_cone_velocity_ms),
    ("max_cone_displacement_m", some s.max_cone_displacement_m),
    ("excursion_ratio", s.excursion_ratio),
    ("excursion_headroom_db", s.excursion_headroom_db),
    ("safe_drive_voltage_v", s.safe_drive_voltage_v)]

/-- Field/value pairs of VentedAlignmentSummary.to_dict in source order. -/
def VentedAlignmentSummary.pairs (s : VentedAlignmentSummary) :
    List (String × Option ℚ) :=
  [("fb_hz", some s.fb_hz), ("f3_low_hz", s.f3_low_hz),
    ("f3_high_hz", s.f3_high_hz), ("max_spl_db", some s.max_spl_db),
    ("max_cone_velocity_ms", some s.max_cone_velocity_ms),
    ("max_cone_displacement_m", some s.max_cone_displacement_m),
    ("max_port_velocity_ms", some s.max_port_velocity_ms),
    ("excursion_ratio", s.excursion_ratio),
    ("excursion_headroom_db", s.excursion_headroom_db),
    ("safe_drive_voltage_v", s.safe_drive_voltage_v)]

/-- tolerances._summarise_metrics: keeps the series whose statistics succeed,
skipping empty ones. -/
def summarise_metrics (R : RealFns) (metrics : List (String × List ℚ)) :
    List (String × MetricStats) :=
  metrics.foldl
    (fun acc kv =>
      match collect_stat R kv.2 with
      | .ok st => acc ++ [(kv.1, st)]
      | .error _ => acc)
    []

/-- tolerances._worst_case_delta: baseline peak SPL minus the worst sampled
peak SPL. -/
def worst_case_delta (baseline : List (String × Option ℚ))
    (metrics : List (String × List ℚ)) : Option ℚ :=
  match (baseline.lookup "max_spl_db").join, metrics.lookup "max_spl_db" with
  | some base_max, some spl_values =>
    if spl_values.isEmpty then none else some (base_max - pymin spl_values)
  | _, _ => none

/-- Ordering of the qualitative risk levels used by _assess_risk. -/
def risk_level_num : String → ℕ
  | "moderate" => 1
  | "high" => 2
  | _ => 0

/-- The flag closure of _assess_risk: raises the rating when the new level is
strictly higher and appends the message. -/
def risk_flag (state : String × List String) (level : String) (message : String) :
    String × List String :=
  (if risk_level_num state.1 < risk_level_num level then level else state.1,
    state.2 ++ [message])

/-- tolerances._assess_risk: excursion, port-velocity and SPL-delta checks
against the fixed thresholds, with an all-clear note when nothing fired. -/
def assess_risk (R : RealFns) (excursion_rate excursion_limit_ratio : ℚ)
    (port_velocity_rate port_velocity_limit_ms worst_case_delta_db : Option ℚ) :
    String × List String :=
  let st0 : String × List String := ("low", [])
  let st1 :=
    if 0.2 ≤ excursion_rate then
      risk_flag st0 "high"
        (R.fmtPct excursion_rate ++ " of iterations exceeded the excursion limit (" ++
          R.fmtFix2 excursion_limit_ratio ++ "×).")
    else if 0.05 ≤ excursion_rate then
      risk_flag st0 "moderate"
        (R.fmtPct excursion_rate ++ " of iterations nudged past the excursion limit (" ++
          R.fmtFix2 excursion_limit_ratio ++ "×).")
    else st0
  let st2 :=
    match port_velocity_rate, port_velocity_limit_ms with
    | some pr, some pl =>
      if 0.18 ≤ pr then
        risk_flag st1 "high"
          (R.fmtPct pr ++ " of runs exceeded the " ++ R.fmtFix1 pl ++
            " m/s port velocity limit.")
      else if 0.08 ≤ pr then
        risk_flag st1 "moderate"
          (R.fmtPct pr ++ " of runs approached the " ++ R.fmtFix1 pl ++
            " m/s port velocity ceiling.")
      else st1
    | _, _ => st1
  let st3 :=
    match worst_case_delta_db with
    | some wc =>
      if 3 ≤ wc then
        risk_flag st2 "high"
          ("Worst-case SPL dropped by " ++ R.fmtFix1 wc ++ " dB across tolerance samples.")
      else if 1.5 ≤ wc then
        risk_flag st2 "moderate"
          ("SPL varied by up to " ++ R.fmtFix1 wc ++ " dB across tolerance samples.")
      else st2
    | none => st2
  if st3.2.isEmpty then
    (st3.1, ["All monitored tolerance checks stayed within the configured limits."])
  else st3

/-- Monte Carlo report (tolerances.py ToleranceReport); the baseline summary
and metric map are modelled as insertion-ordered association lists. -/
structure ToleranceReport where
  alignment : String
  runs : ℕ
  baseline_summary : List (String × Option ℚ)
  metrics : List (String × MetricStats)
  tolerances : ToleranceSpec
  excursion_limit_ratio : ℚ
  excursion_exceedance_rate : ℚ
  port_velocity_limit_ms : Option ℚ
  port_velocity_exceedance_rate : Option ℚ
  worst_case_spl_delta_db : Option ℚ
  risk_rating : String
  risk_factors : List String
deriving DecidableEq, Repr

/-- Iteration loop of tolerances._sealed_report, threading the random stream,
the metric series and the excursion failure count. -/
def sealed_tol_loop (R : RealFns) (driver : DriverParameters) (design : BoxDesign)
    (spec : ToleranceSpec) (drive_voltage mic_distance_m excursion_limit_ratio : ℚ)
    (frequencies_hz : List ℚ) :
    ℕ → Rng × List (String × List ℚ) × ℕ → Rng × List (String × List ℚ) × ℕ
  | 0, st => st
  | n + 1, (g, metrics, fails) =>
    let vd := vary_driver driver spec g
    let vb := vary_box design spec vd.2
    let solver := SealedBoxSolver.init vd.1 vb.1 drive_voltage
    let response := solver.frequency_response R frequencies_hz mic_distance_m
    let summary := solver.alignment_summary R response
    let metrics1 := summary.pairs.foldl (fun m kv => record_metric m kv.1 kv.2) metrics
    let fails1 :=
      match summary.excursion_ratio with
      | some r => if excursion_limit_ratio < r then fails + 1 else fails
      | none => fails
    sealed_tol_loop R driver design spec drive_voltage mic_distance_m
      excursion_limit_ratio frequencies_hz n (vb.2, metrics1, fails1)

/-- tolerances._sealed_report. -/
def sealed_report (R : RealFns) (driver : DriverParameters) (design : BoxDesign)
    (frequencies_hz : List ℚ) (iterations : ℕ) (spec : ToleranceSpec) (rng : Rng)
    (drive_voltage mic_distance_m excursion_limit_ratio : ℚ) : ToleranceReport :=
  let solver := SealedBoxSolver.init driver design drive_voltage
  let response := solver.frequency_response R frequencies_hz mic_distance_m
  let baseline := solver.alignment_summary R response
  let baseline_dict := baseline.pairs
  let final := sealed_tol_loop R driver design spec drive_voltage mic_distance_m
    excursion_limit_ratio frequencies_hz iterations (rng, [], 0)
  let metrics := final.2.1
  let excursion_failures := final.2.2
  let metric_stats := summarise_metrics R metrics
  let worst := worst_case_delta baseline_dict metrics
  let excursion_rate := (excursion_failures : ℚ) / (iterations : ℚ)
  let risk := assess_risk R excursion_rate excursion_limit_ratio none none worst
  { alignment := "sealed"
    runs := iterations
    baseline_summary := baseline_dict
    metrics := metric_stats
    tolerances := spec
    excursion_limit_ratio := excursion_limit_ratio
    excursion_exceedance_rate := excursion_rate
    port_velocity_limit_ms := none
    port_velocity_exceedance_rate := none
    worst_case_spl_delta_db := worst
    risk_rating := risk.1
    risk_factors := risk.2 }

/-- Iteration loop of tolerances._vented_report; solver construction and the
frequency response can raise, which aborts the loop exactly as a Python
exception would. -/
def vented_tol_loop (R : RealFns) (driver : DriverParameters)
    (design : VentedBoxDesign) (spec : ToleranceSpec)
    (drive_voltage mic_distance_m excursion_limit_ratio : ℚ)
    (port_velocity_limit_ms : Option ℚ) (frequencies_hz : List ℚ) :
    ℕ → Rng × List (String × List ℚ) × ℕ × ℕ →
      Except String (Rng × List (String × List ℚ) × ℕ × ℕ)
  | 0, st => .ok st
  | n + 1, (g, metrics, efails, pfails) =>
    let vd := vary_driver driver spec g
    let vb := vary_vented_box design spec vd.2
    match VentedBoxSolver.init R vd.1 vb.1 drive_voltage with
    | .error e => .error e
    | .ok solver =>
      match solver.frequency_response R frequencies_hz mic_distance_m with
      | .error e => .error e
      | .ok response =>
        let summary := solver.alignment_summary R response
        let metrics1 := summary.pairs.foldl (fun m kv => record_metric m kv.1 kv.2) metrics
        let efails1 :=
          match summary.excursion_ratio with
          | some r => if excursion_limit_ratio < r then efails + 1 else efails
          | none => efails
        let pfails1 :=
          match port_velocity_limit_ms with
          | some limit =>
            if limit < summary.max_port_velocity_ms then pfails + 1 else pfails
          | none => pfails
        vented_tol_loop R driver design spec drive_voltage mic_distance_m
          excursion_limit_ratio port_velocity_limit_ms frequencies_hz n
          (vb.2, metrics1, efails1, pfails1)

/-- tolerances._vented_report. -/
def vented_report (R : RealFns) (driver : DriverParameters)
    (design : VentedBoxDesign) (frequencies_hz : List ℚ) (iterations : ℕ)
    (spec : ToleranceSpec) (rng : Rng)
    (drive_voltage mic_distance_m excursion_limit_ratio : ℚ)
    (port_velocity_limit_ms : Option ℚ) : Except String ToleranceReport := do
  let solver ← VentedBoxSolver.init R driver design drive_voltage
  let response ← solver.frequency_response R frequencies_hz mic_distance_m
  let baseline := solver.alignment_summary R response
  let baseline_dict := baseline.pairs
  let final ← vented_tol_loop R driver design spec drive_voltage mic_distance_m
    excursion_limit_ratio port_velocity_limit_ms frequencies_hz iterations
    (rng, [], 0, 0)
  let metrics := final.2.1
  let excursion_failures := final.2.2.1
  let port_failures := final.2.2.2
  let metric_stats := summarise_metrics R metrics
  let worst := worst_case_delta baseline_dict metrics
  let excursion_rate := (excursion_failures : ℚ) / (iterations : ℚ)
  let port_rate :=
    port_velocity_limit_ms.map (fun _ => (port_failures : ℚ) / (iterations : ℚ))
  let risk := assess_risk R excursion_rate excursion_limit_ratio port_rate
    port_velocity_limit_ms worst
  return {
    alignment := "vented"
    runs := iterations
    baseline_summary := baseline_dict
    metrics := metric_stats
    tolerances := spec
    excursion_limit_ratio := excursion_limit_ratio
    excursion_exceedance_rate := excursion_rate
    port_velocity_limit_ms := port_velocity_limit_ms
    port_velocity_exceedance_rate := port_rate
    worst_case_spl_delta_db := worst
    risk_rating := risk.1
    risk_factors := risk.2 }

/-- tolerances.run_tolerance_analysis: guards on the iteration count, the
frequency axis and the alignment/design pairing, then dispatches.  The
iteration count is a natural number, so the non-positive guard is the zero
case; the design argument is the sealed/vented discriminated union. -/
def run_tolerance_analysis (R : RealFns) (alignment : String)
    (driver : DriverParameters) (design : BoxDesign ⊕ VentedBoxDesign)
    (frequencies_hz : List ℚ) (iterations : ℕ) (tolerances : Option ToleranceSpec)
    (rng : Rng) (drive_voltage mic_distance_m excursion_limit_ratio : ℚ)
    (port_velocity_limit_ms : Option ℚ) : Except String ToleranceReport :=
  if iterations = 0 then .error "iterations must be positive"
  else if frequencies_hz.isEmpty then .error "frequencies_hz must not be empty"
  else
    let spec := tolerances.getD DEFAULT_TOLERANCES
    if alignment = "sealed" then
      match design with
      | .inl box =>
        .ok (sealed_report R driver box frequencies_hz iterations spec rng
          drive_voltage mic_distance_m excursion_limit_ratio)
      | .inr _ => .error "Sealed analysis requires a BoxDesign"
    else if alignment = "vented" then
      match design with
      | .inr vbox =>
        vented_report R driver vbox frequencies_hz iterations spec rng
          drive_voltage mic_distance_m excursion_limit_ratio port_velocity_limit_ms
      | .inl _ => .error "Vented analysis requires a VentedBoxDesign"
    else .error "alignment must be sealed or vented"

/- ----------------------------------------------------------------------
   to_dict serialization model (JSON-safe mappings as ordered key lists)
   ---------------------------------------------------------------------- -/

/-- JSON values produced by the to_dict methods. -/
inductive JsonVal where
  | null : JsonVal
  | num : ℚ → JsonVal
  | str : String → JsonVal
  | arr : List JsonVal → JsonVal
  | obj : List (String × JsonVal) → JsonVal

/-- Python None-or-float to JSON: absent maps to null. -/
def jopt : Option ℚ → JsonVal
  | none => JsonVal.null
  | some q => JsonVal.num q

/-- MeasurementDelta.to_dict: every optional channel key is added only when
the channel is present (the source guards each key with "is not None"). -/
def MeasurementDelta.toDict (d : MeasurementDelta) : List (String × JsonVal) :=
  [("frequency_hz", JsonVal.arr (d.frequency_hz.map JsonVal.num))] ++
  (match d.spl_delta_db with
   | none => []
   | some l => [("spl_delta_db", JsonVal.arr (l.map JsonVal.num))]) ++
  (match d.phase_delta_deg with
   | none => []
   | some l => [("phase_delta_deg", JsonVal.arr (l.map JsonVal.num))]) ++
  (match d.impedance_delta_ohm with
   | none => []
   | some l => [("impedance_delta_ohm", JsonVal.arr (l.map JsonVal.num))]) ++
  (match d.thd_delta_percent with
   | none => []
   | some l => [("thd_delta_percent", JsonVal.arr (l.map JsonVal.num))])

/-- MeasurementStats.to_dict: every field key is always present, absent
optionals as null. -/
def MeasurementStats.toDict (s : MeasurementStats) : List (String × JsonVal) :=
  [("sample_count", JsonVal.num (s.sample_count : ℚ)),
    ("minimum_frequency_hz", JsonVal.num s.minimum_frequency_hz),
    ("maximum_frequency_hz", JsonVal.num s.maximum_frequency_hz),
    ("spl_rmse_db", jopt s.spl_rmse_db),
    ("spl_mae_db", jopt s.spl_mae_db),
    ("spl_bias_db", jopt s.spl_bias_db),
    ("spl_median_abs_dev_db", jopt s.spl_median_abs_dev_db),
    ("spl_std_dev_db", jopt s.spl_std_dev_db),
    ("spl_pearson_r", jopt s.spl_pearson_r),
    ("spl_r_squared", jopt s.spl_r_squared),
    ("spl_p95_abs_error_db", jopt s.spl_p95_abs_error_db),
    ("spl_highest_delta_db", jopt s.spl_highest_delta_db),
    ("spl_lowest_delta_db", jopt s.spl_lowest_delta_db),
    ("max_spl_delta_db", jopt s.max_spl_delta_db),
    ("phase_rmse_deg", jopt s.phase_rmse_deg),
    ("impedance_mag_rmse_ohm", jopt s.impedance_mag_rmse_ohm)]

/-- MeasurementDiagnosis.to_dict: every field key always present. -/
def MeasurementDiagnosis.toDict (d : MeasurementDiagnosis) :
    List (String × JsonVal) :=
  [("overall_bias_db", jopt d.overall_bias_db),
    ("recommended_level_trim_db", jopt d.recommended_level_trim_db),
    ("low_band_bias_db", jopt d.low_band_bias_db),
    ("mid_band_bias_db", jopt d.mid_band_bias_db),
    ("high_band_bias_db", jopt d.high_band_bias_db),
    ("tuning_shift_hz", jopt d.tuning_shift_hz),
    ("recommended_port_length_m", jopt d.recommended_port_length_m),
    ("recommended_port_length_scale", jopt d.recommended_port_length_scale),
    ("leakage_hint",
      match d.leakage_hint with
      | none => JsonVal.null
      | some h => JsonVal.str h),
    ("notes", JsonVal.arr (d.notes.map JsonVal.str))]

/-- CalibrationParameter.to_dict: observation, observation_variance and
credible_interval keys are added only when present; the stddev key is appended
last. -/
def CalibrationParameter.toDict (R : RealFns) (p : CalibrationParameter) :
    List (String × JsonVal) :=
  [("mean", JsonVal.num p.mean),
    ("variance", JsonVal.num p.variance),
    ("prior_mean", JsonVal.num p.prior_mean),
    ("prior_variance", JsonVal.num p.prior_variance),
    ("update_weight", JsonVal.num p.update_weight)] ++
  (match p.observation with
   | none => []
   | some o => [("observation", JsonVal.num o)]) ++
  (match p.observation_variance with
   | none => []
   | some ov => [("observation_variance", JsonVal.num ov)]) ++
  (match p.credible_interval with
   | none => []
   | some ci =>
     [("credible_interval", JsonVal.obj
       [("lower", JsonVal.num ci.1), ("upper", JsonVal.num ci.2.1),
         ("confidence", JsonVal.num ci.2.2)])]) ++
  [("stddev", JsonVal.num (if 0 < p.variance then R.sqrt p.variance else 0))]

/-- CalibrationUpdate.to_dict: the three parameter keys are always present,
null when the parameter is missing. -/
def CalibrationUpdate.toDict (R : RealFns) (u : CalibrationUpdate) :
    List (String × JsonVal) :=
  [("level_trim_db",
      match u.level_trim_db with
      | none => JsonVal.null
      | some p => JsonVal.obj (p.toDict R)),
    ("port_length_scale",
      match u.port_length_scale with
      | none => JsonVal.null
      | some p => JsonVal.obj (p.toDict R)),
    ("leakage_q_scale",
      match u.leakage_q_scale with
      | none => JsonVal.null
      | some p => JsonVal.obj (p.toDict R)),
    ("notes", JsonVal.arr (u.notes.map JsonVal.str))]

/-- CalibrationOverrides.to_dict: all six keys always present, absent values
as null. -/
def CalibrationOverrides.toDict (o : CalibrationOverrides) :
    List (String × JsonVal) :=
  [("drive_voltage_scale", jopt o.drive_voltage_scale),
    ("drive_voltage_v", jopt o.drive_voltage_v),
    ("port_length_scale", jopt o.port_length_scale),
    ("port_length_m", jopt o.port_length_m),
    ("leakage_q_scale", jopt o.leakage_q_scale),
    ("leakage_q", jopt o.leakage_q)]

/-- MetricStats.to_dict. -/
def MetricStats.toDict (m : MetricStats) : List (String × JsonVal) :=
  [("mean", JsonVal.num m.mean), ("stddev", JsonVal.num m.stddev),
    ("min", JsonVal.num m.minimum), ("max", JsonVal.num m.maximum),
    ("p05", JsonVal.num m.percentile_05), ("p95", JsonVal.num m.percentile_95)]

/-- ToleranceSpec.to_dict (dataclasses.asdict preserves field order). -/
def ToleranceSpec.toDict (t : ToleranceSpec) : List (String × JsonVal) :=
  [("driver_fs_pct", JsonVal.num t.driver_fs_pct),
    ("driver_qts_pct", JsonVal.num t.driver_qts_pct),
    ("driver_vas_pct", JsonVal.num t.driver_vas_pct),
    ("driver_re_pct", JsonVal.num t.driver_re_pct),
    ("driver_bl_pct", JsonVal.num t.driver_bl_pct),
    ("driver_mms_pct", JsonVal.num t.driver_mms_pct),
    ("driver_sd_pct", JsonVal.num t.driver_sd_pct),
    ("driver_le_pct", JsonVal.num t.driver_le_pct),
    ("box_volume_pct", JsonVal.num t.box_volume_pct),
    ("port_diameter_pct", JsonVal.num t.port_diameter_pct),
    ("port_length_pct", JsonVal.num t.port_length_pct)]

/-- ToleranceReport.to_dict: every field key always present; the optional
port-velocity limit/rate and the worst-case SPL delta map to null when
absent. -/
def ToleranceReport.toDict (r : ToleranceReport) : List (String × JsonVal) :=
  [("alignment", JsonVal.str r.alignment),
    ("runs", JsonVal.num (r.runs : ℚ)),
    ("baseline", JsonVal.obj (r.baseline_summary.map (fun kv => (kv.1, jopt kv.2)))),
    ("tolerances", JsonVal.obj r.tolerances.toDict),
    ("excursion_limit_ratio", JsonVal.num r.excursion_limit_ratio),
    ("excursion_exceedance_rate", JsonVal.num r.excursion_exceedance_rate),
    ("port_velocity_limit_ms", jopt r.port_velocity_limit_ms),
    ("port_velocity_exceedance_rate", jopt r.port_velocity_exceedance_rate),
    ("worst_case_spl_delta_db", jopt r.worst_case_spl_delta_db),
    ("risk_rating", JsonVal.str r.risk_rating),
    ("risk_factors", JsonVal.arr (r.risk_factors.map JsonVal.str)),
    ("metrics", JsonVal.obj (r.metrics.map (fun kv => (kv.1, JsonVal.obj kv.2.toDict))))]

/-- The unit-interval property claimed for the exceedance rates of a tolerance
run: trivially true on the error outcomes, and on success both rates lie in
[0, 1]. -/
def rates_in_unit_interval : Except String ToleranceReport → Prop
  | .error _ => True
  | .ok r =>
    0 ≤ r.excursion_exceedance_rate ∧ r.excursion_exceedance_rate ≤ 1 ∧
      ∀ x, r.port_velocity_exceedance_rate = some x → 0 ≤ x ∧ x ≤ 1

/-- The inner sum of squared deviations from the mean that appears in both
the Pearson covariance and the Pearson variances when a trace is compared
with itself. -/
def centered_square_sum (l : List ℚ) : ℚ :=
  let m := l.sum / (l.length : ℚ)
  (l.map (fun x => (x - m) ^ 2)).sum

/-- A trivial concrete instance of the transcendental model, for evaluating
structural properties that do not depend on the numeric values. -/
def trivialFns : RealFns :=
  ⟨fun _ => 0, fun _ => 0, fun _ => 0, fun _ => 1, fun _ => 0,
    fun _ => "", fun _ => "", fun _ => "", fun _ => "", fun _ => ""⟩

/-- A concrete instance of the transcendental model whose sqrt is the exact
rational square root (exact on perfect squares, as the float sqrt is). -/
def ratFns : RealFns :=
  ⟨Rat.sqrt, fun _ => 0, fun _ => 0, fun _ => 1, fun _ => 0,
    fun _ => "", fun _ => "", fun _ => "", fun _ => "", fun _ => ""⟩

/-- A concrete instance of the transcendental model whose sqrt is exact at 0
and at 1/4 (the only points where concrete identity instances evaluate it). -/
def sqrtQuarterFns : RealFns :=
  ⟨fun q => if q = 1 / 4 then 1 / 2 else 0, fun _ => 0, fun _ => 0, fun _ => 1,
    fun _ => 0, fun _ => "", fun _ => "", fun _ => "", fun _ => "", fun _ => ""⟩

/-- Concrete driver used by witness instances (scenario A of the spec plus an
8 mm excursion limit). -/
def sampleDriver : DriverParameters :=
  ⟨32, 0.39, 3.2, 15.5, 0.125, 0.052, 0.0007, none, some 8⟩

/-- Concrete sealed box used by witness instances. -/
def sampleBox : BoxDesign := ⟨55, 15⟩

/-- Concrete port used by witness instances. -/
def samplePort : PortGeometry := ⟨0.1, 0.24, 1, 1.7, 18⟩

/-- Concrete vented box used by witness instances. -/
def sampleVentedBox : VentedBoxDesign := ⟨55, samplePort, 10⟩

/-- Concrete random stream used by witness instances. -/
def zeroRng : Rng := ⟨fun _ => 0, 0⟩

/- ----------------------------------------------------------------------
   Theorems
   ---------------------------------------------------------------------- -/

/-- C8: the claim as frozen is false at velocity 0: zero is at (in fact
below) the compression threshold, yet _apply_port_compression reports no
compression ratio at all (None, None) instead of ratio 1. -/
theorem c8_port_compression_counterexample :
    (apply_port_compression HYBRID_PORT_THRESHOLD 0).2 ≠ some 1 := by
  decide

/-- C8 (amended): for every strictly positive port velocity at or below the
threshold the reported ratio is 1 and the velocity is unchanged; above the
threshold the velocity becomes threshold + 0.35 * (v - threshold), the ratio
is compressed/v, and that ratio is strictly below 1; non-positive velocities
yield no velocity and no ratio. -/
theorem c8_port_compression_piecewise (v : ℚ) :
    (0 < v → v ≤ HYBRID_PORT_THRESHOLD →
      apply_port_compression HYBRID_PORT_THRESHOLD v = (some v, some 1)) ∧
    (HYBRID_PORT_THRESHOLD < v →
      apply_port_compression HYBRID_PORT_THRESHOLD v =
        (some (HYBRID_PORT_THRESHOLD + 0.35 * (v - HYBRID_PORT_THRESHOLD)),
          some ((HYBRID_PORT_THRESHOLD + 0.35 * (v - HYBRID_PORT_THRESHOLD)) / v)) ∧
      (HYBRID_PORT_THRESHOLD + 0.35 * (v - HYBRID_PORT_THRESHOLD)) / v < 1) ∧
    (v ≤ 0 → apply_port_compression HYBRID_PORT_THRESHOLD v = (none, none)) := by
  have hT : HYBRID_PORT_THRESHOLD = 17 := rfl
  refine ⟨?_, ?_, ?_⟩
  · intro hv hle
    rw [apply_port_compression, if_neg (by linarith), if_pos hle]
  · intro hgt
    have hv : (0 : ℚ) < v := by rw [hT] at hgt; linarith
    constructor
    · rw [apply_port_compression, if_neg (by linarith), if_neg (by rw [hT] at hgt ⊢; push_neg; linarith)]
      simp only []
      rw [if_pos hv]
    · rw [div_lt_one hv, hT] at *
      rw [hT] at hgt
      nlinarith
  · intro hle
    rw [apply_port_compression, if_pos hle]

/-- C8 witness instance: velocity 5 sits below the threshold and keeps
ratio 1. -/
theorem c8_port_compression_piecewise_witness :
    (0 : ℚ) < 5 ∧ (5 : ℚ) ≤ HYBRID_PORT_THRESHOLD ∧
      apply_port_compression HYBRID_PORT_THRESHOLD 5 = (some 5, some 1) :=
  ⟨by norm_num, by decide,
    (c8_port_compression_piecewise 5).1 (by norm_num) (by decide)⟩

/-- Helper: the final guard of apply_calibration_overrides_to_drive_voltage
and _resolved_positive keeps positivity when the fallback is positive. -/
theorem resolved_positive_pos (base : ℚ) (hb : 0 < base) (v s : Option ℚ) :
    0 < resolved_positive base v s := by
  rcases v with _ | c
  · rcases s with _ | sc
    · simpa [resolved_positive] using hb
    · by_cases hs : 0 < sc
      · simp only [resolved_positive, math_isfinite, true_and, if_pos hs]
        by_cases hbs : base * sc ≤ 0
        · simp only [Bool.not_true, Bool.false_eq_true, false_or, if_pos hbs]
          exact hb
        · simp only [Bool.not_true, Bool.false_eq_true, false_or, if_neg hbs]
          exact lt_of_not_le hbs
      · simp only [resolved_positive, math_isfinite, true_and, if_neg hs]
        exact hb
  · by_cases hc : c ≤ 0
    · simpa [resolved_positive, math_isfinite, hc] using hb
    · simpa [resolved_positive, math_isfinite, hc] using lt_of_not_le hc

/-- C7: the claim as frozen asserts the resulting drive voltage is always
positive; with no overrides the baseline passes through unchanged, so a
non-positive baseline yields a non-positive result. -/
theorem c7_overrides_counterexample :
    ¬ (0 < apply_calibration_overrides_to_drive_voltage (-1) none) := by
  decide

/-- C7 (amended): the level-trim posterior mean t converts to the drive scale
10 ** (-t / 20) whenever that value is positive (as the real power always
is); overrides that are missing or non-positive are discarded in favour of
the baseline, so every resulting field is positive whenever its baseline is
positive, and boxes and voltages are rebuilt as new values with all
uncorrected fields copied unchanged. -/
theorem c7_overrides_guarded (R : RealFns) (u : CalibrationUpdate)
    (dv pl lq : Option ℚ) :
    (∀ param, u.level_trim_db = some param →
      0 < R.pow10 (-(param.mean) / 20) →
      (derive_calibration_overrides R u dv pl lq).drive_voltage_scale =
        some (R.pow10 (-(param.mean) / 20))) ∧
    (∀ base ov, 0 < base →
      0 < apply_calibration_overrides_to_drive_voltage base ov) ∧
    (∀ base, apply_calibration_overrides_to_drive_voltage base none = base) ∧
    (∀ box ov, (apply_calibration_overrides_to_box box ov).volume_l = box.volume_l ∧
      (0 < box.leakage_q → 0 < (apply_calibration_overrides_to_box box ov).leakage_q)) ∧
    (∀ box ov,
      (apply_calibration_overrides_to_vented_box box ov).volume_l = box.volume_l ∧
      (apply_calibration_overrides_to_vented_box box ov).port.diameter_m =
        box.port.diameter_m ∧
      (apply_calibration_overrides_to_vented_box box ov).port.count = box.port.count ∧
      (apply_calibration_overrides_to_vented_box box ov).port.flare_factor =
        box.port.flare_factor ∧
      (apply_calibration_overrides_to_vented_box box ov).port.loss_q = box.port.loss_q ∧
      (0 < box.leakage_q →
        0 < (apply_calibration_overrides_to_vented_box box ov).leakage_q) ∧
      (0 < box.port.length_m →
        0 < (apply_calibration_overrides_to_vented_box box ov).port.length_m)) := by
  refine ⟨?_, ?_, ?_, ?_, ?_⟩
  · intro param hp hpos
    simp only [derive_calibration_overrides, drive_voltage_scale, hp]
    simp [math_isfinite, not_le.mpr hpos]
  · intro base ov hb
    rcases ov with _ | o
    · exact hb
    · simp only [apply_calibration_overrides_to_drive_voltage]
      rcases h1 : o.drive_voltage_v with _ | c
      · rcases h2 : o.drive_voltage_scale with _ | sc
        · exact hb
        · by_cases hs : 0 < sc
          · simp only [math_isfinite, true_and, if_pos hs]
            by_cases hbs : base * sc ≤ 0
            · simpa [hbs] using hb
            · simpa [hbs] using lt_of_not_le hbs
          · simp only [math_isfinite, true_and, if_neg hs]
            exact hb
      · by_cases hc : c ≤ 0
        · simpa [math_isfinite, hc] using hb
        · simpa [math_isfinite, hc] using lt_of_not_le hc
  · intro base
    rfl
  · intro box ov
    rcases ov with _ | o
    · exact ⟨rfl, fun h => h⟩
    · exact ⟨rfl, fun h => resolved_positive_pos _ h _ _⟩
  · intro box ov
    rcases ov with _ | o
    · exact ⟨rfl, rfl, rfl, rfl, rfl, fun h => h, fun h => h⟩
    · exact ⟨rfl, rfl, rfl, rfl, rfl, fun h => resolved_positive_pos _ h _ _,
        fun h => resolved_positive_pos _ h _ _⟩

/-- C7 witness instance: a level-trim posterior with mean 0 converts to the
scale 10 ** 0 under a concrete power model, and a positive baseline voltage
stays positive with no overrides. -/
theorem c7_overrides_guarded_witness :
    ((⟨0, 1, 0, 4, some 0, some LEVEL_OBS_VARIANCE, 0, none⟩ :
        CalibrationParameter) = ⟨0, 1, 0, 4, some 0, some LEVEL_OBS_VARIANCE, 0, none⟩) ∧
    0 < trivialFns.pow10 (-(0 : ℚ) / 20) ∧
    (derive_calibration_overrides trivialFns
        ⟨some ⟨0, 1, 0, 4, some 0, some LEVEL_OBS_VARIANCE, 0, none⟩, none, none, []⟩
        none none none).drive_voltage_scale =
      some (trivialFns.pow10 (-(0 : ℚ) / 20)) ∧
    0 < apply_calibration_overrides_to_drive_voltage 2.83 none := by
  refine ⟨rfl, by norm_num [trivialFns], ?_, ?_⟩
  · exact (c7_overrides_guarded trivialFns
      ⟨some ⟨0, 1, 0, 4, some 0, some LEVEL_OBS_VARIANCE, 0, none⟩, none, none, []⟩
      none none none).1 _ rfl (by norm_num [trivialFns])
  · exact (c7_overrides_guarded trivialFns
      ⟨some ⟨0, 1, 0, 4, some 0, some LEVEL_OBS_VARIANCE, 0, none⟩, none, none, []⟩
      none none none).2.1 2.83 none (by norm_num)


/-- Helper: filtering indices by a predicate on the indexed element and then
reading the elements back is list filtering. -/
theorem filter_range_map_getD {α : Type} (l : List α) (d : α) (p : α → Bool) :
    ((List.range l.length).filter (fun i => p (l.getD i d))).map
        (fun i => l.getD i d) = l.filter p := by
  induction l with
  | nil => rfl
  | cons x xs ih =>
    rw [List.length_cons, List.range_succ_eq_map, List.filter_cons]
    have h2 : ((List.range xs.length).map (· + 1)).filter
        (fun i => p ((x :: xs).getD i d)) =
        ((List.range xs.length).filter (fun i => p (xs.getD i d))).map (· + 1) := by
      rw [List.filter_map]
      rfl
    have h0 : (x :: xs).getD 0 d = x := rfl
    by_cases hx : p x
    · rw [h0, if_pos hx, List.map_cons, h2, List.map_map]
      have h3 : ((fun i => (x :: xs).getD i d) ∘ (· + 1)) = fun i => xs.getD i d := by
        funext i
        rfl
      rw [h3, ih, List.filter_cons, if_pos hx, h0]
    · rw [h0, if_neg hx, h2, List.map_map]
      have h3 : ((fun i => (x :: xs).getD i d) ∘ (· + 1)) = fun i => xs.getD i d := by
        funext i
        rfl
      rw [h3, ih, List.filter_cons, if_neg hx]

/-- C5: the claim as frozen is false on the empty trace with both bounds
omitted: the resulting subset of samples is empty, yet bandpass returns the
trace unchanged instead of raising. -/
theorem c5_bandpass_counterexample :
    (⟨[], none, none, none, none⟩ : MeasurementTrace).bandpass none none =
      .ok ⟨[], none, none, none, none⟩ := rfl

/-- C5 (amended): every frequency in the bandpassed trace respects the given
bounds, the surviving frequencies are exactly the in-band ones in their
original order, and bandpass raises whenever at least one bound is provided
and the in-band subset is empty; with both bounds omitted the trace itself is
returned unchanged, even when it is empty. -/
theorem c5_bandpass_band_invariant (t : MeasurementTrace) (lo hi : Option ℚ) :
    (t.bandpass none none = .ok t) ∧
    (∀ t', t.bandpass lo hi = .ok t' →
      ∀ f ∈ t'.frequency_hz,
        (∀ l, lo = some l → l ≤ f) ∧ (∀ h, hi = some h → f ≤ h)) ∧
    ((lo.isSome ∨ hi.isSome) → ∀ t', t.bandpass lo hi = .ok t' →
      t'.frequency_hz = t.frequency_hz.filter (fun f =>
        (match lo with | some l => decide (l ≤ f) | none => true) &&
        (match hi with | some h => decide (f ≤ h) | none => true))) ∧
    ((lo.isSome ∨ hi.isSome) →
      t.frequency_hz.filter (fun f =>
        (match lo with | some l => decide (l ≤ f) | none => true) &&
        (match hi with | some h => decide (f ≤ h) | none => true)) = [] →
      ∃ msg, t.bandpass lo hi = .error msg) := by
  refine ⟨rfl, ?_⟩
  rcases lo with _ | l <;> rcases hi with _ | hb
  · refine ⟨?_, ?_, ?_⟩
    · intro t' h f hf
      exact ⟨(fun l hl => nomatch hl), (fun v hv => nomatch hv)⟩
    · rintro (hs | hs) <;> simp at hs
    · rintro (hs | hs) <;> simp at hs
  · have hbp : t.bandpass none (some hb) =
        (if ((List.range t.frequency_hz.length).filter
            (fun i => true && decide (t.frequency_hz.getD i 0 ≤ hb))).isEmpty then
          (.error "No samples fall within the requested frequency band" :
            Except String MeasurementTrace)
        else
          .ok
            { frequency_hz := ((List.range t.frequency_hz.length).filter
                (fun i => true && decide (t.frequency_hz.getD i 0 ≤ hb))).map
                  (fun i => t.frequency_hz.getD i 0)
              spl_db := t.spl_db.map (fun s => ((List.range t.frequency_hz.length).filter
                (fun i => true && decide (t.frequency_hz.getD i 0 ≤ hb))).map
                  (fun i => s.getD i 0))
              phase_deg := t.phase_deg.map (fun s => ((List.range t.frequency_hz.length).filter
                (fun i => true && decide (t.frequency_hz.getD i 0 ≤ hb))).map
                  (fun i => s.getD i 0))
              impedance_ohm := t.impedance_ohm.map (fun s => ((List.range t.frequency_hz.length).filter
                (fun i => true && decide (t.frequency_hz.getD i 0 ≤ hb))).map
                  (fun i => s.getD i (Cx.ofQ 0)))
              thd_percent := t.thd_percent.map (fun s => ((List.range t.frequency_hz.length).filter
                (fun i => true && decide (t.frequency_hz.getD i 0 ≤ hb))).map
                  (fun i => s.getD i 0)) }) := rfl
    have hfilt := filter_range_map_getD t.frequency_hz 0
      (fun f => true && decide (f ≤ hb))
    refine ⟨?_, ?_, ?_⟩
    · intro t' h f hf
      refine ⟨(fun l hl => nomatch hl), fun v hv => ?_⟩
      cases hv
      rw [hbp] at h
      split at h
      · cases h
      · simp only [Except.ok.injEq] at h
        subst h
        simp only [hfilt] at hf
        have := List.of_mem_filter hf
        simpa using this
    · intro _ t' h
      rw [hbp] at h
      split at h
      · cases h
      · simp only [Except.ok.injEq] at h
        subst h
        exact hfilt
    · intro _ hempty
      rw [hbp]
      have : ((List.range t.frequency_hz.length).filter
          (fun i => true && decide (t.frequency_hz.getD i 0 ≤ hb))).isEmpty = true := by
        have hlen := congrArg List.length hfilt
        rw [hempty] at hlen
        simp only [List.length_map, List.length_nil] at hlen
        simpa [List.isEmpty_iff, List.length_eq_zero] using hlen
      rw [if_pos this]
      exact ⟨_, rfl⟩
  · have hbp : t.bandpass (some l) none =
        (if ((List.range t.frequency_hz.length).filter
            (fun i => decide (l ≤ t.frequency_hz.getD i 0) && true)).isEmpty then
          (.error "No samples fall within the requested frequency band" :
            Except String MeasurementTrace)
        else
          .ok
            { frequency_hz := ((List.range t.frequency_hz.length).filter
                (fun i => decide (l ≤ t.frequency_hz.getD i 0) && true)).map
                  (fun i => t.frequency_hz.getD i 0)
              spl_db := t.spl_db.map (fun s => ((List.range t.frequency_hz.length).filter
                (fun i => decide (l ≤ t.frequency_hz.getD i 0) && true)).map
                  (fun i => s.getD i 0))
              phase_deg := t.phase_deg.map (fun s => ((List.range t.frequency_hz.length).filter
                (fun i => decide (l ≤ t.frequency_hz.getD i 0) && true)).map
                  (fun i => s.getD i 0))
              impedance_ohm := t.impedance_ohm.map (fun s => ((List.range t.frequency_hz.length).filter
                (fun i => decide (l ≤ t.frequency_hz.getD i 0) && true)).map
                  (fun i => s.getD i (Cx.ofQ 0)))
              thd_percent := t.thd_percent.map (fun s => ((List.range t.frequency_hz.length).filter
                (fun i => decide (l ≤ t.frequency_hz.getD i 0) && true)).map
                  (fun i => s.getD i 0)) }) := rfl
    have hfilt := filter_range_map_getD t.frequency_hz 0
      (fun f => decide (l ≤ f) && true)
    refine ⟨?_, ?_, ?_⟩
    · intro t' h f hf
      refine ⟨fun lv hl => ?_, (fun v hv => nomatch hv)⟩
      cases hl
      rw [hbp] at h
      split at h
      · cases h
      · simp only [Except.ok.injEq] at h
        subst h
        simp only [hfilt] at hf
        have := List.of_mem_filter hf
        simpa using this
    · intro _ t' h
      rw [hbp] at h
      split at h
      · cases h
      · simp only [Except.ok.injEq] at h
        subst h
        exact hfilt
    · intro _ hempty
      rw [hbp]
      have : ((List.range t.frequency_hz.length).filter
          (fun i => decide (l ≤ t.frequency_hz.getD i 0) && true)).isEmpty = true := by
        have hlen := congrArg List.length hfilt
        rw [hempty] at hlen
        simp only [List.length_map, List.length_nil] at hlen
        simpa [List.isEmpty_iff, List.length_eq_zero] using hlen
      rw [if_pos this]
      exact ⟨_, rfl⟩
  · by_cases hrev : hb < l
    · have hbp : t.bandpass (some l) (some hb) =
          .error "Minimum frequency must be less than or equal to maximum frequency" := by
        rw [MeasurementTrace.bandpass]
        simp [hrev]
      refine ⟨?_, ?_, ?_⟩
      · intro t' h
        rw [hbp] at h
        cases h
      · intro _ t' h
        rw [hbp] at h
        cases h
      · intro _ _
        exact ⟨_, hbp⟩
    · have hbp : t.bandpass (some l) (some hb) =
          (if ((List.range t.frequency_hz.length).filter
              (fun i => decide (l ≤ t.frequency_hz.getD i 0) &&
                decide (t.frequency_hz.getD i 0 ≤ hb))).isEmpty then
            (.error "No samples fall within the requested frequency band" :
              Except String MeasurementTrace)
          else
            .ok
              { frequency_hz := ((List.range t.frequency_hz.length).filter
                  (fun i => decide (l ≤ t.frequency_hz.getD i 0) &&
                    decide (t.frequency_hz.getD i 0 ≤ hb))).map
                    (fun i => t.frequency_hz.getD i 0)
                spl_db := t.spl_db.map (fun s => ((List.range t.frequency_hz.length).filter
                  (fun i => decide (l ≤ t.frequency_hz.getD i 0) &&
                    decide (t.frequency_hz.getD i 0 ≤ hb))).map
                    (fun i => s.getD i 0))
                phase_deg := t.phase_deg.map (fun s => ((List.range t.frequency_hz.length).filter
                  (fun i => decide (l ≤ t.frequency_hz.getD i 0) &&
                    decide (t.frequency_hz.getD i 0 ≤ hb))).map
                    (fun i => s.getD i 0))
                impedance_ohm := t.impedance_ohm.map (fun s => ((List.range t.frequency_hz.length).filter
                  (fun i => decide (l ≤ t.frequency_hz.getD i 0) &&
                    decide (t.frequency_hz.getD i 0 ≤ hb))).map
                    (fun i => s.getD i (Cx.ofQ 0)))
                thd_percent := t.thd_percent.map (fun s => ((List.range t.frequency_hz.length).filter
                  (fun i => decide (l ≤ t.frequency_hz.getD i 0) &&
                    decide (t.frequency_hz.getD i 0 ≤ hb))).map
                    (fun i => s.getD i 0)) }) := by
        rw [MeasurementTrace.bandpass]
        simp [hrev]
      have hfilt := filter_range_map_getD t.frequency_hz 0
        (fun f => decide (l ≤ f) && decide (f ≤ hb))
      refine ⟨?_, ?_, ?_⟩
      · intro t' h f hf
        rw [hbp] at h
        split at h
        · cases h
        · simp only [Except.ok.injEq] at h
          subst h
          simp only [hfilt] at hf
          have hm := List.of_mem_filter hf
          simp only [Bool.and_eq_true, decide_eq_true_eq] at hm
          exact ⟨fun lv hl => by cases hl; exact hm.1, fun v hv => by cases hv; exact hm.2⟩
      · intro _ t' h
        rw [hbp] at h
        split at h
        · cases h
        · simp only [Except.ok.injEq] at h
          subst h
          exact hfilt
      · intro _ hempty
        rw [hbp]
        have : ((List.range t.frequency_hz.length).filter
            (fun i => decide (l ≤ t.frequency_hz.getD i 0) &&
              decide (t.frequency_hz.getD i 0 ≤ hb))).isEmpty = true := by
          have hlen := congrArg List.length hfilt
          rw [hempty] at hlen
          simp only [List.length_map, List.length_nil] at hlen
          simpa [List.isEmpty_iff, List.length_eq_zero] using hlen
        rw [if_pos this]
        exact ⟨_, rfl⟩

/-- C5 witness instance: a two-sample trace bandpassed to [15, 25] keeps
exactly the in-band frequency 20 and it respects both bounds. -/
theorem c5_bandpass_band_invariant_witness :
    ((⟨[10, 20], none, none, none, none⟩ : MeasurementTrace).bandpass
        (some 15) (some 25) = .ok ⟨[20], none, none, none, none⟩) ∧
    (∀ f ∈ ([20] : List ℚ), (∀ l, (some 15 : Option ℚ) = some l → l ≤ f) ∧
      (∀ h, (some 25 : Option ℚ) = some h → f ≤ h)) := by
  have hok : (⟨[10, 20], none, none, none, none⟩ : MeasurementTrace).bandpass
      (some 15) (some 25) = .ok ⟨[20], none, none, none, none⟩ := by rfl
  refine ⟨hok, ?_⟩
  intro f hf
  exact (c5_bandpass_band_invariant ⟨[10, 20], none, none, none, none⟩
    (some 15) (some 25)).2.1 ⟨[20], none, none, none, none⟩ hok f hf

/-- C4: the claim as frozen is false for MeasurementDelta.to_dict: a delta
with an absent SPL channel omits the spl_delta_db key entirely instead of
mapping it to null. -/
theorem c4_to_dict_counterexample :
    "spl_delta_db" ∉
      ((⟨[10], none, none, none, none⟩ : MeasurementDelta).toDict.map Prod.fst) := by
  decide

/-- C4 (amended): stats, diagnosis, calibration update, overrides and the
tolerance report expose a key for every field with absent optionals mapped to
null; MeasurementDelta.to_dict and CalibrationParameter.to_dict instead omit
the keys of absent optional fields entirely (their always-present fields do
keep their keys). -/
theorem c4_serialization_contract (R : RealFns) (st : MeasurementStats)
    (dg : MeasurementDiagnosis) (u : CalibrationUpdate) (ov : CalibrationOverrides)
    (rp : ToleranceReport) (dl : MeasurementDelta) (p : CalibrationParameter) :
    (st.toDict.map Prod.fst =
      ["sample_count", "minimum_frequency_hz", "maximum_frequency_hz",
        "spl_rmse_db", "spl_mae_db", "spl_bias_db", "spl_median_abs_dev_db",
        "spl_std_dev_db", "spl_pearson_r", "spl_r_squared",
        "spl_p95_abs_error_db", "spl_highest_delta_db", "spl_lowest_delta_db",
        "max_spl_delta_db", "phase_rmse_deg", "impedance_mag_rmse_ohm"]) ∧
    (st.toDict.lookup "spl_rmse_db" = some (jopt st.spl_rmse_db) ∧
      st.toDict.lookup "spl_mae_db" = some (jopt st.spl_mae_db) ∧
      st.toDict.lookup "spl_bias_db" = some (jopt st.spl_bias_db) ∧
      st.toDict.lookup "spl_median_abs_dev_db" = some (jopt st.spl_median_abs_dev_db) ∧
      st.toDict.lookup "spl_std_dev_db" = some (jopt st.spl_std_dev_db) ∧
      st.toDict.lookup "spl_pearson_r" = some (jopt st.spl_pearson_r) ∧
      st.toDict.lookup "spl_r_squared" = some (jopt st.spl_r_squared) ∧
      st.toDict.lookup "spl_p95_abs_error_db" = some (jopt st.spl_p95_abs_error_db) ∧
      st.toDict.lookup "spl_highest_delta_db" = some (jopt st.spl_highest_delta_db) ∧
      st.toDict.lookup "spl_lowest_delta_db" = some (jopt st.spl_lowest_delta_db) ∧
      st.toDict.lookup "max_spl_delta_db" = some (jopt st.max_spl_delta_db) ∧
      st.toDict.lookup "phase_rmse_deg" = some (jopt st.phase_rmse_deg) ∧
      st.toDict.lookup "impedance_mag_rmse_ohm" = some (jopt st.impedance_mag_rmse_ohm)) ∧
    (dg.toDict.map Prod.fst =
      ["overall_bias_db", "recommended_level_trim_db", "low_band_bias_db",
        "mid_band_bias_db", "high_band_bias_db", "tuning_shift_hz",
        "recommended_port_length_m", "recommended_port_length_scale",
        "leakage_hint", "notes"]) ∧
    (dg.toDict.lookup "overall_bias_db" = some (jopt dg.overall_bias_db) ∧
      dg.toDict.lookup "recommended_level_trim_db" =
        some (jopt dg.recommended_level_trim_db) ∧
      dg.toDict.lookup "low_band_bias_db" = some (jopt dg.low_band_bias_db) ∧
      dg.toDict.lookup "mid_band_bias_db" = some (jopt dg.mid_band_bias_db) ∧
      dg.toDict.lookup "high_band_bias_db" = some (jopt dg.high_band_bias_db) ∧
      dg.toDict.lookup "tuning_shift_hz" = some (jopt dg.tuning_shift_hz) ∧
      dg.toDict.lookup "recommended_port_length_m" =
        some (jopt dg.recommended_port_length_m) ∧
      dg.toDict.lookup "recommended_port_length_scale" =
        some (jopt dg.recommended_port_length_scale) ∧
      (dg.leakage_hint = none →
        dg.toDict.lookup "leakage_hint" = some JsonVal.null)) ∧
    ((u.toDict R).map Prod.fst =
      ["level_trim_db", "port_length_scale", "leakage_q_scale", "notes"]) ∧
    ((u.level_trim_db = none →
        (u.toDict R).lookup "level_trim_db" = some JsonVal.null) ∧
      (u.port_length_scale = none →
        (u.toDict R).lookup "port_length_scale" = some JsonVal.null) ∧
      (u.leakage_q_scale = none →
        (u.toDict R).lookup "leakage_q_scale" = some JsonVal.null)) ∧
    (ov.toDict.map Prod.fst =
      ["drive_voltage_scale", "drive_voltage_v", "port_length_scale",
        "port_length_m", "leakage_q_scale", "leakage_q"]) ∧
    (ov.toDict.lookup "drive_voltage_scale" = some (jopt ov.drive_voltage_scale) ∧
      ov.toDict.lookup "drive_voltage_v" = some (jopt ov.drive_voltage_v) ∧
      ov.toDict.lookup "port_length_scale" = some (jopt ov.port_length_scale) ∧
      ov.toDict.lookup "port_length_m" = some (jopt ov.port_length_m) ∧
      ov.toDict.lookup "leakage_q_scale" = some (jopt ov.leakage_q_scale) ∧
      ov.toDict.lookup "leakage_q" = some (jopt ov.leakage_q)) ∧
    (rp.toDict.map Prod.fst =
      ["alignment", "runs", "baseline", "tolerances", "excursion_limit_ratio",
        "excursion_exceedance_rate", "port_velocity_limit_ms",
        "port_velocity_exceedance_rate", "worst_case_spl_delta_db",
        "risk_rating", "risk_factors", "metrics"]) ∧
    (rp.toDict.lookup "port_velocity_limit_ms" =
        some (jopt rp.port_velocity_limit_ms) ∧
      rp.toDict.lookup "port_velocity_exceedance_rate" =
        some (jopt rp.port_velocity_exceedance_rate) ∧
      rp.toDict.lookup "worst_case_spl_delta_db" =
        some (jopt rp.worst_case_spl_delta_db)) ∧
    (("spl_delta_db" ∈ dl.toDict.map Prod.fst ↔ dl.spl_delta_db.isSome) ∧
      ("phase_delta_deg" ∈ dl.toDict.map Prod.fst ↔ dl.phase_delta_deg.isSome) ∧
      ("impedance_delta_ohm" ∈ dl.toDict.map Prod.fst ↔
        dl.impedance_delta_ohm.isSome) ∧
      ("thd_delta_percent" ∈ dl.toDict.map Prod.fst ↔
        dl.thd_delta_percent.isSome) ∧
      "frequency_hz" ∈ dl.toDict.map Prod.fst) ∧
    (("observation" ∈ (p.toDict R).map Prod.fst ↔ p.observation.isSome) ∧
      ("observation_variance" ∈ (p.toDict R).map Prod.fst ↔
        p.observation_variance.isSome) ∧
      ("credible_interval" ∈ (p.toDict R).map Prod.fst ↔
        p.credible_interval.isSome) ∧
      "mean" ∈ (p.toDict R).map Prod.fst ∧
      "stddev" ∈ (p.toDict R).map Prod.fst) := by
  refine ⟨rfl,
    ⟨rfl, rfl, rfl, rfl, rfl, rfl, rfl, rfl, rfl, rfl, rfl, rfl, rfl⟩,
    rfl,
    ⟨rfl, rfl, rfl, rfl, rfl, rfl, rfl, rfl, ?_⟩,
    rfl, ⟨?_, ?_, ?_⟩, rfl,
    ⟨rfl, rfl, rfl, rfl, rfl, rfl⟩,
    rfl, ⟨rfl, rfl, rfl⟩, ?_, ?_⟩
  · intro h
    simp only [MeasurementDiagnosis.toDict, h]
    rfl
  · intro h
    simp only [CalibrationUpdate.toDict, h]
    rfl
  · intro h
    simp only [CalibrationUpdate.toDict, h]
    rfl
  · intro h
    simp only [CalibrationUpdate.toDict, h]
    rfl
  · obtain ⟨fr, a, b, c, d⟩ := dl
    rcases a <;> rcases b <;> rcases c <;> rcases d <;>
      simp [MeasurementDelta.toDict]
  · obtain ⟨m, v, pm, pv, ob, obv, uw, ci⟩ := p
    rcases ob <;> rcases obv <;> rcases ci <;>
      simp [CalibrationParameter.toDict]

/-- C4 witness instance: an update with all parameters missing keeps all
three keys with null values, and absent stats fields map to present-but-null
keys. -/
theorem c4_serialization_contract_witness :
    ((⟨none, none, none, []⟩ : CalibrationUpdate).level_trim_db = none) ∧
    (((⟨none, none, none, []⟩ : CalibrationUpdate).toDict trivialFns).lookup
        "level_trim_db" = some JsonVal.null) ∧
    ((⟨1, 10, 10, none, none, none, none, none, none, none, none, none, none,
        none, none, none⟩ : MeasurementStats).toDict.lookup "spl_rmse_db" =
      some (jopt none)) := by
  refine ⟨rfl, ?_, ?_⟩
  · exact (c4_serialization_contract trivialFns
      ⟨1, 10, 10, none, none, none, none, none, none, none, none, none, none,
        none, none, none⟩
      ⟨none, none, none, none, none, none, none, none, none, []⟩
      ⟨none, none, none, []⟩
      ⟨none, none, none, none, none, none⟩
      ⟨"sealed", 1, [], [], DEFAULT_TOLERANCES, 1, 0, none, none, none, "low", []⟩
      ⟨[10], none, none, none, none⟩
      ⟨0, 1, 0, 4, none, none, 0, none⟩).2.2.2.2.2.1.1 rfl
  · exact (c4_serialization_contract trivialFns
      ⟨1, 10, 10, none, none, none, none, none, none, none, none, none, none,
        none, none, none⟩
      ⟨none, none, none, none, none, none, none, none, none, []⟩
      ⟨none, none, none, []⟩
      ⟨none, none, none, none, none, none⟩
      ⟨"sealed", 1, [], [], DEFAULT_TOLERANCES, 1, 0, none, none, none, "low", []⟩
      ⟨[10], none, none, none, none⟩
      ⟨0, 1, 0, 4, none, none, 0, none⟩).2.1.1

/-- Helper: closed form of the conjugate posterior for positive variances. -/
theorem gaussian_update_closed (pm pv obs ov : ℚ) (hpv : 0 < pv) (hov : 0 < ov) :
    (gaussian_update pm pv obs ov).1 = (pm * ov + obs * pv) / (ov + pv) := by
  have h1 : pv ≠ 0 := ne_of_gt hpv
  have h2 : ov ≠ 0 := ne_of_gt hov
  have h3 : ov + pv ≠ 0 := ne_of_gt (by positivity)
  have h4 : 1 / pv + 1 / ov ≠ 0 := by
    have : 0 < 1 / pv + 1 / ov := by positivity
    exact ne_of_gt this
  rw [gaussian_update, if_neg (not_le.mpr hpv)]
  field_simp
  ring

/-- C1: for each of the three calibration parameters, a present observation
with positive prior variance yields the conjugate posterior: posterior
variance 1 / (1/prior_variance + 1/observation_variance) and posterior mean
posterior_variance * (prior_mean/prior_variance + obs/observation_variance);
and the posterior mean of the underlying Gaussian update tends to the prior
mean as the observation variance grows and to the observation as the prior
variance grows. -/
theorem c1_gaussian_conjugate_update (R : RealFns) (dg : MeasurementDiagnosis)
    (prior : CalibrationPrior) :
    (∀ obs, dg.recommended_level_trim_db = some obs →
      0 < prior.level_trim_db.variance →
      ∃ cp, (derive_calibration_update R dg (some prior)).level_trim_db = some cp ∧
        cp.variance = 1 / (1 / prior.level_trim_db.variance + 1 / LEVEL_OBS_VARIANCE) ∧
        cp.mean = cp.variance * (prior.level_trim_db.mean / prior.level_trim_db.variance +
          obs / LEVEL_OBS_VARIANCE)) ∧
    (∀ obs, dg.recommended_port_length_scale = some obs →
      0 < prior.port_length_scale.variance →
      ∃ cp, (derive_calibration_update R dg (some prior)).port_length_scale = some cp ∧
        cp.variance = 1 / (1 / prior.port_length_scale.variance + 1 / PORT_SCALE_OBS_VARIANCE) ∧
        cp.mean = cp.variance * (prior.port_length_scale.mean / prior.port_length_scale.variance +
          obs / PORT_SCALE_OBS_VARIANCE)) ∧
    (∀ obs, leakage_observation dg = some obs →
      0 < prior.leakage_q_scale.variance →
      ∃ cp, (derive_calibration_update R dg (some prior)).leakage_q_scale = some cp ∧
        cp.variance = 1 / (1 / prior.leakage_q_scale.variance + 1 / LEAKAGE_OBS_VARIANCE) ∧
        cp.mean = cp.variance * (prior.leakage_q_scale.mean / prior.leakage_q_scale.variance +
          obs / LEAKAGE_OBS_VARIANCE)) ∧
    (∀ pm pv obs ε : ℚ, 0 < pv → 0 < ε → ∃ M : ℚ, 0 < M ∧ ∀ ov, M ≤ ov →
      |(gaussian_update pm pv obs ov).1 - pm| ≤ ε) ∧
    (∀ pm obs ov ε : ℚ, 0 < ov → 0 < ε → ∃ M : ℚ, 0 < M ∧ ∀ pv, M ≤ pv →
      |(gaussian_update pm pv obs ov).1 - obs| ≤ ε) := by
  have hOV1 : (0 : ℚ) < LEVEL_OBS_VARIANCE := by norm_num [LEVEL_OBS_VARIANCE]
  have hOV2 : (0 : ℚ) < PORT_SCALE_OBS_VARIANCE := by norm_num [PORT_SCALE_OBS_VARIANCE]
  have hOV3 : (0 : ℚ) < LEAKAGE_OBS_VARIANCE := by norm_num [LEAKAGE_OBS_VARIANCE]
  have formula : ∀ pm pv obs ov : ℚ, 0 < pv → 0 < ov →
      (gaussian_update pm pv obs ov).2 = 1 / (1 / pv + 1 / ov) ∧
      (gaussian_update pm pv obs ov).1 =
        (gaussian_update pm pv obs ov).2 * (pm / pv + obs / ov) := by
    intro pm pv obs ov hpv hov
    rw [gaussian_update, if_neg (not_le.mpr hpv)]
    exact ⟨rfl, by ring⟩
  refine ⟨?_, ?_, ?_, ?_, ?_⟩
  · intro obs hobs hvar
    refine ⟨mk_parameter R
        (gaussian_update prior.level_trim_db.mean prior.level_trim_db.variance
          obs LEVEL_OBS_VARIANCE).1
        (gaussian_update prior.level_trim_db.mean prior.level_trim_db.variance
          obs LEVEL_OBS_VARIANCE).2
        prior.level_trim_db (some obs) (some LEVEL_OBS_VARIANCE), ?_, ?_, ?_⟩
    · simp only [derive_calibration_update, Option.getD_some, update_level_trim,
        hobs, math_isnan, Bool.false_eq_true, if_false]
    · exact (formula _ _ _ _ hvar hOV1).1
    · exact (formula _ _ _ _ hvar hOV1).2
  · intro obs hobs hvar
    refine ⟨mk_parameter R
        (gaussian_update prior.port_length_scale.mean prior.port_length_scale.variance
          obs PORT_SCALE_OBS_VARIANCE).1
        (gaussian_update prior.port_length_scale.mean prior.port_length_scale.variance
          obs PORT_SCALE_OBS_VARIANCE).2
        prior.port_length_scale (some obs) (some PORT_SCALE_OBS_VARIANCE), ?_, ?_, ?_⟩
    · simp only [derive_calibration_update, Option.getD_some, update_port_scale,
        hobs, math_isnan, Bool.false_eq_true, if_false]
    · exact (formula _ _ _ _ hvar hOV2).1
    · exact (formula _ _ _ _ hvar hOV2).2
  · intro obs hobs hvar
    refine ⟨mk_parameter R
        (gaussian_update prior.leakage_q_scale.mean prior.leakage_q_scale.variance
          obs LEAKAGE_OBS_VARIANCE).1
        (gaussian_update prior.leakage_q_scale.mean prior.leakage_q_scale.variance
          obs LEAKAGE_OBS_VARIANCE).2
        prior.leakage_q_scale (some obs) (some LEAKAGE_OBS_VARIANCE), ?_, ?_, ?_⟩
    · simp only [derive_calibration_update, Option.getD_some, update_leakage_scale,
        hobs]
    · exact (formula _ _ _ _ hvar hOV3).1
    · exact (formula _ _ _ _ hvar hOV3).2
  · intro pm pv obs ε hpv hε
    refine ⟨max 1 (pv * |obs - pm| / ε), lt_of_lt_of_le one_pos (le_max_left _ _), ?_⟩
    intro ov hov
    have hov0 : (0 : ℚ) < ov :=
      lt_of_lt_of_le one_pos (le_trans (le_max_left _ _) hov)
    rw [gaussian_update_closed pm pv obs ov hpv hov0]
    have hsum : (0 : ℚ) < ov + pv := by positivity
    have hdiff : (pm * ov + obs * pv) / (ov + pv) - pm = (obs - pm) * pv / (ov + pv) := by
      field_simp
      ring
    rw [hdiff, abs_div, abs_mul, abs_of_pos hpv, abs_of_pos hsum,
      div_le_iff₀ hsum]
    have hM : pv * |obs - pm| / ε ≤ ov := le_trans (le_max_right _ _) hov
    have h1 : pv * |obs - pm| ≤ ov * ε := (div_le_iff₀ hε).mp hM
    nlinarith [abs_nonneg (obs - pm), hε.le, hpv.le]
  · intro pm obs ov ε hov hε
    refine ⟨max 1 (ov * |pm - obs| / ε), lt_of_lt_of_le one_pos (le_max_left _ _), ?_⟩
    intro pv hpv
    have hpv0 : (0 : ℚ) < pv :=
      lt_of_lt_of_le one_pos (le_trans (le_max_left _ _) hpv)
    rw [gaussian_update_closed pm pv obs ov hpv0 hov]
    have hsum : (0 : ℚ) < ov + pv := by positivity
    have hdiff : (pm * ov + obs * pv) / (ov + pv) - obs = (pm - obs) * ov / (ov + pv) := by
      field_simp
      ring
    rw [hdiff, abs_div, abs_mul, abs_of_pos hov, abs_of_pos hsum,
      div_le_iff₀ hsum]
    have hM : ov * |pm - obs| / ε ≤ pv := le_trans (le_max_right _ _) hpv
    have h1 : ov * |pm - obs| ≤ pv * ε := (div_le_iff₀ hε).mp hM
    nlinarith [abs_nonneg (pm - obs), hε.le, hov.le]

/-- C1 witness instance: a level-trim observation of -0.8 dB against the
default prior produces the conjugate posterior values. -/
theorem c1_gaussian_conjugate_update_witness :
    ((⟨some 0.8, some (-0.8), none, none, none, none, none, some 0.96,
        some "lower_q", []⟩ : MeasurementDiagnosis).recommended_level_trim_db =
      some (-0.8)) ∧
    (0 : ℚ) < CalibrationPrior.default.level_trim_db.variance ∧
    (∃ cp, (derive_calibration_update trivialFns
        ⟨some 0.8, some (-0.8), none, none, none, none, none, some 0.96,
          some "lower_q", []⟩ (some CalibrationPrior.default)).level_trim_db = some cp ∧
      cp.variance = 1 / (1 / CalibrationPrior.default.level_trim_db.variance +
        1 / LEVEL_OBS_VARIANCE) ∧
      cp.mean = cp.variance * (CalibrationPrior.default.level_trim_db.mean /
        CalibrationPrior.default.level_trim_db.variance + (-0.8) / LEVEL_OBS_VARIANCE)) :=
  ⟨rfl, by norm_num [CalibrationPrior.default],
    (c1_gaussian_conjugate_update trivialFns
      ⟨some 0.8, some (-0.8), none, none, none, none, none, some 0.96,
        some "lower_q", []⟩ CalibrationPrior.default).1 (-0.8) rfl
      (by norm_num [CalibrationPrior.default])⟩

/-- Helper: the sealed response keeps exactly the positive frequencies, in
order, and every output trace has one sample per kept frequency. -/
theorem sealed_response_aux_spec (R : RealFns) (s : SealedBoxSolver)
    (mic : ℚ) (l : List ℚ) :
    (sealed_response_aux R s mic l).frequency_hz =
        l.filter (fun f => decide (0 < f)) ∧
      (sealed_response_aux R s mic l).spl_db.length =
        (l.filter (fun f => decide (0 < f))).length ∧
      (sealed_response_aux R s mic l).impedance_ohm.length =
        (l.filter (fun f => decide (0 < f))).length ∧
      (sealed_response_aux R s mic l).cone_velocity_ms.length =
        (l.filter (fun f => decide (0 < f))).length ∧
      (sealed_response_aux R s mic l).cone_displacement_m.length =
        (l.filter (fun f => decide (0 < f))).length := by
  induction l with
  | nil => exact ⟨rfl, rfl, rfl, rfl, rfl⟩
  | cons f rest ih =>
    by_cases hf : f ≤ 0
    · have hd : decide (0 < f) = false := decide_eq_false (not_lt.mpr hf)
      simp only [sealed_response_aux, if_pos hf, List.filter_cons, hd,
        Bool.false_eq_true, if_false]
      exact ih
    · have hd : decide (0 < f) = true := decide_eq_true (lt_of_not_le hf)
      simp only [sealed_response_aux, if_neg hf, List.filter_cons, hd, if_true,
        List.length_cons]
      exact ⟨by rw [ih.1], by rw [ih.2.1], by rw [ih.2.2.1], by rw [ih.2.2.2.1],
        by rw [ih.2.2.2.2]⟩

/-- Helper: the vented response keeps exactly the positive frequencies, in
order, and every output trace has one sample per kept frequency. -/
theorem vented_response_aux_spec (R : RealFns) (s : VentedBoxSolver)
    (mic port_area : ℚ) (l : List ℚ) :
    (vented_response_aux R s mic port_area l).frequency_hz =
        l.filter (fun f => decide (0 < f)) ∧
      (vented_response_aux R s mic port_area l).spl_db.length =
        (l.filter (fun f => decide (0 < f))).length ∧
      (vented_response_aux R s mic port_area l).impedance_ohm.length =
        (l.filter (fun f => decide (0 < f))).length ∧
      (vented_response_aux R s mic port_area l).cone_velocity_ms.length =
        (l.filter (fun f => decide (0 < f))).length ∧
      (vented_response_aux R s mic port_area l).cone_displacement_m.length =
        (l.filter (fun f => decide (0 < f))).length ∧
      (vented_response_aux R s mic port_area l).port_air_velocity_ms.length =
        (l.filter (fun f => decide (0 < f))).length := by
  induction l with
  | nil => exact ⟨rfl, rfl, rfl, rfl, rfl, rfl⟩
  | cons f rest ih =>
    by_cases hf : f ≤ 0
    · have hd : decide (0 < f) = false := decide_eq_false (not_lt.mpr hf)
      simp only [vented_response_aux, if_pos hf, List.filter_cons, hd,
        Bool.false_eq_true, if_false]
      exact ih
    · have hd : decide (0 < f) = true := decide_eq_true (lt_of_not_le hf)
      simp only [vented_response_aux, if_neg hf, List.filter_cons, hd, if_true,
        List.length_cons]
      exact ⟨by rw [ih.1], by rw [ih.2.1], by rw [ih.2.2.1], by rw [ih.2.2.2.1],
        by rw [ih.2.2.2.2.1], by rw [ih.2.2.2.2.2]⟩

/-- C2: the claim as frozen is false for the sealed solver: constructed with
drive voltage -1 and queried at microphone distance -1, it raises nothing and
returns a full sample for the frequency 10 instead of failing fast. -/
theorem c2_fail_fast_counterexample :
    ((SealedBoxSolver.init sampleDriver sampleBox (-1)).frequency_response
      trivialFns [10] (-1)).frequency_hz = [10] := rfl

/-- C2 (amended): both solvers silently skip all non-positive frequencies and
emit one sample per positive frequency; the vented solver fails fast on a
non-positive drive voltage at construction and on a non-positive microphone
distance at frequency_response; the sealed solver performs no such validation
and always returns a fully populated response. -/
theorem c2_frequency_skipping_and_validation (R : RealFns)
    (driver : DriverParameters) (box : BoxDesign) (vbox : VentedBoxDesign)
    (dv mic : ℚ) (freqs : List ℚ) :
    (((SealedBoxSolver.init driver box dv).frequency_response R freqs mic).frequency_hz =
      freqs.filter (fun f => decide (0 < f)) ∧
      ((SealedBoxSolver.init driver box dv).frequency_response R freqs mic).spl_db.length =
        (freqs.filter (fun f => decide (0 < f))).length ∧
      ((SealedBoxSolver.init driver box dv).frequency_response R freqs mic).impedance_ohm.length =
        (freqs.filter (fun f => decide (0 < f))).length ∧
      ((SealedBoxSolver.init driver box dv).frequency_response R freqs mic).cone_velocity_ms.length =
        (freqs.filter (fun f => decide (0 < f))).length ∧
      ((SealedBoxSolver.init driver box dv).frequency_response R freqs mic).cone_displacement_m.length =
        (freqs.filter (fun f => decide (0 < f))).length) ∧
    (dv ≤ 0 →
      VentedBoxSolver.init R driver vbox dv = .error "Drive voltage must be positive") ∧
    (0 < dv → ∃ s, VentedBoxSolver.init R driver vbox dv = .ok s) ∧
    (∀ s : VentedBoxSolver, mic ≤ 0 →
      s.frequency_response R freqs mic = .error "Microphone distance must be positive") ∧
    (∀ s : VentedBoxSolver, 0 < mic → ∃ resp,
      s.frequency_response R freqs mic = .ok resp ∧
      resp.frequency_hz = freqs.filter (fun f => decide (0 < f)) ∧
      resp.spl_db.length = (freqs.filter (fun f => decide (0 < f))).length ∧
      resp.impedance_ohm.length = (freqs.filter (fun f => decide (0 < f))).length ∧
      resp.cone_velocity_ms.length = (freqs.filter (fun f => decide (0 < f))).length ∧
      resp.cone_displacement_m.length = (freqs.filter (fun f => decide (0 < f))).length ∧
      resp.port_air_velocity_ms.length = (freqs.filter (fun f => decide (0 < f))).length) := by
  refine ⟨sealed_response_aux_spec R _ mic freqs, ?_, ?_, ?_, ?_⟩
  · intro hdv
    rw [VentedBoxSolver.init, if_pos hdv]
  · intro hdv
    refine ⟨⟨driver, vbox, dv, driver.compliance, vbox.acoustic_compliance,
      vbox.port.acoustic_mass,
      vbox.port.series_resistance R vbox.acoustic_compliance,
      vbox.leakage_resistance R vbox.acoustic_compliance,
      driver.mechanical_resistance⟩, ?_⟩
    rw [VentedBoxSolver.init, if_neg (not_le.mpr hdv)]
  · intro s hmic
    rw [VentedBoxSolver.frequency_response, if_pos hmic]
  · intro s hmic
    refine ⟨vented_response_aux R s mic (max s.box.port.area_m2 1e-9) freqs, ?_,
      vented_response_aux_spec R s mic (max s.box.port.area_m2 1e-9) freqs⟩
    rw [VentedBoxSolver.frequency_response, if_neg (not_le.mpr hmic)]

/-- C2 witness instance: at drive voltage 2.83 and microphone distance 1 the
vented solver constructs successfully, and the sealed response to the list
[0, -3, 10] keeps exactly the sample at 10. -/
theorem c2_frequency_skipping_and_validation_witness :
    ((2.83 : ℚ) ≤ 0 → VentedBoxSolver.init trivialFns sampleDriver
      sampleVentedBox 2.83 = .error "Drive voltage must be positive") ∧
    (∃ s, VentedBoxSolver.init trivialFns sampleDriver sampleVentedBox 2.83 = .ok s) ∧
    ((SealedBoxSolver.init sampleDriver sampleBox 2.83).frequency_response
      trivialFns [0, -3, 10] 1).frequency_hz = ([0, -3, 10] : List ℚ).filter
        (fun f => decide (0 < f)) := by
  refine ⟨?_, ?_, ?_⟩
  · exact (c2_frequency_skipping_and_validation trivialFns sampleDriver sampleBox
      sampleVentedBox 2.83 1 [0, -3, 10]).2.1
  · exact (c2_frequency_skipping_and_validation trivialFns sampleDriver sampleBox
      sampleVentedBox 2.83 1 [0, -3, 10]).2.2.1 (by norm_num)
  · exact (c2_frequency_skipping_and_validation trivialFns sampleDriver sampleBox
      sampleVentedBox 2.83 1 [0, -3, 10]).1.1
/-- C10: for every list of non-positive frequencies both solvers produce the
all-empty response, and the alignment summaries of the empty responses report
zero maxima, absent band edges and absent excursion figures instead of
raising. -/
theorem c10_alignment_summary_empty_response (R : RealFns)
    (sd : SealedBoxSolver) (vs : VentedBoxSolver) (freqs : List ℚ) (mic : ℚ)
    (hfreqs : ∀ f ∈ freqs, f ≤ 0) :
    sd.frequency_response R freqs mic = ⟨[], [], [], [], []⟩ ∧
    (∀ resp, vs.frequency_response R freqs mic = .ok resp →
      resp = ⟨[], [], [], [], [], []⟩) ∧
    ((sd.alignment_summary R ⟨[], [], [], [], []⟩).max_spl_db = 0 ∧
      (sd.alignment_summary R ⟨[], [], [], [], []⟩).max_cone_velocity_ms = 0 ∧
      (sd.alignment_summary R ⟨[], [], [], [], []⟩).max_cone_displacement_m = 0 ∧
      (sd.alignment_summary R ⟨[], [], [], [], []⟩).f3_low_hz = none ∧
      (sd.alignment_summary R ⟨[], [], [], [], []⟩).f3_high_hz = none ∧
      (sd.alignment_summary R ⟨[], [], [], [], []⟩).excursion_ratio = none ∧
      (sd.alignment_summary R ⟨[], [], [], [], []⟩).excursion_headroom_db = none ∧
      (sd.alignment_summary R ⟨[], [], [], [], []⟩).safe_drive_voltage_v = none) ∧
    ((vs.alignment_summary R ⟨[], [], [], [], [], []⟩).max_spl_db = 0 ∧
      (vs.alignment_summary R ⟨[], [], [], [], [], []⟩).max_cone_velocity_ms = 0 ∧
      (vs.alignment_summary R ⟨[], [], [], [], [], []⟩).max_cone_displacement_m = 0 ∧
      (vs.alignment_summary R ⟨[], [], [], [], [], []⟩).max_port_velocity_ms = 0 ∧
      (vs.alignment_summary R ⟨[], [], [], [], [], []⟩).f3_low_hz = none ∧
      (vs.alignment_summary R ⟨[], [], [], [], [], []⟩).f3_high_hz = none ∧
      (vs.alignment_summary R ⟨[], [], [], [], [], []⟩).excursion_ratio = none ∧
      (vs.alignment_summary R ⟨[], [], [], [], [], []⟩).excursion_headroom_db = none ∧
      (vs.alignment_summary R ⟨[], [], [], [], [], []⟩).safe_drive_voltage_v = none) := by
  have hfilter : freqs.filter (fun f => decide (0 < f)) = [] := by
    rw [List.filter_eq_nil_iff]
    intro f hf
    simp [not_lt.mpr (hfreqs f hf)]
  refine ⟨?_, ?_, ?_, ?_⟩
  · obtain ⟨h1, h2, h3, h4, h5⟩ := sealed_response_aux_spec R sd mic freqs
    rw [hfilter] at h1 h2 h3 h4 h5
    rw [List.length_nil, List.length_eq_zero] at h2 h3 h4 h5
    show sealed_response_aux R sd mic freqs = _
    have heta : sealed_response_aux R sd mic freqs =
        ⟨(sealed_response_aux R sd mic freqs).frequency_hz,
          (sealed_response_aux R sd mic freqs).spl_db,
          (sealed_response_aux R sd mic freqs).impedance_ohm,
          (sealed_response_aux R sd mic freqs).cone_velocity_ms,
          (sealed_response_aux R sd mic freqs).cone_displacement_m⟩ := rfl
    rw [heta, h1, h2, h3, h4, h5]
  · intro resp h
    rw [VentedBoxSolver.frequency_response] at h
    split at h
    · cases h
    · simp only [Except.ok.injEq] at h
      obtain ⟨h1, h2, h3, h4, h5, h6⟩ :=
        vented_response_aux_spec R vs mic (max vs.box.port.area_m2 1e-9) freqs
      rw [hfilter] at h1 h2 h3 h4 h5 h6
      rw [List.length_nil, List.length_eq_zero] at h2 h3 h4 h5 h6
      subst h
      have heta : vented_response_aux R vs mic (max vs.box.port.area_m2 1e-9) freqs =
          ⟨(vented_response_aux R vs mic (max vs.box.port.area_m2 1e-9) freqs).frequency_hz,
            (vented_response_aux R vs mic (max vs.box.port.area_m2 1e-9) freqs).spl_db,
            (vented_response_aux R vs mic (max vs.box.port.area_m2 1e-9) freqs).impedance_ohm,
            (vented_response_aux R vs mic (max vs.box.port.area_m2 1e-9) freqs).cone_velocity_ms,
            (vented_response_aux R vs mic (max vs.box.port.area_m2 1e-9) freqs).cone_displacement_m,
            (vented_response_aux R vs mic (max vs.box.port.area_m2 1e-9) freqs).port_air_velocity_ms⟩ := rfl
      rw [heta, h1, h2, h3, h4, h5, h6]
  · refine ⟨rfl, rfl, rfl, rfl, rfl, ?_, ?_, ?_⟩
    · rcases hx : sd.driver.xmax_m with _ | x
      · simp [SealedBoxSolver.alignment_summary, hx]
      · simp [SealedBoxSolver.alignment_summary, hx, pymax]
    · rcases hx : sd.driver.xmax_m with _ | x
      · simp [SealedBoxSolver.alignment_summary, hx]
      · simp [SealedBoxSolver.alignment_summary, hx, pymax]
    · rcases hx : sd.driver.xmax_m with _ | x
      · simp [SealedBoxSolver.alignment_summary, hx]
      · simp [SealedBoxSolver.alignment_summary, hx, pymax]
  · refine ⟨rfl, rfl, rfl, rfl, rfl, rfl, ?_, ?_, ?_⟩
    · rcases hx : vs.driver.xmax_m with _ | x
      · simp [VentedBoxSolver.alignment_summary, hx]
      · simp [VentedBoxSolver.alignment_summary, hx, pymax]
    · rcases hx : vs.driver.xmax_m with _ | x
      · simp [VentedBoxSolver.alignment_summary, hx]
      · simp [VentedBoxSolver.alignment_summary, hx, pymax]
    · rcases hx : vs.driver.xmax_m with _ | x
      · simp [VentedBoxSolver.alignment_summary, hx]
      · simp [VentedBoxSolver.alignment_summary, hx, pymax]

/-- C10 witness instance: the frequency list [0, -5] is entirely
non-positive, and the sealed response to it is empty. -/
theorem c10_alignment_summary_empty_response_witness :
    (∀ f ∈ ([0, -5] : List ℚ), f ≤ 0) ∧
    (SealedBoxSolver.init sampleDriver sampleBox 2.83).frequency_response
      trivialFns [0, -5] 1 = ⟨[], [], [], [], []⟩ := by
  refine ⟨by decide, ?_⟩
  exact (c10_alignment_summary_empty_response trivialFns
    (SealedBoxSolver.init sampleDriver sampleBox 2.83)
    ⟨sampleDriver, sampleVentedBox, 2.83, 1, 1, 1, 1, none, 1⟩
    [0, -5] 1 (by decide)).1


/-- Helper: getLastD of a nonempty list is its last element, for any defaults. -/
theorem getLastD_cons_eq_getD' {α : Type} : ∀ (xs : List α) (x d dd : α),
    (x :: xs).getLastD d = (x :: xs).getD xs.length dd
  | [], _, _, _ => rfl
  | y :: ys, x, d, dd => by
    rw [List.getLastD_cons]
    exact getLastD_cons_eq_getD' ys y x dd

theorem map_getD_range {α : Type} (l : List α) (d : α) :
    (List.range l.length).map (fun i => l.getD i d) = l := by
  induction l with
  | nil => rfl
  | cons x xs ih =>
    rw [List.length_cons, List.range_succ_eq_map, List.map_cons, List.map_map]
    have h3 : ((fun i => (x :: xs).getD i d) ∘ (· + 1)) = fun i => xs.getD i d := by
      funext i
      rfl
    rw [h3, ih]
    rfl

theorem argsort_of_pairwise (l : List ℚ) (h : l.Pairwise (· < ·)) :
    argsort l = List.range l.length := by
  apply List.mergeSort_of_sorted
  apply List.Pairwise.imp_of_mem ?_ (List.pairwise_lt_range l.length)
  intro a b ha hb hab
  have hb' : b < l.length := List.mem_range.mp hb
  have ha' : a < l.length := List.mem_range.mp ha
  rw [List.getD_eq_getElem _ _ ha', List.getD_eq_getElem _ _ hb']
  exact decide_eq_true (le_of_lt (List.pairwise_iff_getElem.mp h a b ha' hb' hab))

theorem countP_lt_getD : ∀ (l : List ℚ), l.Pairwise (· < ·) →
    ∀ i, i < l.length → l.countP (fun x => decide (x < l.getD i 0)) = i
  | [], _, i, hi => absurd hi (by simp)
  | x :: xs, h, 0, _ => by
    apply List.countP_eq_zero.mpr
    intro y hy
    simp only [List.getD_cons_zero, decide_eq_true_eq, not_lt]
    rcases List.mem_cons.mp hy with rfl | hmem
    · exact le_refl y
    · exact le_of_lt ((List.pairwise_cons.mp h).1 y hmem)
  | x :: xs, h, i + 1, hi => by
    obtain ⟨hhead, htail⟩ := List.pairwise_cons.mp h
    have hi' : i < xs.length := by simpa using hi
    have hmem : xs.getD i 0 ∈ xs := by
      rw [List.getD_eq_getElem _ _ hi']
      exact List.getElem_mem hi'
    have hx : x < xs.getD i 0 := hhead _ hmem
    rw [List.getD_cons_succ, List.countP_cons]
    rw [countP_lt_getD xs htail i hi']
    rw [if_pos (decide_eq_true hx)]

theorem interpQ_self (freq values : List ℚ) (hmono : freq.Pairwise (· < ·))
    (hlen : values.length = freq.length) (i : ℕ) (hi : i < freq.length) :
    interpQ freq values (freq.getD i 0) = values.getD i 0 := by
  have hpos : 0 < freq.length := Nat.lt_of_le_of_lt (Nat.zero_le i) hi
  have hhead : freq.headD 0 = freq.getD 0 0 := by
    cases freq with
    | nil => simp at hpos
    | cons a l => rfl
  have hvpos : 0 < values.length := by rw [hlen]; exact hpos
  have hvhead : values.headD 0 = values.getD 0 0 := by
    cases values with
    | nil => simp at hvpos
    | cons a l => rfl
  have hlast : freq.getLastD 0 = freq.getD (freq.length - 1) 0 := by
    cases freq with
    | nil => simp at hpos
    | cons a l => exact getLastD_cons_eq_getD' l a 0 0
  have hvlast : values.getLastD 0 = values.getD (values.length - 1) 0 := by
    cases values with
    | nil => simp at hvpos
    | cons a l => exact getLastD_cons_eq_getD' l a 0 0
  have hlt : ∀ a b, a < b → b < freq.length → freq.getD a 0 < freq.getD b 0 := by
    intro a b hab hb
    have ha : a < freq.length := lt_trans hab hb
    rw [List.getD_eq_getElem _ _ ha, List.getD_eq_getElem _ _ hb]
    exact List.pairwise_iff_getElem.mp hmono a b ha hb hab
  by_cases hi0 : i = 0
  · subst hi0
    rw [interpQ, hhead, if_pos (le_refl _), hvhead]
  · have h0i : 0 < i := Nat.pos_of_ne_zero hi0
    rw [interpQ, hhead, if_neg (not_le.mpr (hlt 0 i h0i hi))]
    by_cases hil : i = freq.length - 1
    · rw [hlast, ← hil, if_pos (le_refl _), hvlast, hlen, ← hil]
    · have hisucc : i < freq.length - 1 := by omega
      rw [hlast, if_neg (not_le.mpr (hlt i (freq.length - 1) hisucc (by omega)))]
      have hidx : bisect_left freq (freq.getD i 0) = i := by
        rw [bisect_left]
        exact countP_lt_getD freq hmono i hi
      simp only [hidx]
      rw [if_neg hi0, if_neg (not_le.mpr hi)]
      have hne : freq.getD i 0 ≠ freq.getD (i - 1) 0 :=
        ne_of_gt (hlt (i - 1) i (by omega) hi)
      rw [if_neg hne]
      rw [div_self (sub_ne_zero.mpr hne)]
      ring

theorem map_interpQ_self (freq values : List ℚ) (hmono : freq.Pairwise (· < ·))
    (hlen : values.length = freq.length) :
    freq.map (interpQ freq values) = values := by
  apply List.ext_getElem (by rw [List.length_map, hlen])
  intro i h1 h2
  have hif : i < freq.length := by simpa using h1
  have hiv : i < values.length := h2
  rw [List.getElem_map, ← List.getD_eq_getElem freq 0 hif,
    ← List.getD_eq_getElem values 0 hiv]
  exact interpQ_self freq values hmono hlen i hif

theorem interpC_self (freq : List ℚ) (values : List Cx)
    (hmono : freq.Pairwise (· < ·)) (hlen : values.length = freq.length)
    (i : ℕ) (hi : i < freq.length) :
    interpC freq values (freq.getD i 0) = values.getD i (Cx.ofQ 0) := by
  have hpos : 0 < freq.length := Nat.lt_of_le_of_lt (Nat.zero_le i) hi
  have hhead : freq.headD 0 = freq.getD 0 0 := by
    cases freq with
    | nil => simp at hpos
    | cons a l => rfl
  have hvpos : 0 < values.length := by rw [hlen]; exact hpos
  have hvhead : values.headD (Cx.ofQ 0) = values.getD 0 (Cx.ofQ 0) := by
    cases values with
    | nil => simp at hvpos
    | cons a l => rfl
  have hlast : freq.getLastD 0 = freq.getD (freq.length - 1) 0 := by
    cases freq with
    | nil => simp at hpos
    | cons a l => exact getLastD_cons_eq_getD' l a 0 0
  have hvlast : values.getLastD (Cx.ofQ 0) =
      values.getD (values.length - 1) (Cx.ofQ 0) := by
    cases values with
    | nil => simp at hvpos
    | cons a l => exact getLastD_cons_eq_getD' l a (Cx.ofQ 0) (Cx.ofQ 0)
  have hlt : ∀ a b, a < b → b < freq.length → freq.getD a 0 < freq.getD b 0 := by
    intro a b hab hb
    have ha : a < freq.length := lt_trans hab hb
    rw [List.getD_eq_getElem _ _ ha, List.getD_eq_getElem _ _ hb]
    exact List.pairwise_iff_getElem.mp hmono a b ha hb hab
  by_cases hi0 : i = 0
  · subst hi0
    rw [interpC, hhead, if_pos (le_refl _), hvhead]
  · have h0i : 0 < i := Nat.pos_of_ne_zero hi0
    rw [interpC, hhead, if_neg (not_le.mpr (hlt 0 i h0i hi))]
    by_cases hil : i = freq.length - 1
    · rw [hlast, ← hil, if_pos (le_refl _), hvlast, hlen, ← hil]
    · have hisucc : i < freq.length - 1 := by omega
      rw [hlast, if_neg (not_le.mpr (hlt i (freq.length - 1) hisucc (by omega)))]
      have hidx : bisect_left freq (freq.getD i 0) = i := by
        rw [bisect_left]
        exact countP_lt_getD freq hmono i hi
      simp only [hidx]
      rw [if_neg hi0, if_neg (not_le.mpr hi)]
      have hne : freq.getD i 0 ≠ freq.getD (i - 1) 0 :=
        ne_of_gt (hlt (i - 1) i (by omega) hi)
      rw [if_neg hne]
      rw [div_self (sub_ne_zero.mpr hne)]
      have h1 : (values.getD (i - 1) (Cx.ofQ 0)).re +
          ((values.getD i (Cx.ofQ 0)).re - (values.getD (i - 1) (Cx.ofQ 0)).re) * 1 =
          (values.getD i (Cx.ofQ 0)).re := by ring
      have h2 : (values.getD (i - 1) (Cx.ofQ 0)).im +
          ((values.getD i (Cx.ofQ 0)).im - (values.getD (i - 1) (Cx.ofQ 0)).im) * 1 =
          (values.getD i (Cx.ofQ 0)).im := by ring
      rw [h1, h2]

theorem map_interpC_self (freq : List ℚ) (values : List Cx)
    (hmono : freq.Pairwise (· < ·)) (hlen : values.length = freq.length) :
    freq.map (interpC freq values) = values := by
  apply List.ext_getElem (by rw [List.length_map, hlen])
  intro i h1 h2
  have hif : i < freq.length := by simpa using h1
  have hiv : i < values.length := h2
  rw [List.getElem_map, ← List.getD_eq_getElem freq 0 hif,
    ← List.getD_eq_getElem values (Cx.ofQ 0) hiv]
  exact interpC_self freq values hmono hlen i hif

/-- Helper: resampling a nonempty trace with a strictly increasing frequency
axis and consistent channel lengths onto its own axis is the identity. -/
theorem resample_self (t : MeasurementTrace) (hne : t.frequency_hz ≠ [])
    (hmono : t.frequency_hz.Pairwise (· < ·))
    (hspl : ∀ l, t.spl_db = some l → l.length = t.frequency_hz.length)
    (hph : ∀ l, t.phase_deg = some l → l.length = t.frequency_hz.length)
    (himp : ∀ l, t.impedance_ohm = some l → l.length = t.frequency_hz.length)
    (hthd : ∀ l, t.thd_percent = some l → l.length = t.frequency_hz.length) :
    t.resample t.frequency_hz = .ok t := by
  obtain ⟨freq, spl, ph, imp, thd⟩ := t
  simp only at hspl hph himp hthd
  rw [MeasurementTrace.resample]
  simp only at hne ⊢
  rw [if_neg (by simp [List.isEmpty_iff, hne])]
  rw [argsort_of_pairwise _ hmono, map_getD_range]
  have hQ : ∀ (o : Option (List ℚ)),
      (∀ l, o = some l → l.length = freq.length) →
      (o.map (fun v => (List.range freq.length).map (fun i => v.getD i 0))).map
        (fun v => freq.map (interpQ freq v)) = o := by
    intro o ho
    rcases o with _ | v
    · rfl
    · have hv := ho v rfl
      show some (freq.map (interpQ freq ((List.range freq.length).map
        (fun i => v.getD i 0)))) = some v
      have h1 : (List.range freq.length).map (fun i => v.getD i 0) = v := by
        rw [← hv]
        exact map_getD_range v 0
      rw [h1]
      rw [map_interpQ_self freq v hmono hv]
  have hC : ∀ (o : Option (List Cx)),
      (∀ l, o = some l → l.length = freq.length) →
      (o.map (fun v => (List.range freq.length).map (fun i => v.getD i (Cx.ofQ 0)))).map
        (fun v => freq.map (interpC freq v)) = o := by
    intro o ho
    rcases o with _ | v
    · rfl
    · have hv := ho v rfl
      show some (freq.map (interpC freq ((List.range freq.length).map
        (fun i => v.getD i (Cx.ofQ 0))))) = some v
      have h1 : (List.range freq.length).map (fun i => v.getD i (Cx.ofQ 0)) = v := by
        rw [← hv]
        exact map_getD_range v (Cx.ofQ 0)
      rw [h1]
      rw [map_interpC_self freq v hmono hv]
  simp only [Except.ok.injEq, MeasurementTrace.mk.injEq]
  exact ⟨trivial, hQ spl hspl, hQ ph hph, hC imp himp, hQ thd hthd⟩

/-- C6: resample(T, T.frequency_hz) is value-identical to T on every channel,
including the complex impedance channel, for every valid trace (non-empty,
strictly increasing frequency axis, channels as long as the axis). -/
theorem c6_resample_idempotent (t : MeasurementTrace)
    (hne : t.frequency_hz ≠ [])
    (hmono : t.frequency_hz.Pairwise (· < ·))
    (hspl : ∀ l, t.spl_db = some l → l.length = t.frequency_hz.length)
    (hph : ∀ l, t.phase_deg = some l → l.length = t.frequency_hz.length)
    (himp : ∀ l, t.impedance_ohm = some l → l.length = t.frequency_hz.length)
    (hthd : ∀ l, t.thd_percent = some l → l.length = t.frequency_hz.length) :
    t.resample t.frequency_hz = .ok t :=
  resample_self t hne hmono hspl hph himp hthd

/-- C6 witness instance: a concrete two-sample trace with all four channels
resamples onto its own axis unchanged. -/
theorem c6_resample_idempotent_witness :
    (([10, 20] : List ℚ).Pairwise (· < ·)) ∧
    (⟨[10, 20], some [1, 2], some [3, 4], some [⟨1, 2⟩, ⟨3, 4⟩], some [5, 6]⟩ :
        MeasurementTrace).resample [10, 20] =
      .ok ⟨[10, 20], some [1, 2], some [3, 4], some [⟨1, 2⟩, ⟨3, 4⟩], some [5, 6]⟩ :=
  ⟨by decide,
    c6_resample_idempotent
      ⟨[10, 20], some [1, 2], some [3, 4], some [⟨1, 2⟩, ⟨3, 4⟩], some [5, 6]⟩
      (by simp) (by decide)
      (fun l hl => by cases hl; rfl) (fun l hl => by cases hl; rfl)
      (fun l hl => by cases hl; rfl) (fun l hl => by cases hl; rfl)⟩

/-- Helper: the NaN filter is the identity on the exact rational model. -/
theorem filter_isnan_id (l : List ℚ) :
    l.filter (fun v => !(math_isnan v)) = l := by
  simp [math_isnan]

/-- Helper: the pointwise difference of a list with itself is all zeros. -/
theorem zipWith_sub_self (l : List ℚ) :
    List.zipWith (fun a b => a - b) l l = List.replicate l.length 0 := by
  induction l with
  | nil => rfl
  | cons x xs ih => simp [List.replicate_succ, ih]

/-- Helper: mapping over the zip of a list with itself is mapping over the
diagonal. -/
theorem zip_self_map {α : Type} (l : List ℚ) (g : ℚ × ℚ → α) :
    (l.zip l).map g = l.map (fun x => g (x, x)) := by
  induction l with
  | nil => rfl
  | cons x xs ih => simp [ih]

/-- Helper: a nonnegative list summing to zero is all zeros. -/
theorem sum_all_zero (l : List ℚ) (h0 : ∀ x ∈ l, 0 ≤ x) (hs : l.sum = 0) :
    ∀ x ∈ l, x = 0 := by
  induction l with
  | nil => intro x hx; simp at hx
  | cons y ys ih =>
    rw [List.sum_cons] at hs
    have hy : 0 ≤ y := h0 y (List.mem_cons_self _ _)
    have hys : 0 ≤ ys.sum :=
      List.sum_nonneg (fun x hx => h0 x (List.mem_cons_of_mem _ hx))
    intro x hx
    rcases List.mem_cons.mp hx with rfl | hmem
    · linarith
    · exact ih (fun z hz => h0 z (List.mem_cons_of_mem _ hz)) (by linarith) x hmem

/-- Helper: the centered square sum of a non-constant list is strictly
positive. -/
theorem centered_square_sum_pos (l : List ℚ) (hnc : ∃ a ∈ l, ∃ b ∈ l, a ≠ b) :
    0 < centered_square_sum l := by
  have hnn : ∀ x ∈ l.map (fun x => (x - l.sum / (l.length : ℚ)) ^ 2), 0 ≤ x := by
    intro x hx
    obtain ⟨y, _, rfl⟩ := List.mem_map.mp hx
    positivity
  have h0 : 0 ≤ centered_square_sum l := List.sum_nonneg hnn
  rcases lt_or_eq_of_le h0 with h | h
  · exact h
  · exfalso
    obtain ⟨a, ha, b, hb, hab⟩ := hnc
    have hall := sum_all_zero _ hnn h.symm
    have ha0 := hall _ (List.mem_map_of_mem _ ha)
    have hb0 := hall _ (List.mem_map_of_mem _ hb)
    have ha1 : a - l.sum / (l.length : ℚ) = 0 := by
      have := pow_eq_zero_iff (n := 2) (by norm_num) |>.mp ha0
      exact this
    have hb1 : b - l.sum / (l.length : ℚ) = 0 := by
      have := pow_eq_zero_iff (n := 2) (by norm_num) |>.mp hb0
      exact this
    apply hab
    linarith

/-- Helper: the nonnegativity of the centered square sum. -/
theorem centered_square_sum_nonneg (l : List ℚ) : 0 ≤ centered_square_sum l := by
  apply List.sum_nonneg
  intro x hx
  obtain ⟨y, _, rfl⟩ := List.mem_map.mp hx
  positivity

/-- Helper: Pearson correlation of a non-constant series with itself is
exactly 1 when the sqrt model is exact on the square that appears in the
denominator. -/
theorem pearson_self (R : RealFns) (spl : List ℚ) (h2 : 2 ≤ spl.length)
    (hnc : ∃ a ∈ spl, ∃ b ∈ spl, a ≠ b)
    (hss : R.sqrt (centered_square_sum spl * centered_square_sum spl) =
      centered_square_sum spl) :
    pearson_correlation R (some spl) (some spl) = .ok (some 1) := by
  have hS := centered_square_sum_pos spl hnc
  simp only [pearson_correlation]
  rw [if_pos trivial]
  have hfilter : ((spl.zip spl).filter
      (fun q => !(math_isnan q.1) && !(math_isnan q.2))) = spl.zip spl := by
    simp [math_isnan]
  rw [hfilter]
  have hziplen : (spl.zip spl).length = spl.length := by
    rw [List.length_zip, min_self]
  rw [hziplen, if_neg (by omega : ¬ spl.length < 2)]
  rw [List.map_fst_zip _ _ (le_refl _), List.map_snd_zip _ _ (le_refl _)]
  rw [zip_self_map, zip_self_map, zip_self_map]
  simp only []
  have hcov : (fun x : ℚ => (x - spl.sum / (spl.length : ℚ)) *
      (x - spl.sum / (spl.length : ℚ))) =
      fun x : ℚ => (x - spl.sum / (spl.length : ℚ)) ^ 2 := by
    funext x
    ring
  rw [hcov]
  have hS' : (spl.map (fun x => (x - spl.sum / (spl.length : ℚ)) ^ 2)).sum =
      centered_square_sum spl := rfl
  rw [hS', hss, if_neg (not_le.mpr hS), div_self (ne_of_gt hS)]

/-- Helper: the coefficient of determination of a non-constant series with
itself is exactly 1. -/
theorem r_squared_self (spl : List ℚ) (h2 : 2 ≤ spl.length)
    (hnc : ∃ a ∈ spl, ∃ b ∈ spl, a ≠ b) :
    coefficient_of_determination (some spl) (some spl) = .ok (some 1) := by
  have hS := centered_square_sum_pos spl hnc
  simp only [coefficient_of_determination]
  rw [if_pos trivial]
  have hfilter : ((spl.zip spl).filter
      (fun q => !(math_isnan q.1) && !(math_isnan q.2))) = spl.zip spl := by
    simp [math_isnan]
  rw [hfilter]
  have hziplen : (spl.zip spl).length = spl.length := by
    rw [List.length_zip, min_self]
  rw [hziplen, if_neg (by omega : ¬ spl.length < 2)]
  rw [List.map_fst_zip _ _ (le_refl _)]
  rw [zip_self_map, zip_self_map]
  simp only []
  have hS' : (spl.map (fun x => (x - spl.sum / (spl.length : ℚ)) ^ 2)).sum =
      centered_square_sum spl := rfl
  rw [hS', if_neg (not_le.mpr hS)]
  have hres : (spl.map (fun x : ℚ => (x - x) ^ 2)).sum = 0 := by
    have : (fun x : ℚ => (x - x) ^ 2) = fun _ : ℚ => (0 : ℚ) := by
      funext x
      ring
    rw [this, List.map_const']
    simp
  rw [hres]
  norm_num

/-- Helper: the RMSE of an all-zero delta series is zero when the sqrt model
sends 0 to 0. -/
theorem rmse_replicate_zero (R : RealFns) (n : ℕ) (hn : n ≠ 0)
    (hsq0 : R.sqrt 0 = 0) :
    rmse_stat R (some (List.replicate n 0)) = some 0 := by
  simp only [rmse_stat, filter_isnan_id]
  rw [if_neg (by simp [List.isEmpty_iff, List.replicate_eq_nil_iff, hn])]
  have hmap : (List.replicate n (0 : ℚ)).map (fun v => v * v) =
      List.replicate n 0 := by
    simp
  rw [hmap]
  simp [List.sum_replicate, hsq0]

/-- Helper: the MAE of an all-zero delta series is zero. -/
theorem mae_replicate_zero (n : ℕ) (hn : n ≠ 0) :
    mae_stat (some (List.replicate n 0)) = some 0 := by
  simp only [mae_stat, filter_isnan_id]
  have hmap : (List.replicate n (0 : ℚ)).map (fun v => |v|) =
      List.replicate n 0 := by
    simp
  rw [hmap]
  rw [if_neg (by simp [List.isEmpty_iff, List.replicate_eq_nil_iff, hn])]
  simp [List.sum_replicate]

/-- Helper: the mean of an all-zero delta series is zero. -/
theorem mean_replicate_zero (n : ℕ) (hn : n ≠ 0) :
    mean_stat (some (List.replicate n 0)) = some 0 := by
  simp only [mean_stat, filter_isnan_id]
  rw [if_neg (by simp [List.isEmpty_iff, List.replicate_eq_nil_iff, hn])]
  simp [List.sum_replicate]


/-- Helper: a difference series of a channel with itself always succeeds. -/
theorem diff_self_ok (o : Option (List ℚ)) :
    ∃ r, difference_series o o = .ok r := by
  rcases o with _ | l
  · exact ⟨none, rfl⟩
  · refine ⟨some (List.zipWith (fun a b => a - b) l l), ?_⟩
    simp [difference_series]

/-- Helper: an impedance delta of a channel with itself always succeeds. -/
theorem imp_diff_self_ok (R : RealFns) (o : Option (List Cx)) :
    ∃ r, impedance_delta_series R o o = .ok r := by
  rcases o with _ | l
  · exact ⟨none, rfl⟩
  · refine ⟨some (List.zipWith (fun a b => Cx.absWith R a - Cx.absWith R b) l l), ?_⟩
    simp [impedance_delta_series]

/-- Helper: a second coordinate taken from a filtered zip belongs to the second
input list. -/
theorem mem_filter_zip_snd {l₁ l₂ : List ℚ} {p : ℚ × ℚ → Bool} {x : ℚ}
    (hx : x ∈ ((l₁.zip l₂).filter p).map Prod.snd) : x ∈ l₂ := by
  obtain ⟨q, hq, rfl⟩ := List.mem_map.mp hx
  obtain ⟨a, b⟩ := q
  exact (List.of_mem_zip (List.mem_filter.mp hq).1).2

/-- Helper: a band mean over an all-zero series is either absent (empty band)
or zero. -/
theorem band_mean_zero (freq : List ℚ) (lo hi : Option ℚ) :
    ∃ r, band_mean freq (some (List.replicate freq.length 0)) lo hi = .ok r ∧
      (r = none ∨ r = some 0) := by
  have hlen : freq.length = (List.replicate freq.length (0 : ℚ)).length := by
    rw [List.length_replicate]
  simp only [band_mean]
  rw [if_pos hlen]
  split_ifs with hemp
  · exact ⟨none, rfl, Or.inl rfl⟩
  · refine ⟨some 0, ?_, Or.inr rfl⟩
    refine congrArg Except.ok (congrArg some ?_)
    rw [List.sum_eq_zero
      (fun x hx => List.eq_of_mem_replicate (mem_filter_zip_snd hx)), zero_div]

/-- Helper: the peak-frequency scan succeeds whenever the lengths agree. -/
theorem peak_frequency_ok (freq vals : List ℚ) (hlen : freq.length = vals.length) :
    ∃ pk, peak_frequency freq (some vals) = .ok pk := by
  refine ⟨((freq.zip vals).foldl
    (fun best q =>
      if math_isnan q.2 then best
      else
        match best with
        | none => some q
        | some b => if b.2 < q.2 then some q else some b)
    none).map Prod.fst, ?_⟩
  simp only [peak_frequency]
  rw [if_pos hlen]

/-- Helper: the overall bias of an all-zero delta is absent or zero. -/
theorem mean_stat_replicate (n : ℕ) :
    mean_stat (some (List.replicate n (0 : ℚ))) = none ∨
      mean_stat (some (List.replicate n (0 : ℚ))) = some 0 := by
  rcases Nat.eq_zero_or_pos n with h | h
  · left
    subst h
    rfl
  · right
    exact mean_replicate_zero n (Nat.pos_iff_ne_zero.mp h)

/-- Helper: the diagnosis of an all-zero delta between a series and itself
carries no notes. -/
theorem diagnose_bias_zero_delta (R : RealFns) (freq spl : List ℚ)
    (hlen : freq.length = spl.length) :
    ∃ d, diagnose_bias R freq (some (List.replicate freq.length 0)) (some spl)
      (some spl) none = .ok d ∧ d.notes = [] := by
  obtain ⟨rl, hrl, hrl0⟩ := band_mean_zero freq none (some 45)
  obtain ⟨rm, hrm, hrm0⟩ := band_mean_zero freq (some 45) (some 120)
  obtain ⟨rh, hrh, hrh0⟩ := band_mean_zero freq (some 120) none
  obtain ⟨pk, hpk⟩ := peak_frequency_ok freq spl hlen
  have hmap : (diagnose_bias R freq (some (List.replicate freq.length 0))
      (some spl) (some spl) none).map (fun d => d.notes) = .ok ([] : List String) := by
    rw [diagnose_bias, hrl, hrm, hrh, hpk]
    refine congrArg Except.ok ?_
    rcases mean_stat_replicate freq.length with hov | hov <;>
      rcases hrl0 with rfl | rfl <;> rcases hrm0 with rfl | rfl <;>
      rcases hrh0 with rfl | rfl <;> rcases pk with _ | p <;>
      first
        | (norm_num [hov, List.foldl]; done)
        | (by_cases hp : (0 : ℚ) < p <;> norm_num [hov, hp, List.foldl])
  rcases hd : diagnose_bias R freq (some (List.replicate freq.length 0))
      (some spl) (some spl) none with e | d
  · rw [hd] at hmap
    cases hmap
  · rw [hd] at hmap
    refine ⟨d, rfl, ?_⟩
    simpa [Except.map] using hmap

/-- Helper: binding a successful Except value substitutes it directly. -/
theorem except_bind_ok {α β : Type} (a : α) (f : α → Except String β) :
    ((Except.ok a : Except String α) >>= f) = f a := rfl

/-- Helper: the Pearson correlation of a channel with itself never raises. -/
theorem pearson_self_ok (R : RealFns) (o : Option (List ℚ)) :
    ∃ p, pearson_correlation R o o = .ok p := by
  rcases o with _ | m
  · exact ⟨none, rfl⟩
  · simp only [pearson_correlation]
    rw [if_pos trivial]
    split_ifs <;> exact ⟨_, rfl⟩

/-- Helper: the coefficient of determination of a channel with itself never
raises. -/
theorem r_squared_self_ok (o : Option (List ℚ)) :
    ∃ r, coefficient_of_determination o o = .ok r := by
  rcases o with _ | m
  · exact ⟨none, rfl⟩
  · simp only [coefficient_of_determination]
    rw [if_pos trivial]
    split_ifs <;> exact ⟨_, rfl⟩

/-- Helper: full evaluation of compare_measurement_to_prediction on a trace
against itself (no smoothing, no port length): the delta is the all-zero
series and every statistic is the corresponding statistic of that series. -/
theorem compare_self_plumbing (R : RealFns) (t : MeasurementTrace) (spl : List ℚ)
    (hspl : t.spl_db = some spl) (hne : t.frequency_hz ≠ [])
    (hmono : t.frequency_hz.Pairwise (· < ·))
    (hlen : spl.length = t.frequency_hz.length)
    (hph : ∀ l, t.phase_deg = some l → l.length = t.frequency_hz.length)
    (himp : ∀ l, t.impedance_ohm = some l → l.length = t.frequency_hz.length)
    (hthd : ∀ l, t.thd_percent = some l → l.length = t.frequency_hz.length) :
    ∃ p r2 rp ri diag,
      pearson_correlation R (some spl) (some spl) = .ok p ∧
      coefficient_of_determination (some spl) (some spl) = .ok r2 ∧
      diag.notes = [] ∧
      compare_measurement_to_prediction R t t none none = .ok
        (⟨t.frequency_hz, some (List.replicate t.frequency_hz.length 0), rp, ri,
           none⟩,
         ⟨t.frequency_hz.length, pymin t.frequency_hz, pymax t.frequency_hz 0,
          rmse_stat R (some (List.replicate t.frequency_hz.length 0)),
          mae_stat (some (List.replicate t.frequency_hz.length 0)),
          mean_stat (some (List.replicate t.frequency_hz.length 0)),
          median_abs_deviation (some (List.replicate t.frequency_hz.length 0)),
          stddev_stat R (some (List.replicate t.frequency_hz.length 0)),
          p, r2,
          percentile_abs_stat (some (List.replicate t.frequency_hz.length 0)) 0.95,
          max_value_stat (some (List.replicate t.frequency_hz.length 0)),
          min_value_stat (some (List.replicate t.frequency_hz.length 0)),
          max_abs_stat (some (List.replicate t.frequency_hz.length 0)),
          rmse_stat R rp, rmse_stat R ri⟩,
         diag) := by
  obtain ⟨p, hp⟩ := pearson_self_ok R (some spl)
  obtain ⟨r2, hr2⟩ := r_squared_self_ok (some spl)
  obtain ⟨rp, hrp⟩ := diff_self_ok t.phase_deg
  obtain ⟨ri, hri⟩ := imp_diff_self_ok R t.impedance_ohm
  obtain ⟨diag, hdiag, hnotes⟩ :=
    diagnose_bias_zero_delta R t.frequency_hz spl hlen.symm
  have hres := resample_self t hne hmono
    (fun l hl => by rw [hspl] at hl; cases hl; exact hlen) hph himp hthd
  have hdiff : difference_series (some spl) (some spl) =
      .ok (some (List.replicate t.frequency_hz.length 0)) := by
    simp [difference_series, zipWith_sub_self, hlen]
  have hval : t.frequency_hz.isEmpty = false := by
    simp [List.isEmpty_iff, hne]
  refine ⟨p, r2, rp, ri, diag, hp, hr2, hnotes, ?_⟩
  rw [compare_measurement_to_prediction]
  simp only [hval, Bool.false_eq_true, if_false, hres, except_bind_ok, hspl,
    hdiff, hrp, hri, hp, hr2, hdiag, pure_bind]
  rfl

/-- Helper: the centered square sum of a constant series is zero. -/
theorem centered_square_sum_const (l : List ℚ)
    (h : ∀ a ∈ l, ∀ b ∈ l, a = b) : centered_square_sum l = 0 := by
  rcases l with _ | ⟨x, xs⟩
  · simp [centered_square_sum]
  · have hx : ∀ a ∈ (x :: xs), a = x :=
      fun a ha => h a ha x (List.mem_cons_self x xs)
    have hrep : (x :: xs) = List.replicate (x :: xs).length x :=
      List.eq_replicate_of_mem hx
    rw [centered_square_sum, hrep]
    simp only [List.sum_replicate, List.length_replicate, nsmul_eq_mul,
      List.map_replicate]
    have hm : (((x :: xs).length : ℚ)) ≠ 0 := by
      have hnat : (x :: xs).length ≠ 0 := Nat.succ_ne_zero xs.length
      exact_mod_cast hnat
    rw [mul_div_cancel_left₀ x hm, sub_self]
    simp

/-- Helper: the Pearson correlation of a channel with itself is reported as
absent when there are fewer than two samples or the channel is constant. -/
theorem pearson_self_none (R : RealFns) (spl : List ℚ) (hsq0 : R.sqrt 0 = 0)
    (hdeg : spl.length < 2 ∨ ¬∃ a ∈ spl, ∃ b ∈ spl, a ≠ b) :
    pearson_correlation R (some spl) (some spl) = .ok none := by
  simp only [pearson_correlation]
  rw [if_pos trivial]
  have hfilter : ((spl.zip spl).filter
      (fun q => !(math_isnan q.1) && !(math_isnan q.2))) = spl.zip spl := by
    simp [math_isnan]
  rw [hfilter]
  have hziplen : (spl.zip spl).length = spl.length := by
    rw [List.length_zip, min_self]
  rw [hziplen]
  by_cases hlen2 : spl.length < 2
  · rw [if_pos hlen2]
  · rcases hdeg with hlen2' | hconst
    · exact absurd hlen2' hlen2
    · push_neg at hconst
      have hcss := centered_square_sum_const spl hconst
      rw [if_neg hlen2]
      rw [List.map_fst_zip _ _ (le_refl _), List.map_snd_zip _ _ (le_refl _)]
      rw [zip_self_map, zip_self_map, zip_self_map]
      simp only []
      have hvar : (spl.map (fun x => (x - spl.sum / (spl.length : ℚ)) ^ 2)).sum =
          centered_square_sum spl := rfl
      rw [hvar, hcss, mul_zero, hsq0, if_pos (le_refl 0)]

/-- Helper: the coefficient of determination of a channel with itself is
reported as absent when there are fewer than two samples or the channel is
constant. -/
theorem r_squared_self_none (spl : List ℚ)
    (hdeg : spl.length < 2 ∨ ¬∃ a ∈ spl, ∃ b ∈ spl, a ≠ b) :
    coefficient_of_determination (some spl) (some spl) = .ok none := by
  simp only [coefficient_of_determination]
  rw [if_pos trivial]
  have hfilter : ((spl.zip spl).filter
      (fun q => !(math_isnan q.1) && !(math_isnan q.2))) = spl.zip spl := by
    simp [math_isnan]
  rw [hfilter]
  have hziplen : (spl.zip spl).length = spl.length := by
    rw [List.length_zip, min_self]
  rw [hziplen]
  by_cases hlen2 : spl.length < 2
  · rw [if_pos hlen2]
  · rcases hdeg with hlen2' | hconst
    · exact absurd hlen2' hlen2
    · push_neg at hconst
      have hcss := centered_square_sum_const spl hconst
      rw [if_neg hlen2]
      rw [List.map_fst_zip _ _ (le_refl _)]
      rw [zip_self_map, zip_self_map]
      simp only []
      have hvar : (spl.map (fun x => (x - spl.sum / (spl.length : ℚ)) ^ 2)).sum =
          centered_square_sum spl := rfl
      rw [hvar, hcss, if_pos (le_refl 0)]

/-- C3: comparing a valid measurement trace against itself yields an all-zero
delta with RMSE, MAE and bias exactly 0 and an empty diagnosis notes list,
for every valid trace; Pearson r and R-squared are exactly 1 whenever the
trace carries at least two samples and a non-constant SPL channel, and are
reported as absent (not 1) whenever it does not — with fewer than two samples
or a constant channel the correlation denominators vanish. The sqrt model is
assumed exact at the two points where it is evaluated. -/
theorem c3_compare_self_identity (R : RealFns) (t : MeasurementTrace)
    (spl : List ℚ)
    (hspl : t.spl_db = some spl) (hne : t.frequency_hz ≠ [])
    (hmono : t.frequency_hz.Pairwise (· < ·))
    (hlen : spl.length = t.frequency_hz.length)
    (hph : ∀ l, t.phase_deg = some l → l.length = t.frequency_hz.length)
    (himp : ∀ l, t.impedance_ohm = some l → l.length = t.frequency_hz.length)
    (hthd : ∀ l, t.thd_percent = some l → l.length = t.frequency_hz.length)
    (hsq0 : R.sqrt 0 = 0)
    (hss : R.sqrt (centered_square_sum spl * centered_square_sum spl) =
      centered_square_sum spl) :
    ∃ delta stats diag,
      compare_measurement_to_prediction R t t none none =
        .ok (delta, stats, diag) ∧
      stats.spl_rmse_db = some 0 ∧ stats.spl_mae_db = some 0 ∧
      stats.spl_bias_db = some 0 ∧ diag.notes = [] ∧
      (2 ≤ spl.length → (∃ a ∈ spl, ∃ b ∈ spl, a ≠ b) →
        stats.spl_pearson_r = some 1 ∧ stats.spl_r_squared = some 1) ∧
      (spl.length < 2 ∨ (¬∃ a ∈ spl, ∃ b ∈ spl, a ≠ b) →
        stats.spl_pearson_r = none ∧ stats.spl_r_squared = none) := by
  obtain ⟨p, r2, rp, ri, diag, hp, hr2, hnotes, hcomp⟩ :=
    compare_self_plumbing R t spl hspl hne hmono hlen hph himp hthd
  have hn0 : t.frequency_hz.length ≠ 0 :=
    fun h => hne (List.length_eq_zero.mp h)
  refine ⟨_, _, diag, hcomp, rmse_replicate_zero R _ hn0 hsq0,
    mae_replicate_zero _ hn0, mean_replicate_zero _ hn0, hnotes, ?_, ?_⟩
  · intro h2 hnc
    have h := pearson_self R spl h2 hnc hss
    rw [hp] at h
    have h' := r_squared_self spl h2 hnc
    rw [hr2] at h'
    exact ⟨Except.ok.inj h, Except.ok.inj h'⟩
  · intro hdeg
    have h := pearson_self_none R spl hsq0 hdeg
    rw [hp] at h
    have h' := r_squared_self_none spl hdeg
    rw [hr2] at h'
    exact ⟨Except.ok.inj h, Except.ok.inj h'⟩

/-- Witness for C3: a concrete two-sample non-constant trace compared against
itself yields zero errors, no diagnosis notes, and unit correlations via the
non-degenerate clause. -/
theorem c3_compare_self_identity_witness :
    (sqrtQuarterFns.sqrt
        (centered_square_sum [1, 2] * centered_square_sum [1, 2]) =
      centered_square_sum [1, 2]) ∧
    (∃ delta stats diag,
      compare_measurement_to_prediction sqrtQuarterFns
          ⟨[10, 20], some [1, 2], none, none, none⟩
          ⟨[10, 20], some [1, 2], none, none, none⟩ none none =
        .ok (delta, stats, diag) ∧
      stats.spl_rmse_db = some 0 ∧ stats.spl_mae_db = some 0 ∧
      stats.spl_bias_db = some 0 ∧ diag.notes = [] ∧
      (2 ≤ ([1, 2] : List ℚ).length →
        (∃ a ∈ ([1, 2] : List ℚ), ∃ b ∈ ([1, 2] : List ℚ), a ≠ b) →
        stats.spl_pearson_r = some 1 ∧ stats.spl_r_squared = some 1) ∧
      (([1, 2] : List ℚ).length < 2 ∨
          (¬∃ a ∈ ([1, 2] : List ℚ), ∃ b ∈ ([1, 2] : List ℚ), a ≠ b) →
        stats.spl_pearson_r = none ∧ stats.spl_r_squared = none)) :=
  ⟨by norm_num [sqrtQuarterFns, centered_square_sum],
   c3_compare_self_identity sqrtQuarterFns
     ⟨[10, 20], some [1, 2], none, none, none⟩ [1, 2] rfl (by decide)
     (by decide) rfl
     (fun l hl => nomatch hl) (fun l hl => nomatch hl) (fun l hl => nomatch hl)
     (by norm_num [sqrtQuarterFns])
     (by norm_num [sqrtQuarterFns, centered_square_sum])⟩

/-- Counterexample for C3 as stated: a valid single-sample trace compared
against itself reports an absent Pearson correlation (fewer than two pairs),
not 1. -/
theorem c3_compare_counterexample :
    ∃ delta stats diag,
      compare_measurement_to_prediction trivialFns
          ⟨[100], some [50], none, none, none⟩
          ⟨[100], some [50], none, none, none⟩ none none =
        .ok (delta, stats, diag) ∧
      stats.spl_pearson_r = none := by
  obtain ⟨p, r2, rp, ri, diag, hp, hr2, hnotes, hcomp⟩ :=
    compare_self_plumbing trivialFns ⟨[100], some [50], none, none, none⟩ [50]
      rfl (by decide) (by decide) rfl
      (fun l hl => nomatch hl) (fun l hl => nomatch hl) (fun l hl => nomatch hl)
  have hpn : p = none := by
    have h : pearson_correlation trivialFns (some [50]) (some [50]) =
        .ok none := rfl
    rw [hp] at h
    exact Except.ok.inj h
  subst hpn
  exact ⟨_, _, diag, hcomp, rfl⟩

/-- Helper: each sealed Monte-Carlo iteration increments the excursion
failure counter by at most one. -/
theorem sealed_tol_loop_fails_le (R : RealFns) (driver : DriverParameters)
    (design : BoxDesign) (spec : ToleranceSpec) (dv mic elr : ℚ)
    (freqs : List ℚ) :
    ∀ (n : ℕ) (st : Rng × List (String × List ℚ) × ℕ),
      (sealed_tol_loop R driver design spec dv mic elr freqs n st).2.2 ≤
        st.2.2 + n := by
  intro n
  induction n with
  | zero =>
    intro st
    simp [sealed_tol_loop]
  | succ n ih =>
    intro st
    obtain ⟨g, m, f⟩ := st
    simp only [sealed_tol_loop]
    refine le_trans (ih _) ?_
    dsimp only
    split <;> (try split) <;> omega

/-- Helper: each vented Monte-Carlo iteration increments each failure counter
by at most one (when the loop completes without raising). -/
theorem vented_tol_loop_counts (R : RealFns) (driver : DriverParameters)
    (design : VentedBoxDesign) (spec : ToleranceSpec) (dv mic elr : ℚ)
    (pvl : Option ℚ) (freqs : List ℚ) :
    ∀ (n : ℕ) (st : Rng × List (String × List ℚ) × ℕ × ℕ)
      (fin : Rng × List (String × List ℚ) × ℕ × ℕ),
      vented_tol_loop R driver design spec dv mic elr pvl freqs n st = .ok fin →
      fin.2.2.1 ≤ st.2.2.1 + n ∧ fin.2.2.2 ≤ st.2.2.2 + n := by
  intro n
  induction n with
  | zero =>
    intro st fin h
    simp only [vented_tol_loop] at h
    cases h
    omega
  | succ n ih =>
    intro st fin h
    obtain ⟨g, m, ef, pf⟩ := st
    simp only [vented_tol_loop] at h
    rcases hinit : VentedBoxSolver.init R (vary_driver driver spec g).1
        (vary_vented_box design spec (vary_driver driver spec g).2).1 dv with
      e | solver
    · rw [hinit] at h
      cases h
    · rw [hinit] at h
      dsimp only at h
      rcases hfr : solver.frequency_response R freqs mic with e | resp
      · rw [hfr] at h
        cases h
      · rw [hfr] at h
        obtain ⟨h1, h2⟩ := ih _ _ h
        dsimp only at h1 h2
        constructor
        · refine le_trans h1 ?_
          dsimp only
          split <;> (try split) <;> omega
        · refine le_trans h2 ?_
          dsimp only
          split <;> (try split) <;> omega

/-- Helper: the sealed tolerance report's excursion exceedance rate lies in
[0,1] and its port rate is absent. -/
theorem sealed_report_rates (R : RealFns) (driver : DriverParameters)
    (design : BoxDesign) (freqs : List ℚ) (iterations : ℕ)
    (spec : ToleranceSpec) (rng : Rng) (dv mic elr : ℚ)
    (hit : iterations ≠ 0) :
    rates_in_unit_interval (.ok (sealed_report R driver design freqs iterations
      spec rng dv mic elr)) := by
  have hb : (sealed_tol_loop R driver design spec dv mic elr freqs iterations
      (rng, [], 0)).2.2 ≤ iterations := by
    simpa using
      sealed_tol_loop_fails_le R driver design spec dv mic elr freqs iterations
        (rng, [], 0)
  have hpos : (0 : ℚ) < (iterations : ℚ) := by
    exact_mod_cast Nat.pos_of_ne_zero hit
  refine ⟨?_, ?_, ?_⟩
  · show (0 : ℚ) ≤ ((sealed_tol_loop R driver design spec dv mic elr freqs
      iterations (rng, [], 0)).2.2 : ℚ) / (iterations : ℚ)
    positivity
  · show ((sealed_tol_loop R driver design spec dv mic elr freqs
      iterations (rng, [], 0)).2.2 : ℚ) / (iterations : ℚ) ≤ 1
    rw [div_le_one hpos]
    exact_mod_cast hb
  · intro x hx
    cases hx

/-- Helper: the vented tolerance report's exceedance rates lie in [0,1]
whenever the report is produced at all. -/
theorem vented_report_rates (R : RealFns) (driver : DriverParameters)
    (design : VentedBoxDesign) (freqs : List ℚ) (iterations : ℕ)
    (spec : ToleranceSpec) (rng : Rng) (dv mic elr : ℚ) (pvl : Option ℚ)
    (hit : iterations ≠ 0) :
    rates_in_unit_interval (vented_report R driver design freqs iterations
      spec rng dv mic elr pvl) := by
  have hpos : (0 : ℚ) < (iterations : ℚ) := by
    exact_mod_cast Nat.pos_of_ne_zero hit
  rcases h1 : VentedBoxSolver.init R driver design dv with e | solver
  · have hE : vented_report R driver design freqs iterations spec rng dv mic
        elr pvl = .error e := by
      rw [vented_report, h1]
      rfl
    rw [hE]
    exact trivial
  · rcases h2 : solver.frequency_response R freqs mic with e | resp
    · have hE : vented_report R driver design freqs iterations spec rng dv mic
          elr pvl = .error e := by
        simp only [vented_report, h1, h2, except_bind_ok]
        rfl
      rw [hE]
      exact trivial
    · rcases h3 : vented_tol_loop R driver design spec dv mic elr pvl freqs
          iterations (rng, [], 0, 0) with e | fin
      · have hE : vented_report R driver design freqs iterations spec rng dv
            mic elr pvl = .error e := by
          simp only [vented_report, h1, h2, h3, except_bind_ok]
          rfl
        rw [hE]
        exact trivial
      · obtain ⟨hc1, hc2⟩ := vented_tol_loop_counts R driver design spec dv mic
          elr pvl freqs iterations (rng, [], 0, 0) fin h3
        dsimp only at hc1 hc2
        rw [Nat.zero_add] at hc1 hc2
        have hmap1 : (vented_report R driver design freqs iterations spec rng
            dv mic elr pvl).map (fun r => r.excursion_exceedance_rate) =
            .ok ((fin.2.2.1 : ℚ) / (iterations : ℚ)) := by
          simp only [vented_report, h1, h2, h3, except_bind_ok]
          rfl
        have hmap2 : (vented_report R driver design freqs iterations spec rng
            dv mic elr pvl).map (fun r => r.port_velocity_exceedance_rate) =
            .ok (pvl.map (fun _ => (fin.2.2.2 : ℚ) / (iterations : ℚ))) := by
          simp only [vented_report, h1, h2, h3, except_bind_ok]
          rfl
        rcases h4 : vented_report R driver design freqs iterations spec rng dv
            mic elr pvl with e | r
        · exact trivial
        · rw [h4] at hmap1 hmap2
          simp only [Except.map] at hmap1 hmap2
          have he := Except.ok.inj hmap1
          have hpe := Except.ok.inj hmap2
          refine ⟨?_, ?_, ?_⟩
          · rw [he]
            positivity
          · rw [he, div_le_one hpos]
            exact_mod_cast hc1
          · intro x hx
            rw [hpe] at hx
            rcases pvl with _ | lim
            · cases hx
            · cases hx
              constructor
              · positivity
              · rw [div_le_one hpos]
                exact_mod_cast hc2

/-- C9: run_tolerance_analysis is deterministic in its random stream — two
runs with identical arguments and identically seeded generators (same stream
values, same position) produce identical reports — and the excursion
exceedance rate, and the port-velocity exceedance rate when present, always
lie in [0,1]. -/
theorem c9_tolerance_determinism_and_rates (R : RealFns) (alignment : String)
    (driver : DriverParameters) (design : BoxDesign ⊕ VentedBoxDesign)
    (freqs : List ℚ) (iterations : ℕ) (tols : Option ToleranceSpec)
    (g₁ g₂ : Rng) (dv mic elr : ℚ) (pvl : Option ℚ)
    (hstream : ∀ n, g₁.stream n = g₂.stream n) (hidx : g₁.idx = g₂.idx) :
    run_tolerance_analysis R alignment driver design freqs iterations tols g₁
        dv mic elr pvl =
      run_tolerance_analysis R alignment driver design freqs iterations tols g₂
        dv mic elr pvl ∧
    rates_in_unit_interval (run_tolerance_analysis R alignment driver design
      freqs iterations tols g₁ dv mic elr pvl) := by
  have hg : g₁ = g₂ := by
    obtain ⟨s₁, i₁⟩ := g₁
    obtain ⟨s₂, i₂⟩ := g₂
    dsimp only at hstream hidx
    cases funext hstream
    cases hidx
    rfl
  refine ⟨by rw [hg], ?_⟩
  by_cases hit : iterations = 0
  · have hE : run_tolerance_analysis R alignment driver design freqs iterations
        tols g₁ dv mic elr pvl = .error "iterations must be positive" := by
      rw [run_tolerance_analysis, if_pos hit]
    rw [hE]
    exact trivial
  · by_cases hfe : freqs.isEmpty = true
    · have hE : run_tolerance_analysis R alignment driver design freqs
          iterations tols g₁ dv mic elr pvl =
          .error "frequencies_hz must not be empty" := by
        rw [run_tolerance_analysis, if_neg hit, if_pos hfe]
      rw [hE]
      exact trivial
    · by_cases hal : alignment = "sealed"
      · rcases design with box | vbox
        · have hE : run_tolerance_analysis R alignment driver (.inl box) freqs
              iterations tols g₁ dv mic elr pvl =
              .ok (sealed_report R driver box freqs iterations
                (tols.getD DEFAULT_TOLERANCES) g₁ dv mic elr) := by
            simp only [run_tolerance_analysis, hit, hfe, hal, if_true,
              if_false, ite_false, Bool.false_eq_true]
          rw [hE]
          exact sealed_report_rates R driver box freqs iterations
            (tols.getD DEFAULT_TOLERANCES) g₁ dv mic elr hit
        · have hE : run_tolerance_analysis R alignment driver (.inr vbox) freqs
              iterations tols g₁ dv mic elr pvl =
              .error "Sealed analysis requires a BoxDesign" := by
            simp only [run_tolerance_analysis, hit, hfe, hal, if_true,
              if_false, ite_false, Bool.false_eq_true]
          rw [hE]
          exact trivial
      · by_cases hav : alignment = "vented"
        · rcases design with box | vbox
          · have hE : run_tolerance_analysis R alignment driver (.inl box)
                freqs iterations tols g₁ dv mic elr pvl =
                .error "Vented analysis requires a VentedBoxDesign" := by
              simp only [run_tolerance_analysis, hit, hfe, hal, hav, if_true,
                if_false, ite_false, Bool.false_eq_true]
              rw [if_neg (by decide)]
            rw [hE]
            exact trivial
          · have hE : run_tolerance_analysis R alignment driver (.inr vbox)
                freqs iterations tols g₁ dv mic elr pvl =
                vented_report R driver vbox freqs iterations
                  (tols.getD DEFAULT_TOLERANCES) g₁ dv mic elr pvl := by
              simp only [run_tolerance_analysis, hit, hfe, hal, hav, if_true,
                if_false, ite_false, Bool.false_eq_true]
              rw [if_neg (by decide)]
            rw [hE]
            exact vented_report_rates R driver vbox freqs iterations
              (tols.getD DEFAULT_TOLERANCES) g₁ dv mic elr pvl hit
        · have hE : run_tolerance_analysis R alignment driver design freqs
              iterations tols g₁ dv mic elr pvl =
              .error "alignment must be sealed or vented" := by
            simp only [run_tolerance_analysis, hit, hfe, hal, hav, if_true,
              if_false, ite_false, Bool.false_eq_true]
          rw [hE]
          exact trivial

/-- Witness for C9: a concrete sealed analysis with the zero-stream generator
equals itself and reports rates inside [0,1]. -/
theorem c9_tolerance_determinism_and_rates_witness :
    (∀ n, zeroRng.stream n = zeroRng.stream n) ∧
    (run_tolerance_analysis trivialFns "sealed" sampleDriver (.inl sampleBox)
        [40] 1 none zeroRng 2.83 1 1.4 none =
      run_tolerance_analysis trivialFns "sealed" sampleDriver (.inl sampleBox)
        [40] 1 none zeroRng 2.83 1 1.4 none ∧
    rates_in_unit_interval (run_tolerance_analysis trivialFns "sealed"
      sampleDriver (.inl sampleBox) [40] 1 none zeroRng 2.83 1 1.4 none)) :=
  ⟨fun _ => rfl,
   c9_tolerance_determinism_and_rates trivialFns "sealed" sampleDriver
     (.inl sampleBox) [40] 1 none zeroRng zeroRng 2.83 1 1.4 none
     (fun _ => rfl) rfl⟩
